import Mathlib

/-!
# Verification development for the SUNAT electronic-invoicing pipeline

A shallow embedding of the Go sources (`internal/models`, `internal/services`,
`internal/handlers`, `pkg/sunat`) together with theorems about them.

Conventions of the embedding

* A Go `string` / `[]byte` is a list of bytes (`GoString`).  String literals of the
  source that are compared against data are ASCII and are written with `bytesOf`.
* A Go `error` is an optional message (`Option GoError`, `Except GoError α`).
* Functions of the Go standard library (`strings`, `unicode/utf8`, `encoding/base64`)
  are written here from their documented behaviour; library code whose behaviour
  cannot be written down as a function of its input alone (XML marshalling, ZIP
  containers, SHA-256, RSA, X.509, the clock, the network) is taken as a parameter.
-/

namespace Sunat

/-! ## Bytes and Go strings -/

/-- One byte. -/
abbrev Byte := Fin 256

/-- A Go `string` or `[]byte`: a finite sequence of bytes. -/
abbrev GoString := List Byte

/-- A Go `error` value is modelled by its message. -/
abbrev GoError := String

deriving instance DecidableEq for Except

/-- The bytes of an ASCII literal of the source. -/
def bytesOf (s : String) : GoString := s.data.map (fun c => Fin.ofNat c.toNat)

/-- Rendering of a byte string inside a formatted message (`%s`). -/
def showBytes (s : GoString) : String := String.mk (s.map (fun b => Char.ofNat b.val))

/-! ## `unicode/utf8` -/

/-- The replacement rune `utf8.RuneError`. -/
def RuneError : Nat := 0xFFFD

/-- Width of the encoding announced by a leading byte in `0xC2 .. 0xF4`
(the low bits of `utf8.first`). -/
def runeWidth (p0 : Nat) : Nat := if p0 < 0xE0 then 2 else if p0 < 0xF0 then 3 else 4

/-- Lower end of the range accepted for the second byte (`utf8.acceptRanges`). -/
def acceptLo (p0 : Nat) : Nat := if p0 = 0xE0 then 0xA0 else if p0 = 0xF0 then 0x90 else 0x80

/-- Upper end of the range accepted for the second byte (`utf8.acceptRanges`). -/
def acceptHi (p0 : Nat) : Nat := if p0 = 0xED then 0x9F else if p0 = 0xF4 then 0x8F else 0xBF

/-- `utf8.DecodeRuneInString`: the first rune of `s` and its width in bytes.  An empty
string gives `(RuneError, 0)`, an invalid encoding gives `(RuneError, 1)`. -/
def decodeRune : GoString → Nat × Nat
  | [] => (RuneError, 0)
  | p0 :: rest =>
    if p0.val < 0x80 then (p0.val, 1)
    else if p0.val < 0xC2 ∨ 0xF4 < p0.val then (RuneError, 1)
    else
      match rest with
      | [] => (RuneError, 1)
      | b1 :: rest1 =>
        if rest1.length + 2 < runeWidth p0.val then (RuneError, 1)
        else if b1.val < acceptLo p0.val ∨ acceptHi p0.val < b1.val then (RuneError, 1)
        else if runeWidth p0.val ≤ 2 then ((p0.val % 32) * 64 + b1.val % 64, 2)
        else
          match rest1 with
          | [] => (RuneError, 1)
          | b2 :: rest2 =>
            if b2.val < 0x80 ∨ 0xBF < b2.val then (RuneError, 1)
            else if runeWidth p0.val ≤ 3 then
              ((p0.val % 16) * 4096 + (b1.val % 64) * 64 + b2.val % 64, 3)
            else
              match rest2 with
              | [] => (RuneError, 1)
              | b3 :: _ =>
                if b3.val < 0x80 ∨ 0xBF < b3.val then (RuneError, 1)
                else
                  ((p0.val % 8) * 262144 + (b1.val % 64) * 4096
                    + (b2.val % 64) * 64 + b3.val % 64, 4)

/-- The runes visited by `for _, char := range s`, with `fuel` bounding the number
of iterations. -/
def rangeRunesAux : Nat → GoString → List Nat
  | 0, _ => []
  | fuel + 1, s =>
    match s with
    | [] => []
    | _ :: _ => (decodeRune s).1 :: rangeRunesAux fuel (s.drop (decodeRune s).2)

/-- The runes visited by `for _, char := range s`.  Every iteration consumes at least
one byte, so `len(s)` iterations are enough. -/
def rangeRunes (s : GoString) : List Nat := rangeRunesAux s.length s

/-! ## `models.ValidarRUC` (internal/models/bussiness.go) -/

/-- The Go function `ValidarRUC`; `none` is the `nil` error. -/
def ValidarRUC (ruc : GoString) : Option GoError :=
  if ruc.length ≠ 11 then
    some "RUC debe tener 11 dígitos"
  else if (rangeRunes ruc).any (fun char => char < 48 || char > 57) then
    some "RUC debe contener solo números"
  else
    let tipoContribuyente := ruc.take 2
    let tiposValidos := [bytesOf "10", bytesOf "15", bytesOf "17", bytesOf "20"]
    let valido := tiposValidos.any (fun tipo => decide (tipoContribuyente = tipo))
    if !valido then
      some ("tipo de contribuyente inválido: " ++ showBytes tipoContribuyente)
    else
      none

/-- Acceptance condition of `ValidarRUC`, on bytes. -/
def rucWellFormed (ruc : GoString) : Prop :=
  ruc.length = 11 ∧ (∀ b ∈ ruc, 48 ≤ b.val ∧ b.val ≤ 57) ∧
    (ruc.take 2 = bytesOf "10" ∨ ruc.take 2 = bytesOf "15" ∨
      ruc.take 2 = bytesOf "17" ∨ ruc.take 2 = bytesOf "20")

/-- Acceptance condition of `ValidarRUC`, on characters (runes). -/
def rucWellFormedRunes (ruc : GoString) : Prop :=
  (rangeRunes ruc).length = 11 ∧ (∀ r ∈ rangeRunes ruc, 48 ≤ r ∧ r ≤ 57) ∧
    (ruc.take 2 = bytesOf "10" ∨ ruc.take 2 = bytesOf "15" ∨
      ruc.take 2 = bytesOf "17" ∨ ruc.take 2 = bytesOf "20")

/-! ## `strings` and `unicode` -/

/-- `strings.HasPrefix`. -/
def HasPrefix (s pre : GoString) : Bool := pre.isPrefixOf s

/-- `strings.HasSuffix`. -/
def HasSuffix (s suf : GoString) : Bool := suf.isSuffixOf s

/-- Position of the first occurrence of `sep` in `s`, if there is one. -/
def indexOf? : GoString → GoString → Option Nat
  | [], sep => if sep.isEmpty then some 0 else none
  | c :: cs, sep =>
    if sep.isPrefixOf (c :: cs) then some 0 else (indexOf? cs sep).map (· + 1)

/-- `strings.Index`: the position of the first occurrence of `sep` in `s`, or `-1`. -/
def Index (s sep : GoString) : Int :=
  match indexOf? s sep with
  | some i => (i : Int)
  | none => -1

/-- The slice expression `s[lo:]` for an index known to be in range. -/
def sliceFrom (s : GoString) (lo : Int) : GoString := s.drop lo.toNat

/-- The slice expression `s[:hi]` for an index known to be in range. -/
def sliceTo (s : GoString) (hi : Int) : GoString := s.take hi.toNat

/-- The slice expression `s[lo:hi]` for indices known to be in range. -/
def slice (s : GoString) (lo hi : Int) : GoString := (s.take hi.toNat).drop lo.toNat

/-- Worker of `ReplaceAll`: `skip` counts the bytes of a match still to be dropped. -/
def replaceAllAux (old new : GoString) : Nat → GoString → GoString
  | _, [] => []
  | skip + 1, _ :: cs => replaceAllAux old new skip cs
  | 0, c :: cs =>
    if old.isPrefixOf (c :: cs) then new ++ replaceAllAux old new (old.length - 1) cs
    else c :: replaceAllAux old new 0 cs

/-- `strings.ReplaceAll` for a non-empty `old` (the only use in the sources): the
non-overlapping occurrences of `old`, found from left to right, become `new`. -/
def ReplaceAll (s old new : GoString) : GoString := replaceAllAux old new 0 s

/-- `unicode.IsSpace` on a rune. -/
def IsSpace (r : Nat) : Bool :=
  r = 0x09 || r = 0x0A || r = 0x0B || r = 0x0C || r = 0x0D || r = 0x20 || r = 0x85 ||
  r = 0xA0 || r = 0x1680 || (0x2000 ≤ r && r ≤ 0x200A) || r = 0x2028 || r = 0x2029 ||
  r = 0x202F || r = 0x205F || r = 0x3000

/-- `utf8.RuneStart`: the byte is not a continuation byte. -/
def RuneStart (b : Byte) : Bool := b.val / 64 ≠ 2

/-- The position at which `utf8.DecodeLastRuneInString` starts decoding a string whose
last byte is not ASCII: the nearest of the three bytes before the last one that can
start a rune, and otherwise the byte just below the scanning limit (or `0`). -/
def lastRuneStart (s : GoString) : Nat :=
  let e := s.length
  if 2 ≤ e ∧ RuneStart (s.getD (e - 2) 0) = true then e - 2
  else if 3 ≤ e ∧ RuneStart (s.getD (e - 3) 0) = true then e - 3
  else if 4 ≤ e ∧ RuneStart (s.getD (e - 4) 0) = true then e - 4
  else e - 5

/-- `utf8.DecodeLastRuneInString`: the last rune of `s` and its width. -/
def decodeLastRune (s : GoString) : Nat × Nat :=
  match s.getLast? with
  | none => (RuneError, 0)
  | some last =>
    if last.val < 0x80 then (last.val, 1)
    else
      let start := lastRuneStart s
      let d := decodeRune (s.drop start)
      if start + d.2 ≠ s.length then (RuneError, 1) else d

/-- `strings.TrimLeftFunc(s, unicode.IsSpace)`, with `fuel` bounding the iterations. -/
def trimLeftSpaceAux : Nat → GoString → GoString
  | 0, s => s
  | fuel + 1, s =>
    match s with
    | [] => []
    | _ :: _ =>
      if IsSpace (decodeRune s).1 then trimLeftSpaceAux fuel (s.drop (decodeRune s).2)
      else s

/-- `strings.TrimRightFunc(s, unicode.IsSpace)`, with `fuel` bounding the iterations. -/
def trimRightSpaceAux : Nat → GoString → GoString
  | 0, s => s
  | fuel + 1, s =>
    match s with
    | [] => []
    | _ :: _ =>
      if IsSpace (decodeLastRune s).1 then
        trimRightSpaceAux fuel (s.take (s.length - (decodeLastRune s).2))
      else s

/-- `strings.TrimSpace`: all leading and trailing white space, as defined by Unicode,
removed.  Each iteration removes at least one byte, so `len(s)` iterations suffice. -/
def TrimSpace (s : GoString) : GoString :=
  let t := trimLeftSpaceAux s.length s
  trimRightSpaceAux t.length t

/-! ## `UBLService.GenerateCanonicalXML` (internal/services/ubl_service.go) -/

/-- The comment-removing `for` loop of `GenerateCanonicalXML`; every iteration that
does not `break` removes at least five bytes, `fuel` bounds the iterations. -/
def stripCommentsLoop : Nat → GoString → GoString
  | 0, xmlStr => xmlStr
  | fuel + 1, xmlStr =>
    let startComment := Index xmlStr (bytesOf "<!--")
    if startComment = -1 then xmlStr
    else
      let endComment := Index (sliceFrom xmlStr startComment) (bytesOf "-->")
      if endComment = -1 then xmlStr
      else
        stripCommentsLoop fuel
          (sliceTo xmlStr startComment ++ sliceFrom xmlStr (startComment + endComment + 3))

/-- The Go method `GenerateCanonicalXML`.  Its error result is always `nil`. -/
def GenerateCanonicalXML (xmlData : GoString) : Except GoError GoString :=
  let xmlStr := xmlData
  -- Remover declaración XML
  let xmlStr :=
    if HasPrefix xmlStr (bytesOf "<?xml") then
      let xmlDeclarationEnd := Index xmlStr (bytesOf "?>")
      if xmlDeclarationEnd ≠ -1 then sliceFrom xmlStr (xmlDeclarationEnd + 2) else xmlStr
    else xmlStr
  -- Normalizar espacios en blanco
  let xmlStr := TrimSpace xmlStr
  -- Remover comentarios XML
  let xmlStr := stripCommentsLoop xmlStr.length xmlStr
  -- Remover espacios en blanco innecesarios entre elementos
  let xmlStr := ReplaceAll xmlStr (bytesOf ">\n") (bytesOf ">")
  let xmlStr := ReplaceAll xmlStr (bytesOf "\n<") (bytesOf "<")
  let xmlStr := ReplaceAll xmlStr (bytesOf ">  <") (bytesOf "><")
  let xmlStr := ReplaceAll xmlStr (bytesOf "> <") (bytesOf "><")
  let xmlStr := ReplaceAll xmlStr (bytesOf ">\t<") (bytesOf "><")
  .ok xmlStr

/-! ## Business model (internal/models/bussiness.go)

`float64` amounts are idealised as exact rationals: the arithmetic of the source is
read as exact arithmetic, `math.Round` as rounding half away from zero. -/

/-- The Go type `TipoComprobante` (an `int`). -/
abbrev TipoComprobante := Int

def TipoFactura : TipoComprobante := 1
def TipoBoleta : TipoComprobante := 2
def TipoNotaCredito : TipoComprobante := 3
def TipoNotaDebito : TipoComprobante := 4

/-- The Go method `TipoComprobante.String`. -/
def TipoComprobante.String (t : TipoComprobante) : GoString :=
  if t = TipoFactura then bytesOf "01"
  else if t = TipoBoleta then bytesOf "03"
  else if t = TipoNotaCredito then bytesOf "07"
  else if t = TipoNotaDebito then bytesOf "08"
  else bytesOf "01"

/-- The Go type `EstadoProceso` (an `int`). -/
abbrev EstadoProceso := Int

def EstadoPendiente : EstadoProceso := 1
def EstadoProcesando : EstadoProceso := 2
def EstadoFirmado : EstadoProceso := 3
def EstadoEnviado : EstadoProceso := 4
def EstadoAceptado : EstadoProceso := 5
def EstadoRechazado : EstadoProceso := 6
def EstadoError : EstadoProceso := 7

/-- The Go type `TipoAfectacionIGV` (an `int`, constants `iota + 10`). -/
abbrev TipoAfectacionIGV := Int

def GravadoOneroso : TipoAfectacionIGV := 10
def GravadoGratuito : TipoAfectacionIGV := 11
def Exonerado : TipoAfectacionIGV := 12
def Inafecto : TipoAfectacionIGV := 13
def ExportacionOperacionGratuita : TipoAfectacionIGV := 14
def GravadoIVAP : TipoAfectacionIGV := 15
def ExoneradoIVAP : TipoAfectacionIGV := 16
def InafectoIVAP : TipoAfectacionIGV := 17

/-- The Go method `TipoAfectacionIGV.String`. -/
def TipoAfectacionIGV.String (t : TipoAfectacionIGV) : GoString :=
  if t = GravadoOneroso then bytesOf "10" -- Gravado - Operación Onerosa
  else if t = GravadoGratuito then bytesOf "11" -- Gravado - Operación Gratuita
  else if t = Exonerado then bytesOf "20" -- Exonerado - Operación Onerosa
  else if t = Inafecto then bytesOf "30" -- Inafecto - Operación Onerosa
  else if t = ExportacionOperacionGratuita then bytesOf "40" -- Exportación
  else if t = GravadoIVAP then bytesOf "17" -- Gravado IVAP
  else if t = ExoneradoIVAP then bytesOf "27" -- Exonerado IVAP
  else if t = InafectoIVAP then bytesOf "37" -- Inafecto IVAP
  else bytesOf "10"

structure Emisor where
  RUC : GoString := []
  RazonSocial : GoString := []
  NombreComercial : GoString := []
  TipoDocumento : GoString := []
  Direccion : GoString := []
  Distrito : GoString := []
  Provincia : GoString := []
  Departamento : GoString := []
  CodigoPostal : GoString := []
  CodigoPais : GoString := []
  Telefono : GoString := []
  Email : GoString := []
  deriving DecidableEq

structure Receptor where
  TipoDocumento : GoString := []
  NumeroDocumento : GoString := []
  RazonSocial : GoString := []
  Direccion : GoString := []
  Email : GoString := []
  deriving DecidableEq

structure ImpuestoItem where
  TipoImpuesto : GoString := []
  CodigoImpuesto : GoString := []
  BaseImponible : ℚ := 0
  Tasa : ℚ := 0
  MontoImpuesto : ℚ := 0
  deriving DecidableEq

structure Item where
  ID : Int := 0
  NumeroItem : Int := 0
  Codigo : GoString := []
  CodigoSUNAT : GoString := []
  Descripcion : GoString := []
  UnidadMedida : GoString := []
  Cantidad : ℚ := 0
  ValorUnitario : ℚ := 0
  PrecioUnitario : ℚ := 0
  DescuentoUnitario : ℚ := 0
  TipoAfectacion : TipoAfectacionIGV := 0
  ImpuestoItem : List ImpuestoItem := []
  ValorVenta : ℚ := 0
  ValorTotal : ℚ := 0
  deriving DecidableEq

structure Totales where
  TotalVentaGravada : ℚ := 0
  TotalVentaExonerada : ℚ := 0
  TotalVentaInafecta : ℚ := 0
  TotalVentaGratuita : ℚ := 0
  TotalDescuentos : ℚ := 0
  TotalAnticipos : ℚ := 0
  TotalImpuestos : ℚ := 0
  TotalValorVenta : ℚ := 0
  TotalPrecioVenta : ℚ := 0
  Redondeo : ℚ := 0
  ImporteTotal : ℚ := 0
  deriving DecidableEq

structure Impuesto where
  TipoImpuesto : GoString := []
  CodigoImpuesto : GoString := []
  BaseImponible : ℚ := 0
  Tasa : ℚ := 0
  MontoImpuesto : ℚ := 0
  deriving DecidableEq

/-- The Go struct `Cuota`; the due date is a time stamp. -/
structure Cuota where
  NumeroCuota : Int := 0
  FechaVencimiento : Int := 0
  Monto : ℚ := 0
  deriving DecidableEq

/-- The Go struct `FormaPago`. -/
structure FormaPago where
  TipoPago : GoString := []
  MontoContado : ℚ := 0
  Cuotas : List Cuota := []
  deriving DecidableEq

/-- The Go struct `Comprobante`; a `time.Time` is a time stamp, a pointer is an
`Option`. -/
structure Comprobante where
  ID : GoString := []
  Tipo : TipoComprobante := 0
  Serie : GoString := []
  Numero : GoString := []
  FechaEmision : Int := 0
  FechaVencimiento : Option Int := none
  TipoMoneda : GoString := []
  Emisor : Emisor := {}
  Receptor : Receptor := {}
  Items : List Item := []
  Totales : Totales := {}
  Impuestos : List Impuesto := []
  FormaPago : Option FormaPago := none
  Observaciones : GoString := []
  EstadoProceso : EstadoProceso := 0
  XMLGenerado : GoString := []
  XMLFirmado : GoString := []
  ArchivoZIP : GoString := []
  TicketSUNAT : GoString := []
  CDRSUNAT : GoString := []
  EstadoSUNAT : GoString := []
  UsuarioCreacion : GoString := []
  FechaCreacion : Int := 0
  FechaActualizacion : Int := 0
  deriving DecidableEq

/-! ## `ConversionService.CalculateTotals` (internal/services/conversion_service.go) -/

/-- The Go function `math.Round`: the nearest integer, halves away from zero. -/
def mathRound (x : ℚ) : ℚ :=
  if 0 ≤ x then ((⌊x + 1 / 2⌋ : Int) : ℚ) else -((⌊-x + 1 / 2⌋ : Int) : ℚ)

/-- The map `impuestosMap` of `CalculateTotals`, as the list of its entries in the order
in which the keys were first inserted.  (Go iterates a map in an unspecified order; the
sums taken over it do not depend on the order.) -/
abbrev ImpuestosMap := List (GoString × Impuesto)

/-- One pass of the inner loop body: `impuestosMap[key]` is updated in place when the
key exists and created from the item tax otherwise. -/
def impuestosMapAdd (key : GoString) (impuestoItem : ImpuestoItem) :
    ImpuestosMap → ImpuestosMap
  | [] =>
    [(key, { TipoImpuesto := impuestoItem.TipoImpuesto
             CodigoImpuesto := impuestoItem.CodigoImpuesto
             BaseImponible := impuestoItem.BaseImponible
             Tasa := impuestoItem.Tasa
             MontoImpuesto := impuestoItem.MontoImpuesto })]
  | (k, impuesto) :: rest =>
    if k = key then
      (k, { impuesto with
              BaseImponible := impuesto.BaseImponible + impuestoItem.BaseImponible
              MontoImpuesto := impuesto.MontoImpuesto + impuestoItem.MontoImpuesto }) :: rest
    else (k, impuesto) :: impuestosMapAdd key impuestoItem rest

/-- Body of `for _, impuestoItem := range item.ImpuestoItem`. -/
def impuestoItemStep (impuestosMap : ImpuestosMap) (impuestoItem : ImpuestoItem) :
    ImpuestosMap :=
  let key := impuestoItem.TipoImpuesto ++ bytesOf "-" ++ impuestoItem.CodigoImpuesto
  impuestosMapAdd key impuestoItem impuestosMap

/-- Body of `for _, item := range comprobante.Items`, on the local variables
`totales` and `impuestosMap`.  `item` is the loop variable, a copy of the slice
element: the assignments to `item.ValorVenta` and `item.ValorTotal` change that copy,
the element of `comprobante.Items` is not written. -/
def itemStep (st : Totales × ImpuestosMap) (item : Item) : Totales × ImpuestosMap :=
  let totales := st.1
  -- Calcular valores del item
  let valorVenta := item.Cantidad * item.ValorUnitario
  let valorTotal := valorVenta + item.DescuentoUnitario
  -- Actualizar item con valores calculados
  let item := { item with ValorVenta := valorVenta, ValorTotal := valorTotal }
  let totales :=
    if item.TipoAfectacion = GravadoOneroso then
      { totales with TotalVentaGravada := totales.TotalVentaGravada + valorVenta }
    else if item.TipoAfectacion = GravadoGratuito then
      { totales with TotalVentaGratuita := totales.TotalVentaGratuita + valorVenta }
    else if item.TipoAfectacion = Exonerado then
      { totales with TotalVentaExonerada := totales.TotalVentaExonerada + valorVenta }
    else if item.TipoAfectacion = Inafecto then
      { totales with TotalVentaInafecta := totales.TotalVentaInafecta + valorVenta }
    else totales
  (totales, item.ImpuestoItem.foldl impuestoItemStep st.2)

/-- Body of `for _, impuesto := range impuestosMap`. -/
def impuestoStep (st : List Impuesto × Totales) (entry : GoString × Impuesto) :
    List Impuesto × Totales :=
  (st.1 ++ [entry.2],
   { st.2 with TotalImpuestos := st.2.TotalImpuestos + entry.2.MontoImpuesto })

/-- The Go method `CalculateTotals`: the document after the call and the returned
error (always `nil`). -/
def CalculateTotals (comprobante : Comprobante) : Comprobante × Option GoError :=
  let totales : Totales := {}
  let impuestos : List Impuesto := []
  let impuestosMap : ImpuestosMap := []
  let st := comprobante.Items.foldl itemStep (totales, impuestosMap)
  let totales := st.1
  let impuestosMap := st.2
  -- Convertir mapa a slice
  let st2 := impuestosMap.foldl impuestoStep (impuestos, totales)
  let impuestos := st2.1
  let totales := st2.2
  -- Calcular totales finales
  let totales := { totales with
    TotalValorVenta :=
      totales.TotalVentaGravada + totales.TotalVentaExonerada + totales.TotalVentaInafecta }
  let totales := { totales with
    TotalPrecioVenta := totales.TotalValorVenta + totales.TotalImpuestos }
  let totales := { totales with
    ImporteTotal :=
      totales.TotalPrecioVenta - totales.TotalDescuentos - totales.TotalAnticipos
        + totales.Redondeo }
  -- Redondear a 2 decimales
  let totales := { totales with ImporteTotal := mathRound (totales.ImporteTotal * 100) / 100 }
  ({ comprobante with Totales := totales, Impuestos := impuestos }, none)

/-- The document of the totals example: one taxed-paid item, quantity 2, unit value
100, one 18% tax entry of amount 36. -/
def docUnItemGravado : Comprobante :=
  { Items := [{ NumeroItem := 1, Cantidad := 2, ValorUnitario := 100, PrecioUnitario := 118
                TipoAfectacion := GravadoOneroso
                ImpuestoItem := [{ TipoImpuesto := bytesOf "1000", CodigoImpuesto := bytesOf "IGV"
                                   BaseImponible := 200, Tasa := 18, MontoImpuesto := 36 }] }] }

/-- The document of the free-of-charge example: a taxed-paid item of sale value 200
with tax 36 and a free-of-charge item of sale value 100 with tax 18 under the free
tax code. -/
def docGravadoMasGratuito : Comprobante :=
  { Items :=
      [{ NumeroItem := 1, Cantidad := 2, ValorUnitario := 100, PrecioUnitario := 118
         TipoAfectacion := GravadoOneroso
         ImpuestoItem := [{ TipoImpuesto := bytesOf "1000", CodigoImpuesto := bytesOf "IGV"
                            BaseImponible := 200, Tasa := 18, MontoImpuesto := 36 }] },
       { NumeroItem := 2, Cantidad := 2, ValorUnitario := 50, PrecioUnitario := 0
         TipoAfectacion := GravadoGratuito
         ImpuestoItem := [{ TipoImpuesto := bytesOf "9996", CodigoImpuesto := bytesOf "GRA"
                            BaseImponible := 100, Tasa := 18, MontoImpuesto := 18 }] }] }

/-- Sum of `Cantidad × ValorUnitario` over the items with affectation `t`. -/
def ventaDe (t : TipoAfectacionIGV) (items : List Item) : ℚ :=
  ((items.filter (fun it => decide (it.TipoAfectacion = t))).map
    (fun it => it.Cantidad * it.ValorUnitario)).sum

/-- Sum of `MontoImpuesto` over all the per-item tax entries of the items. -/
def impuestosDe (items : List Item) : ℚ :=
  (items.map (fun it => (it.ImpuestoItem.map (fun imp => imp.MontoImpuesto)).sum)).sum

/-- Sum of `MontoImpuesto` over the entries of the tax map. -/
def montoMapa (m : ImpuestosMap) : ℚ := (m.map (fun e => e.2.MontoImpuesto)).sum

/-- Rounding to 2 decimals as the code does it: `math.Round(x*100) / 100`. -/
def round2 (x : ℚ) : ℚ := mathRound (x * 100) / 100

/-- All the per-item tax entries of the items, in document order. -/
def impuestosItems (items : List Item) : List ImpuestoItem :=
  (items.map (fun it => it.ImpuestoItem)).flatten

/-- The map key `TipoImpuesto + "-" + CodigoImpuesto` of an item tax. -/
def claveDe (i : ImpuestoItem) : GoString :=
  i.TipoImpuesto ++ bytesOf "-" ++ i.CodigoImpuesto

/-- The item taxes whose map key is `key`. -/
def conClave (key : GoString) (l : List ImpuestoItem) : List ImpuestoItem :=
  l.filter (fun i => decide (claveDe i = key))

/-- The item taxes with the pair (`tipo`, `codigo`). -/
def conPar (tipo codigo : GoString) (l : List ImpuestoItem) : List ImpuestoItem :=
  l.filter (fun i => decide (i.TipoImpuesto = tipo ∧ i.CodigoImpuesto = codigo))

/-- The entry that the item taxes with key `key` add up to: type, code and rate of the
first of them, base and amount summed over all of them. -/
def agregado (key : GoString) (l : List ImpuestoItem) : Option Impuesto :=
  match conClave key l with
  | [] => none
  | i :: rest =>
    some { TipoImpuesto := i.TipoImpuesto
           CodigoImpuesto := i.CodigoImpuesto
           BaseImponible := ((i :: rest).map (fun j => j.BaseImponible)).sum
           Tasa := i.Tasa
           MontoImpuesto := ((i :: rest).map (fun j => j.MontoImpuesto)).sum }

/-- The document of scripts/test_totals_calculation.go: two taxed-paid items (2 × 100
with tax 36; 1 × 50 with unit discount 5 and tax 8.10) and declared discounts 5. -/
def docDescuentoDeclarado : Comprobante :=
  { Tipo := TipoFactura, Serie := bytesOf "F001", Numero := bytesOf "00000001"
    TipoMoneda := bytesOf "PEN"
    Items :=
      [{ NumeroItem := 1, Codigo := bytesOf "P001", UnidadMedida := bytesOf "NIU"
         Cantidad := 2, ValorUnitario := 100, PrecioUnitario := 118, DescuentoUnitario := 0
         TipoAfectacion := GravadoOneroso
         ImpuestoItem := [{ TipoImpuesto := bytesOf "1000", CodigoImpuesto := bytesOf "10"
                            BaseImponible := 200, Tasa := 18, MontoImpuesto := 36 }] },
       { NumeroItem := 2, Codigo := bytesOf "P002", UnidadMedida := bytesOf "NIU"
         Cantidad := 1, ValorUnitario := 50, PrecioUnitario := 59, DescuentoUnitario := 5
         TipoAfectacion := GravadoOneroso
         ImpuestoItem := [{ TipoImpuesto := bytesOf "1000", CodigoImpuesto := bytesOf "10"
                            BaseImponible := 45, Tasa := 18, MontoImpuesto := 81 / 10 }] }]
    Totales := { TotalDescuentos := 5, TotalAnticipos := 0, Redondeo := 0 } }

/-- Two taxed-paid items of 0.25 each, each with its 18% tax rounded to cents
(0.045 gives 0.05). -/
def docDosCentavos : Comprobante :=
  { Items :=
      [{ NumeroItem := 1, Cantidad := 1, ValorUnitario := 1 / 4, TipoAfectacion := GravadoOneroso
         ImpuestoItem := [{ TipoImpuesto := bytesOf "1000", CodigoImpuesto := bytesOf "IGV"
                            BaseImponible := 1 / 4, Tasa := 18, MontoImpuesto := 1 / 20 }] },
       { NumeroItem := 2, Cantidad := 1, ValorUnitario := 1 / 4, TipoAfectacion := GravadoOneroso
         ImpuestoItem := [{ TipoImpuesto := bytesOf "1000", CodigoImpuesto := bytesOf "IGV"
                            BaseImponible := 1 / 4, Tasa := 18, MontoImpuesto := 1 / 20 }] }] }

/-- One item with two taxes whose pairs differ and whose keys are the same string
"1000-A-B": ("1000-A", "B") and ("1000", "A-B"). -/
def docClavesIguales : Comprobante :=
  { Items :=
      [{ NumeroItem := 1, Cantidad := 1, ValorUnitario := 100, TipoAfectacion := GravadoOneroso
         ImpuestoItem :=
           [{ TipoImpuesto := bytesOf "1000-A", CodigoImpuesto := bytesOf "B"
              BaseImponible := 100, Tasa := 18, MontoImpuesto := 18 },
            { TipoImpuesto := bytesOf "1000", CodigoImpuesto := bytesOf "A-B"
              BaseImponible := 100, Tasa := 2, MontoImpuesto := 2 }] }] }

/-- The pair (`TipoImpuesto`, `CodigoImpuesto`) of a document-level tax entry. -/
def parDe (e : Impuesto) : GoString × GoString := (e.TipoImpuesto, e.CodigoImpuesto)

/-- The pair (`TipoImpuesto`, `CodigoImpuesto`) of an item tax. -/
def parItem (i : ImpuestoItem) : GoString × GoString := (i.TipoImpuesto, i.CodigoImpuesto)

/-- The entry a new key gets in the tax map. -/
def entradaNueva (i : ImpuestoItem) : Impuesto :=
  { TipoImpuesto := i.TipoImpuesto, CodigoImpuesto := i.CodigoImpuesto
    BaseImponible := i.BaseImponible, Tasa := i.Tasa, MontoImpuesto := i.MontoImpuesto }

/-- The update of an existing entry of the tax map. -/
def entradaSuma (e : Impuesto) (i : ImpuestoItem) : Impuesto :=
  { e with BaseImponible := e.BaseImponible + i.BaseImponible
           MontoImpuesto := e.MontoImpuesto + i.MontoImpuesto }

/-- The loop invariant of the tax map: its keys are distinct and its entries are the
aggregates of the item taxes seen so far. -/
def MapaInv (l : List ImpuestoItem) (m : ImpuestosMap) : Prop :=
  (m.map Prod.fst).Nodup ∧ ∀ k e, (k, e) ∈ m ↔ agregado k l = some e

/-! ## `ComprobanteHandler.processBatch` (internal/handlers/comprobante_handler.go)

The handler runs against a system state `σ` (database, files, SUNAT); the calls it
makes are operations on that state.  `processComprobanteForBatch` is a parameter here. -/

/-- The operations `processBatch` calls. -/
structure BatchEnv (σ : Type) where
  /-- `h.processComprobanteForBatch(id, certPath, certPass)`. -/
  processComprobanteForBatch : GoString → GoString → GoString → σ → Option GoError × σ
  /-- `h.repository.UpdateBatchProgress(batchID, processed, successful, failed)`. -/
  UpdateBatchProgress : GoString → Int → Int → Int → σ → Option GoError × σ
  /-- `h.repository.FinalizeBatch(batchID, estado, fechaFin)`. -/
  FinalizeBatch : GoString → GoString → Int → σ → Option GoError × σ
  /-- `time.Now()`. -/
  Now : σ → Int

/-- The local variables of `processBatch` and the system state. -/
structure BatchState (σ : Type) where
  sys : σ
  exitosos : Int
  fallidos : Int

/-- Body of `for _, id := range comprobanteIDs`. -/
def processBatchStep {σ : Type} (env : BatchEnv σ) (batchID certPath certPass : GoString)
    (st : BatchState σ) (id : GoString) : BatchState σ :=
  -- Procesar cada comprobante
  let r := env.processComprobanteForBatch id certPath certPass st.sys
  let exitosos := if r.1.isSome then st.exitosos else st.exitosos + 1
  let fallidos := if r.1.isSome then st.fallidos + 1 else st.fallidos
  -- Actualizar progreso del lote
  let u := env.UpdateBatchProgress batchID (exitosos + fallidos) exitosos fallidos r.2
  { sys := u.2, exitosos := exitosos, fallidos := fallidos }

/-- The state of `processBatch` after its loop. -/
def processBatchLoop {σ : Type} (env : BatchEnv σ) (batchID : GoString)
    (comprobanteIDs : List GoString) (certPath certPass : GoString) (sys : σ) :
    BatchState σ :=
  comprobanteIDs.foldl (processBatchStep env batchID certPath certPass)
    { sys := sys, exitosos := 0, fallidos := 0 }

/-- The `estado` that `processBatch` passes to `FinalizeBatch`. -/
def estadoFinal (fallidos : Int) : GoString :=
  if fallidos > 0 then bytesOf "COMPLETADO_CON_ERRORES" else bytesOf "COMPLETADO"

/-- The Go method `processBatch`.  It returns nothing: its result is the system state
that its calls leave behind. -/
def processBatch {σ : Type} (env : BatchEnv σ) (batchID : GoString)
    (comprobanteIDs : List GoString) (certPath certPass : GoString) (sys : σ) : σ :=
  let st := processBatchLoop env batchID comprobanteIDs certPath certPass sys
  -- Finalizar lote
  let estado := estadoFinal st.fallidos
  (env.FinalizeBatch batchID estado (env.Now st.sys) st.sys).2

/-- A call received from `processBatch`, with its arguments. -/
inductive LlamadaLote where
  | procesar (id certPath certPass : GoString)
  | progreso (batchID : GoString) (processed successful failed : Int)
  | finalizar (batchID estado : GoString) (fechaFin : Int)
  deriving DecidableEq

/-- A system state that records the calls it receives, in order, and counts the
documents handed to `processComprobanteForBatch`. -/
structure MundoLote where
  procesados : Nat := 0
  llamadas : List LlamadaLote := []
  deriving DecidableEq

/-- The environment in which the `k`-th call of `processComprobanteForBatch` (counted
from 0) returns `resultados k`, the clock reads `now`, and every call is recorded with
the arguments it received. -/
def envRegistro (resultados : Nat → Option GoError) (now : Int) : BatchEnv MundoLote where
  processComprobanteForBatch := fun id certPath certPass w =>
    (resultados w.procesados,
     { procesados := w.procesados + 1
       llamadas := w.llamadas ++ [LlamadaLote.procesar id certPath certPass] })
  UpdateBatchProgress := fun batchID processed successful failed w =>
    (none, { w with llamadas :=
      w.llamadas ++ [LlamadaLote.progreso batchID processed successful failed] })
  FinalizeBatch := fun batchID estado fechaFin w =>
    (none, { w with llamadas := w.llamadas ++ [LlamadaLote.finalizar batchID estado fechaFin] })
  Now := fun _ => now

/-- Number of failures among the first `m` results. -/
def fallidosHasta (resultados : Nat → Option GoError) (m : Nat) : Nat :=
  ((List.range m).filter (fun t => (resultados t).isSome)).length

/-- The calls expected for the ids at the positions `desde`, `desde + 1`, ...: each id
is processed and then reported with `processed` the number of ids handled so far,
`failed` the number of failures among them and `successful` the rest. -/
def llamadasLote (resultados : Nat → Option GoError) (batchID certPath certPass : GoString) :
    Nat → List GoString → List LlamadaLote
  | _, [] => []
  | desde, id :: ids =>
    LlamadaLote.procesar id certPath certPass ::
    LlamadaLote.progreso batchID ((desde : Int) + 1)
      ((desde : Int) + 1 - (fallidosHasta resultados (desde + 1) : Int))
      (fallidosHasta resultados (desde + 1) : Int) ::
    llamadasLote resultados batchID certPath certPass (desde + 1) ids

/-- Results for the batch example: the second and the fourth document fail. -/
def resultadosDosFallos (k : Nat) : Option GoError :=
  if k = 1 ∨ k = 3 then some "error procesando comprobante" else none

/-! ## `encoding/base64` (`base64.StdEncoding`) -/

/-- The character of the standard alphabet for a 6-bit value. -/
def b64Char (n : Nat) : Byte :=
  if n < 26 then Fin.ofNat (65 + n)
  else if n < 52 then Fin.ofNat (71 + n)
  else if n < 62 then Fin.ofNat (n - 4)
  else if n = 62 then Fin.ofNat 43
  else Fin.ofNat 47

/-- The 6-bit value of a character of the standard alphabet (`decodeMap`). -/
def b64Value (b : Byte) : Option Nat :=
  if 65 ≤ b.val ∧ b.val ≤ 90 then some (b.val - 65)
  else if 97 ≤ b.val ∧ b.val ≤ 122 then some (b.val - 71)
  else if 48 ≤ b.val ∧ b.val ≤ 57 then some (b.val + 4)
  else if b.val = 43 then some 62
  else if b.val = 47 then some 63
  else none

/-- The padding character `'='`. -/
def b64Pad : Byte := Fin.ofNat 61

/-- `base64.StdEncoding.EncodeToString`. -/
def base64Encode : GoString → GoString
  | [] => []
  | [a] => [b64Char (a.val / 4), b64Char (a.val % 4 * 16), b64Pad, b64Pad]
  | [a, b] =>
    [b64Char (a.val / 4), b64Char (a.val % 4 * 16 + b.val / 16), b64Char (b.val % 16 * 4),
      b64Pad]
  | a :: b :: c :: rest =>
    b64Char (a.val / 4) :: b64Char (a.val % 4 * 16 + b.val / 16)
      :: b64Char (b.val % 16 * 4 + c.val / 64) :: b64Char (c.val % 64) :: base64Encode rest

/-- Decoding of an input from which the line breaks have been removed: full quanta of
four characters, the last one possibly padded with one or two `'='`. -/
def base64DecodeQuanta : GoString → Except GoError GoString
  | [] => .ok []
  | [a, b, p, q] =>
    match b64Value a, b64Value b with
    | some va, some vb =>
      match b64Value p, b64Value q with
      | some vp, some vq =>
        .ok [Fin.ofNat (va * 4 + vb / 16), Fin.ofNat (vb % 16 * 16 + vp / 4),
             Fin.ofNat (vp % 4 * 64 + vq)]
      | some vp, none =>
        if q = b64Pad then .ok [Fin.ofNat (va * 4 + vb / 16), Fin.ofNat (vb % 16 * 16 + vp / 4)]
        else .error "illegal base64 data"
      | none, _ =>
        if p = b64Pad ∧ q = b64Pad then .ok [Fin.ofNat (va * 4 + vb / 16)]
        else .error "illegal base64 data"
    | _, _ => .error "illegal base64 data"
  | a :: b :: c :: d :: rest =>
    match b64Value a, b64Value b, b64Value c, b64Value d with
    | some va, some vb, some vc, some vd =>
      match base64DecodeQuanta rest with
      | .ok tail =>
        .ok (Fin.ofNat (va * 4 + vb / 16) :: Fin.ofNat (vb % 16 * 16 + vc / 4)
              :: Fin.ofNat (vc % 4 * 64 + vd) :: tail)
      | .error e => .error e
    | _, _, _, _ => .error "illegal base64 data"
  | _ => .error "illegal base64 data"

/-- `base64.StdEncoding.DecodeString`: carriage returns and line feeds are ignored,
the rest must be padded quanta. -/
def base64Decode (s : GoString) : Except GoError GoString :=
  base64DecodeQuanta (s.filter (fun b => b.val ≠ 10 ∧ b.val ≠ 13))

/-! ## `EncodingService` (internal/services/encoding_service.go)

`archive/zip` and `strings.ToLower` are parameters of the model. -/

/-- An entry of a ZIP archive as `zip.Reader` presents it: its header fields and the
result of `file.Open()` followed by `io.ReadAll`. -/
structure ZipFile where
  Name : GoString
  UncompressedSize64 : Nat
  content : Except GoError GoString
  deriving DecidableEq

/-- The operations of `archive/zip` used by the service.  `Writer` is the state of a
`zip.Writer` together with the buffer it writes to. -/
structure ZipLib where
  Writer : Type
  /-- `zip.NewWriter(&zipBuffer)` on an empty buffer. -/
  NewWriter : Writer
  /-- `zipWriter.Create(fileName)`. -/
  Create : Writer → GoString → Except GoError Writer
  /-- `fileWriter.Write(data)`: the new state, the number of bytes written, the error. -/
  Write : Writer → GoString → Writer × Int × Option GoError
  /-- `zipWriter.Close()`. -/
  Close : Writer → Writer × Option GoError
  /-- `zipBuffer.Bytes()`. -/
  Bytes : Writer → GoString
  /-- `zip.NewReader(bytes.NewReader(zipData), int64(len(zipData)))` and its `File`s. -/
  NewReader : GoString → Except GoError (List ZipFile)

/-- The archive format round-trips: an archive written with one `Create`, one complete
`Write` and a `Close` is read back as that one entry. -/
def ZipLib.RoundTrip (z : ZipLib) : Prop :=
  ∀ (name data : GoString) (w1 w2 w3 : z.Writer) (n : Int),
    z.Create z.NewWriter name = .ok w1 →
    z.Write w1 data = (w2, n, none) →
    n = data.length →
    z.Close w2 = (w3, none) →
    z.NewReader (z.Bytes w3)
      = .ok [{ Name := name, UncompressedSize64 := data.length, content := .ok data }]

/-- The Go struct `SUNATPackage`. -/
structure SUNATPackage where
  FileName : GoString := []
  ZipContent : GoString := []
  Base64Content : GoString := []
  XMLContent : GoString := []
  Size : Int := 0
  deriving DecidableEq

/-- The Go method `EncodeToBase64`. -/
def EncodeToBase64 (data : GoString) : GoString := base64Encode data

/-- The Go method `DecodeFromBase64`. -/
def DecodeFromBase64 (encodedData : GoString) : Except GoError GoString :=
  match base64Decode encodedData with
  | .error err => .error ("error decodificando Base64: " ++ err)
  | .ok decoded => .ok decoded

/-- The Go method `CreateZipFile`. -/
def CreateZipFile (z : ZipLib) (xmlData fileName : GoString) : Except GoError GoString :=
  -- Validar datos de entrada
  if xmlData.length = 0 then .error "datos XML vacíos"
  else
    let zipWriter := z.NewWriter
    -- Asegurar extensión .xml
    let fileName := if !HasSuffix fileName (bytesOf ".xml") then fileName ++ bytesOf ".xml"
                    else fileName
    -- Crear archivo dentro del ZIP
    match z.Create zipWriter fileName with
    | .error err => .error ("error creando archivo en ZIP: " ++ err)
    | .ok fileWriter =>
      -- Escribir contenido XML
      match z.Write fileWriter xmlData with
      | (_, _, some err) => .error ("error escribiendo XML en ZIP: " ++ err)
      | (zipWriter, bytesWritten, none) =>
        if bytesWritten ≠ xmlData.length then
          .error "no se escribieron todos los bytes del XML"
        else
          -- Cerrar ZIP writer
          match z.Close zipWriter with
          | (_, some err) => .error ("error cerrando ZIP: " ++ err)
          | (zipWriter, none) =>
            let zipData := z.Bytes zipWriter
            if zipData.length = 0 then .error "ZIP resultante está vacío"
            else .ok zipData

/-- The assignment `m[key] = value` on a map kept as the list of its entries. -/
def mapSet (key value : GoString) : List (GoString × GoString) → List (GoString × GoString)
  | [] => [(key, value)]
  | (k, v) :: rest => if k = key then (k, value) :: rest else (k, v) :: mapSet key value rest

/-- The extraction loop of `ExtractFromZip` over the files of the reader. -/
def extractLoop : List ZipFile → List (GoString × GoString) →
    Except GoError (List (GoString × GoString))
  | [], extractedFiles => .ok extractedFiles
  | file :: rest, extractedFiles =>
    match file.content with
    | .error err => .error ("error abriendo o leyendo archivo " ++ showBytes file.Name ++ ": " ++ err)
    | .ok content => extractLoop rest (mapSet file.Name content extractedFiles)

/-- The Go method `ExtractFromZip`; the result map is the list of its entries. -/
def ExtractFromZip (z : ZipLib) (zipData : GoString) :
    Except GoError (List (GoString × GoString)) :=
  match z.NewReader zipData with
  | .error err => .error ("error abriendo ZIP: " ++ err)
  | .ok files => extractLoop files []

/-- Number of pieces `strings.Split(s, "-")` returns for a non-empty `s`. -/
def splitGuionCount (s : GoString) : Nat := (s.filter (fun b => b.val = 45)).length + 1

/-- The Go method `generateSUNATFileName`: every branch returns the identifier. -/
def generateSUNATFileName (documentID : GoString) : GoString :=
  if documentID.length < 10 then documentID
  else if splitGuionCount documentID ≥ 4 then documentID
  else documentID

/-- The Go method `ValidateZipStructure`; `toLower` is `strings.ToLower`. -/
def ValidateZipStructure (z : ZipLib) (toLower : GoString → GoString) (zipData : GoString) :
    Option GoError :=
  match z.NewReader zipData with
  | .error err => some ("ZIP inválido: " ++ err)
  | .ok files =>
    match files with
    | [] => some "ZIP vacío"
    | file :: more =>
      if more.length + 1 > 1 then some "ZIP debe contener solo un archivo XML"
      else if !HasSuffix (toLower file.Name) (bytesOf ".xml") then
        some "archivo debe tener extensión .xml"
      else if file.UncompressedSize64 > 10 * 1024 * 1024 then
        some "archivo XML muy grande (máximo 10MB)"
      else none

/-- The Go method `ValidateBase64`. -/
def ValidateBase64 (encodedData : GoString) : Option GoError :=
  -- Remover espacios en blanco
  let cleanData := ReplaceAll encodedData (bytesOf " ") []
  let cleanData := ReplaceAll cleanData (bytesOf "\n") []
  let cleanData := ReplaceAll cleanData (bytesOf "\r") []
  -- Verificar longitud (debe ser múltiplo de 4)
  if cleanData.length % 4 ≠ 0 then some "longitud de Base64 inválida"
  else
    match base64Decode cleanData with
    | .error err => some ("Base64 inválido: " ++ err)
    | .ok _ => none

/-- The Go method `SUNATPackage.ValidatePackage`. -/
def ValidatePackage (z : ZipLib) (toLower : GoString → GoString) (pkg : SUNATPackage) :
    Option GoError :=
  if pkg.FileName = [] then some "nombre de archivo requerido"
  else if pkg.ZipContent.length = 0 then some "contenido ZIP vacío (tamaño: 0 bytes)"
  else if pkg.XMLContent.length = 0 then some "contenido XML vacío (tamaño: 0 bytes)"
  else if pkg.Base64Content = [] then some "contenido Base64 vacío (longitud: 0 caracteres)"
  else
    match ValidateBase64 pkg.Base64Content with
    | some err => some ("Base64 inválido: " ++ err)
    | none =>
      match ValidateZipStructure z toLower pkg.ZipContent with
      | some err => some ("estructura ZIP inválida: " ++ err)
      | none => none

/-- The Go method `ProcessForSUNAT`. -/
def ProcessForSUNAT (z : ZipLib) (toLower : GoString → GoString)
    (signedXML documentID : GoString) : Except GoError SUNATPackage :=
  -- Validar datos de entrada
  if signedXML.length = 0 then .error "XML firmado está vacío"
  else if documentID = [] then .error "ID de documento requerido"
  else
    -- Generar nombre de archivo según estándar SUNAT
    let fileName := generateSUNATFileName documentID
    -- Crear ZIP con el XML firmado
    match CreateZipFile z signedXML fileName with
    | .error err => .error ("error creando ZIP para SUNAT: " ++ err)
    | .ok zipData =>
      if zipData.length = 0 then .error "ZIP creado está vacío"
      else
        -- Codificar ZIP a Base64
        let base64Data := EncodeToBase64 zipData
        if base64Data = [] then .error "Base64 generado está vacío"
        else
          let pkg : SUNATPackage :=
            { FileName := fileName ++ bytesOf ".zip"
              ZipContent := zipData
              Base64Content := base64Data
              XMLContent := signedXML }
          match ValidatePackage z toLower pkg with
          | some err => .error ("paquete generado es inválido: " ++ err)
          | none => .ok pkg

/-- A small archive library for examples: one entry per archive, written as the
length of the name, the name and the data. -/
def zipDemo : ZipLib where
  Writer := List (GoString × GoString)
  NewWriter := []
  Create := fun w name =>
    if w = [] ∧ name.length < 256 then .ok [(name, [])] else .error "zip: unsupported"
  Write := fun w data =>
    match w with
    | [(name, d)] => ([(name, d ++ data)], (data.length : Int), none)
    | _ => (w, 0, some "zip: no entry")
  Close := fun w => (w, none)
  Bytes := fun w =>
    match w with
    | [(name, d)] => Fin.ofNat name.length :: (name ++ d)
    | _ => []
  NewReader := fun zipData =>
    match zipData with
    | [] => .error "zip: not a valid zip file"
    | l :: rest =>
      if rest.length < l.val then .error "zip: not a valid zip file"
      else .ok [{ Name := rest.take l.val
                  UncompressedSize64 := (rest.drop l.val).length
                  content := .ok (rest.drop l.val) }]

/-- Lower-casing of the ASCII letters, for examples. -/
def toLowerASCII (s : GoString) : GoString :=
  s.map (fun b => if 65 ≤ b.val ∧ b.val ≤ 90 then Fin.ofNat (b.val + 32) else b)

/-- The package `ProcessForSUNAT` builds from `<Invoice/>` and the identifier
`20123456789-01-F001-1` with the example archive library. -/
def pkgDemo : SUNATPackage :=
  { FileName := bytesOf "20123456789-01-F001-1.zip"
    ZipContent := Fin.ofNat 25 :: (bytesOf "20123456789-01-F001-1.xml" ++ bytesOf "<Invoice/>")
    Base64Content :=
      base64Encode
        (Fin.ofNat 25 :: (bytesOf "20123456789-01-F001-1.xml" ++ bytesOf "<Invoice/>"))
    XMLContent := bytesOf "<Invoice/>" }

/-! ## SOAP responses (pkg/sunat/client.go, internal/services/sunat_service.go)

`xml.Unmarshal` into a `SOAPResponse` is a parameter of the model. -/

/-- An `*http.Response` as far as the service uses it: the status code and the part of
the body stream that has not been read yet. -/
structure HTTPResponse where
  StatusCode : Int
  Body : GoString
  deriving DecidableEq

/-- `io.ReadAll(response.Body)`: everything that is left of the stream, which is
empty afterwards. -/
def ioReadAll (response : HTTPResponse) : GoString × HTTPResponse :=
  (response.Body, { response with Body := [] })

structure SendBillResponse where
  ApplicationResponse : GoString := []
  Ticket : GoString := []
  deriving DecidableEq

structure GetStatusResponse where
  Status : GoString := []
  StatusCode : GoString := []
  Content : GoString := []
  deriving DecidableEq

structure GetCDRResponse where
  Content : GoString := []
  StatusCode : GoString := []
  deriving DecidableEq

structure SOAPFault where
  FaultCode : GoString := []
  FaultString : GoString := []
  Detail : GoString := []
  deriving DecidableEq

/-- The Go struct `SOAPResponseBody`; a `nil` pointer is `none`. -/
structure SOAPResponseBody where
  SendBillResponse : Option SendBillResponse := none
  GetStatusResponse : Option GetStatusResponse := none
  GetCDRResponse : Option GetCDRResponse := none
  Fault : Option SOAPFault := none
  deriving DecidableEq

structure SOAPResponse where
  Body : SOAPResponseBody := {}
  deriving DecidableEq

/-- The Go struct `SUNATSendResponse`. -/
structure SUNATSendResponse where
  Success : Bool := false
  StatusCode : Int := 0
  Ticket : GoString := []
  ApplicationResponse : GoString := []
  Message : GoString := []
  Timestamp : Int := 0
  deriving DecidableEq

/-- Result of a Go call that returns a value or an error, or panics. -/
inductive Outcome (α : Type) where
  | ok (value : α)
  | error (err : GoError)
  | panic (reason : String)
  deriving DecidableEq

/-- The Go method `Client.ParseSOAPResponse`, with `xml.Unmarshal` as `unmarshal`. -/
def ParseSOAPResponse (unmarshal : GoString → Except GoError SOAPResponse)
    (resp : HTTPResponse) : Except GoError SOAPResponse :=
  let body := (ioReadAll resp).1
  match unmarshal body with
  | .error err => .error ("error parseando respuesta SOAP: " ++ err)
  | .ok soapResp =>
    -- Verificar si hay errores SOAP
    match soapResp.Body.Fault with
    | some fault =>
      .error ("SOAP Fault: " ++ showBytes fault.FaultCode ++ " - " ++ showBytes fault.FaultString)
    | none => .ok soapResp

/-- The Go method `SUNATService.processResponse`; `now` is `time.Now()`.  The body is
read in full before the status test, and `ParseSOAPResponse` then reads the same
stream again. -/
def processResponse (unmarshal : GoString → Except GoError SOAPResponse) (now : Int)
    (response : HTTPResponse) : Outcome SUNATSendResponse :=
  let body := (ioReadAll response).1
  let response := (ioReadAll response).2
  if response.StatusCode ≠ 200 then
    .ok { Success := false, StatusCode := response.StatusCode, Message := body,
          Timestamp := now }
  else
    -- Parsear respuesta SOAP usando el cliente SUNAT
    match ParseSOAPResponse unmarshal response with
    | .error err => .error ("error parseando respuesta SOAP: " ++ err)
    | .ok soapResponse =>
      -- Procesar CDR si está presente
      let cdr : Except GoError GoString :=
        match soapResponse.Body.SendBillResponse with
        | some sendBillResponse =>
          if sendBillResponse.ApplicationResponse ≠ [] then
            DecodeFromBase64 sendBillResponse.ApplicationResponse
          else .ok []
        | none => .ok []
      match cdr with
      | .error err => .error ("error decodificando CDR: " ++ err)
      | .ok cdrData =>
        match soapResponse.Body.SendBillResponse with
        | none => .panic "nil pointer dereference"
        | some sendBillResponse =>
          .ok { Success := true
                StatusCode := response.StatusCode
                Ticket := sendBillResponse.Ticket
                ApplicationResponse := cdrData
                Message := bytesOf "Documento enviado exitosamente"
                Timestamp := now }

/-- The certified response of the rejection test: `ResponseCode` 0003 with a
description. -/
def rejectionCDR : GoString :=
  bytesOf ("<?xml version=\"1.0\" encoding=\"UTF-8\"?>\n" ++
    "<ApplicationResponse xmlns=\"urn:oasis:names:specification:ubl:schema:xsd:ApplicationResponse-2\">\n" ++
    "  <cbc:ReferenceID>20123456789-01-F001-00000001</cbc:ReferenceID>\n" ++
    "  <cbc:ResponseCode>0003</cbc:ResponseCode>\n" ++
    "  <cbc:Description>El Comprobante ingresado no cumple con el estandar establecido.</cbc:Description>\n" ++
    "</ApplicationResponse>")

/-- The HTTP 200 response of the rejection test. -/
def rejectionResponse : HTTPResponse :=
  { StatusCode := 200
    Body :=
      bytesOf ("<?xml version=\"1.0\" encoding=\"UTF-8\"?>\n" ++
        "<soap:Envelope xmlns:soap=\"http://schemas.xmlsoap.org/soap/envelope/\">\n" ++
        "  <soap:Body>\n" ++
        "    <ns2:sendBillResponse xmlns:ns2=\"http://service.sunat.gob.pe\">\n" ++
        "      <applicationResponse>") ++ base64Encode rejectionCDR ++
      bytesOf ("</applicationResponse>\n" ++
        "    </ns2:sendBillResponse>\n" ++
        "  </soap:Body>\n" ++
        "</soap:Envelope>") }

/-- What a parser that reads the rejection response correctly returns for it. -/
def rejectionSOAP : SOAPResponse :=
  { Body := { SendBillResponse := some { ApplicationResponse := base64Encode rejectionCDR } } }

/-! ## Digital signature model (internal/models/ubl.go)

Pointer fields are `Option`s, `none` is `nil`. -/

structure CanonicalizationMethod where
  Algorithm : GoString := []
  deriving DecidableEq

structure SignatureMethod where
  Algorithm : GoString := []
  deriving DecidableEq

structure Transform where
  Algorithm : GoString := []
  deriving DecidableEq

structure Transforms where
  Transform : List Transform := []
  deriving DecidableEq

structure DigestMethod where
  Algorithm : GoString := []
  deriving DecidableEq

structure Reference where
  URI : GoString := []
  Transforms : Option Transforms := none
  DigestMethod : Option DigestMethod := none
  DigestValue : GoString := []
  deriving DecidableEq

structure SignedInfo where
  CanonicalizationMethod : Option CanonicalizationMethod := none
  SignatureMethod : Option SignatureMethod := none
  Reference : Option Reference := none
  deriving DecidableEq

structure SignatureValue where
  Value : GoString := []
  deriving DecidableEq

structure X509Data where
  X509Certificate : GoString := []
  deriving DecidableEq

structure KeyInfo where
  X509Data : Option X509Data := none
  deriving DecidableEq

structure DigitalSignature where
  Id : GoString := []
  SignedInfo : Option SignedInfo := none
  SignatureValue : Option SignatureValue := none
  KeyInfo : Option KeyInfo := none
  deriving DecidableEq

/-! ## `UBLService.AddDigitalSignature` (internal/services/ubl_service.go) -/

/-- The first position found by the loop over `rootElements`, or `-1`. -/
def findRootStart (xmlStr : GoString) : Int :=
  if Index xmlStr (bytesOf "<Invoice") ≠ -1 then Index xmlStr (bytesOf "<Invoice")
  else if Index xmlStr (bytesOf "<CreditNote") ≠ -1 then Index xmlStr (bytesOf "<CreditNote")
  else if Index xmlStr (bytesOf "<DebitNote") ≠ -1 then Index xmlStr (bytesOf "<DebitNote")
  else -1

/-- One pass of the loop over `childElements`. -/
def firstChildStep (s : GoString) (firstChildPos : Int) (child : GoString) : Int :=
  let pos := Index s child
  if pos ≠ -1 ∧ (firstChildPos = -1 ∨ pos < firstChildPos) then pos else firstChildPos

/-- The loop over `childElements`: the smallest position of one of the three child
elements in `s`, or `-1`. -/
def findFirstChild (s : GoString) : Int :=
  [bytesOf "<cbc:UBLVersionID>", bytesOf "<cbc:CustomizationID>", bytesOf "<cbc:ID>"].foldl
    (firstChildStep s) (-1)

/-- The literal `extensionsXML`. -/
def extensionsXML : GoString :=
  bytesOf ("\t<ext:UBLExtensions>\n\t\t<ext:UBLExtension>\n\t\t\t<ext:ExtensionContent>\n" ++
    "\t\t\t</ext:ExtensionContent>\n\t\t</ext:UBLExtension>\n\t</ext:UBLExtensions>\n\t")

/-- The Go method `AddDigitalSignature`; `marshalIndent` is
`xml.MarshalIndent(signature, "\t\t\t\t", "  ")`. -/
def AddDigitalSignature (marshalIndent : DigitalSignature → Except GoError GoString)
    (xmlData : GoString) (signature : DigitalSignature) : Except GoError GoString :=
  let xmlStr := xmlData
  let rootStartPos := findRootStart xmlStr
  if rootStartPos = -1 then
    .error "no se encontró elemento raíz válido (Invoice, CreditNote, DebitNote)"
  else
    -- Buscar el cierre del tag del elemento raíz
    let rootTagEndPos := Index (sliceFrom xmlStr rootStartPos) (bytesOf ">")
    if rootTagEndPos = -1 then
      .error "formato XML inválido: no se encontró cierre del tag raíz"
    else
      let rootTagEndPos := rootTagEndPos + (rootStartPos + 1)
      -- Buscar UBLExtensions dentro del elemento raíz
      let extensionPos := Index (sliceFrom xmlStr rootTagEndPos) (bytesOf "<ext:UBLExtensions>")
      let located : Except GoError (GoString × Int) :=
        if extensionPos = -1 then
          let firstChildPos := findFirstChild (sliceFrom xmlStr rootTagEndPos)
          if firstChildPos = -1 then
            .error "no se encontró elemento hijo válido para insertar UBLExtensions"
          else
            let insertPos := rootTagEndPos + firstChildPos
            let xmlStr := sliceTo xmlStr insertPos ++ extensionsXML ++ sliceFrom xmlStr insertPos
            .ok (xmlStr, Index xmlStr (bytesOf "<ext:ExtensionContent>"))
        else
          .ok (xmlStr, rootTagEndPos + extensionPos
            + Index (sliceFrom xmlStr (rootTagEndPos + extensionPos))
                (bytesOf "<ext:ExtensionContent>"))
      match located with
      | .error err => .error err
      | .ok (xmlStr, extensionPos) =>
        if extensionPos = -1 then .error "no se pudo encontrar ExtensionContent"
        else
          -- Serializar la firma digital
          match marshalIndent signature with
          | .error err => .error ("error serializando firma digital: " ++ err)
          | .ok signatureXML =>
            -- Insertar la firma en ExtensionContent
            let contentEndPos :=
              Index (sliceFrom xmlStr extensionPos) (bytesOf "</ext:ExtensionContent>")
            if contentEndPos = -1 then
              .error "no se pudo encontrar el cierre de ExtensionContent"
            else
              let contentEndPos := contentEndPos + extensionPos
              .ok (sliceTo xmlStr (extensionPos + (bytesOf "<ext:ExtensionContent>").length)
                    ++ bytesOf "\n" ++ signatureXML ++ bytesOf "\n\t\t\t"
                    ++ sliceFrom xmlStr contentEndPos)

/-! ## `SigningService` (internal/services/signing_service.go)

The certificate loaders, SHA-256, RSA, X.509 parsing, the clock and the XML encoder
and decoder are parameters of the model. -/

/-- An `*x509.Certificate` as far as the service uses it; `PublicKey` is `none` when
the key is not an RSA key. -/
structure Certificate where
  Raw : GoString
  NotBefore : Int
  NotAfter : Int
  PublicKey : Option GoString
  deriving DecidableEq

/-- The library operations used by `SigningService`. -/
structure SignLib where
  /-- `certificateManager.LoadBase64Certificate(certPath, keyPath)`. -/
  LoadBase64Certificate : GoString → GoString → Except GoError (Certificate × GoString)
  /-- `certificateManager.LoadPEMCertificate(certPath, keyPath)`. -/
  LoadPEMCertificate : GoString → GoString → Except GoError (Certificate × GoString)
  /-- `certificateManager.LoadCertificate(certPath, certPassword)`. -/
  LoadCertificate : GoString → GoString → Except GoError (Certificate × GoString)
  /-- `sha256.Sum256`. -/
  Sum256 : GoString → GoString
  /-- `rsa.SignPKCS1v15(rand.Reader, privateKey, crypto.SHA256, hashed)`. -/
  SignPKCS1v15 : GoString → GoString → Except GoError GoString
  /-- `rsa.VerifyPKCS1v15(publicKey, crypto.SHA256, hashed, sig)`. -/
  VerifyPKCS1v15 : GoString → GoString → GoString → Option GoError
  /-- `x509.ParseCertificate`. -/
  ParseCertificate : GoString → Except GoError Certificate
  /-- `time.Now()`. -/
  Now : Int
  /-- `xml.Marshal(signedInfo)`. -/
  MarshalSignedInfo : SignedInfo → Except GoError GoString
  /-- `xml.MarshalIndent(signature, "\t\t\t\t", "  ")`. -/
  MarshalIndentSignature : DigitalSignature → Except GoError GoString
  /-- `xml.Unmarshal(signatureXML, &signature)`. -/
  UnmarshalSignature : GoString → Except GoError DigitalSignature

/-- `strings.Replace(s, old, new, 1)` for a non-empty `old`. -/
def ReplaceFirst (s old new : GoString) : GoString :=
  match indexOf? s old with
  | none => s
  | some i => s.take i ++ new ++ s.drop (i + old.length)

/-- The Go method `createSignedInfo`. -/
def createSignedInfo (digestValue : GoString) : SignedInfo :=
  { CanonicalizationMethod :=
      some { Algorithm := bytesOf "http://www.w3.org/TR/2001/REC-xml-c14n-20010315" }
    SignatureMethod :=
      some { Algorithm := bytesOf "http://www.w3.org/2001/04/xmldsig-more#rsa-sha256" }
    Reference := some
      { URI := []
        Transforms := some
          { Transform :=
              [{ Algorithm := bytesOf "http://www.w3.org/2000/09/xmldsig#enveloped-signature" },
               { Algorithm := bytesOf "http://www.w3.org/TR/2001/REC-xml-c14n-20010315" }] }
        DigestMethod := some { Algorithm := bytesOf "http://www.w3.org/2001/04/xmlenc#sha256" }
        DigestValue := digestValue } }

/-- The Go method `createDigitalSignature`. -/
def createDigitalSignature (signedInfo : SignedInfo) (signatureValue certBase64 : GoString) :
    DigitalSignature :=
  { Id := bytesOf "SignatureElement"
    SignedInfo := some signedInfo
    SignatureValue := some { Value := signatureValue }
    KeyInfo := some { X509Data := some { X509Certificate := certBase64 } } }

/-- The Go method `canonicalizeSignedInfo`.  Its error result is always `nil`. -/
def canonicalizeSignedInfo (signedInfoXML : GoString) : Except GoError GoString :=
  let xmlStr := signedInfoXML
  let xmlStr :=
    if HasPrefix xmlStr (bytesOf "<?xml") then
      let xmlDeclarationEnd := Index xmlStr (bytesOf "?>")
      if xmlDeclarationEnd ≠ -1 then sliceFrom xmlStr (xmlDeclarationEnd + 2) else xmlStr
    else xmlStr
  let xmlStr := TrimSpace xmlStr
  let xmlStr := ReplaceAll xmlStr (bytesOf ">\n") (bytesOf ">")
  let xmlStr := ReplaceAll xmlStr (bytesOf "\n<") (bytesOf "<")
  let xmlStr := ReplaceAll xmlStr (bytesOf ">  <") (bytesOf "><")
  let xmlStr := ReplaceAll xmlStr (bytesOf "> <") (bytesOf "><")
  let xmlStr := ReplaceAll xmlStr (bytesOf ">\t<") (bytesOf "><")
  .ok xmlStr

/-- The certificate-loading part of `SignDocument`. -/
def loadKeyPair (L : SignLib) (certPath certPassword : GoString) :
    Except GoError (Certificate × GoString) :=
  if HasSuffix certPath (bytesOf ".b64") || HasSuffix certPath (bytesOf ".base64") then
    let keyPath :=
      if HasSuffix certPath (bytesOf "/cert.b64") then
        ReplaceFirst certPath (bytesOf "/cert.b64") (bytesOf "/key.b64")
      else if HasSuffix certPath (bytesOf "\\cert.b64") then
        ReplaceFirst certPath (bytesOf "\\cert.b64") (bytesOf "\\key.b64")
      else if HasSuffix certPath (bytesOf "cert.b64") then
        ReplaceFirst certPath (bytesOf "cert.b64") (bytesOf "key.b64")
      else ReplaceFirst certPath (bytesOf "cert") (bytesOf "key")
    match L.LoadBase64Certificate certPath keyPath with
    | .error err => .error ("error cargando certificado base64: " ++ err)
    | .ok r => .ok r
  else if HasSuffix certPath (bytesOf ".pem") then
    let keyPath :=
      if HasSuffix certPath (bytesOf "/cert.pem") then
        ReplaceFirst certPath (bytesOf "/cert.pem") (bytesOf "/key.pem")
      else if HasSuffix certPath (bytesOf "\\cert.pem") then
        ReplaceFirst certPath (bytesOf "\\cert.pem") (bytesOf "\\key.pem")
      else if HasSuffix certPath (bytesOf "cert.pem") then
        ReplaceFirst certPath (bytesOf "cert.pem") (bytesOf "key.pem")
      else ReplaceFirst certPath (bytesOf "cert") (bytesOf "key")
    match L.LoadPEMCertificate certPath keyPath with
    | .error err => .error ("error cargando certificado PEM: " ++ err)
    | .ok r => .ok r
  else
    match L.LoadCertificate certPath certPassword with
    | .error err => .error ("error cargando certificado: " ++ err)
    | .ok r => .ok r

/-- The Go method `SignDocument`. -/
def SignDocument (L : SignLib) (xmlData certPath certPassword : GoString) :
    Except GoError GoString :=
  match loadKeyPair L certPath certPassword with
  | .error err => .error err
  | .ok (cert, privateKey) =>
    -- Generar XML canónico
    match GenerateCanonicalXML xmlData with
    | .error err => .error ("error generando XML canónico: " ++ err)
    | .ok canonicalXML =>
      -- Calcular hash SHA-256
      let hash := L.Sum256 canonicalXML
      let digestValue := base64Encode hash
      -- Crear SignedInfo
      let signedInfo := createSignedInfo digestValue
      -- Serializar SignedInfo para firmado
      match L.MarshalSignedInfo signedInfo with
      | .error err => .error ("error serializando SignedInfo: " ++ err)
      | .ok signedInfoXML =>
        -- Canonicalizar SignedInfo
        match canonicalizeSignedInfo signedInfoXML with
        | .error err => .error ("error canonicalizando SignedInfo: " ++ err)
        | .ok canonicalSignedInfo =>
          -- Firmar SignedInfo
          let signedInfoHash := L.Sum256 canonicalSignedInfo
          match L.SignPKCS1v15 privateKey signedInfoHash with
          | .error err => .error ("error firmando documento: " ++ err)
          | .ok signature =>
            let signatureValue := base64Encode signature
            -- Obtener certificado en formato base64
            let certBytes := cert.Raw
            let certBase64 := base64Encode certBytes
            -- Crear estructura de firma digital
            let digitalSignature := createDigitalSignature signedInfo signatureValue certBase64
            -- Agregar firma al documento XML
            match AddDigitalSignature L.MarshalIndentSignature xmlData digitalSignature with
            | .error err => .error ("error agregando firma al documento: " ++ err)
            | .ok signedXML => .ok signedXML

/-- The text of the `ds:Signature` element that `extractSignature` hands to
`xml.Unmarshal`. -/
def extractSignatureXML (xmlData : GoString) : Except GoError GoString :=
  let xmlStr := xmlData
  let startSignature := Index xmlStr (bytesOf "<ds:Signature")
  if startSignature = -1 then .error "firma digital no encontrada"
  else
    let endSignature := Index (sliceFrom xmlStr startSignature) (bytesOf "</ds:Signature>")
    if endSignature = -1 then .error "cierre de firma digital no encontrado"
    else
      .ok (slice xmlStr startSignature
            (startSignature + endSignature + (bytesOf "</ds:Signature>").length))

/-- The Go method `extractSignature`. -/
def extractSignature (L : SignLib) (xmlData : GoString) : Except GoError DigitalSignature :=
  match extractSignatureXML xmlData with
  | .error err => .error err
  | .ok signatureXML =>
    match L.UnmarshalSignature signatureXML with
    | .error err => .error ("error parseando firma digital: " ++ err)
    | .ok signature => .ok signature

/-- The Go method `removeSignature`. -/
def removeSignature (xmlData : GoString) : Except GoError GoString :=
  let xmlStr := xmlData
  let startSignature := Index xmlStr (bytesOf "<ds:Signature")
  if startSignature = -1 then .ok xmlData
  else
    let endSignature := Index (sliceFrom xmlStr startSignature) (bytesOf "</ds:Signature>")
    if endSignature = -1 then .error "estructura de firma inválida"
    else
      let endSignature := endSignature + (startSignature + (bytesOf "</ds:Signature>").length)
      .ok (sliceTo xmlStr startSignature ++ sliceFrom xmlStr endSignature)

/-- The canonical form of the document without its signature, as `VerifySignature`
computes it. -/
def canonicalWithoutSignature (signedXML : GoString) : Except GoError GoString :=
  match removeSignature signedXML with
  | .error err => .error ("error removiendo firma para verificación: " ++ err)
  | .ok docWithoutSignature =>
    match GenerateCanonicalXML docWithoutSignature with
    | .error err => .error ("error canonicalizando documento: " ++ err)
    | .ok canonicalDoc => .ok canonicalDoc

/-- The part of `VerifySignature` that follows the reconstruction of the document:
digest comparison and signature check. -/
def verifyDigestAndSignature (L : SignLib) (signature : DigitalSignature)
    (publicKey canonicalDoc : GoString) : Outcome Bool :=
  -- Calcular hash del documento
  let docHash := L.Sum256 canonicalDoc
  let expectedDigest := base64Encode docHash
  match signature.SignedInfo with
  | none => .panic "nil pointer dereference"
  | some signedInfo =>
    match signedInfo.Reference with
    | none => .panic "nil pointer dereference"
    | some reference =>
      -- Verificar que el digest coincida
      if reference.DigestValue ≠ expectedDigest then .error "digest del documento no coincide"
      else
        -- Recrear SignedInfo y verificar firma
        match L.MarshalSignedInfo signedInfo with
        | .error err => .error ("error serializando SignedInfo: " ++ err)
        | .ok signedInfoXML =>
          match canonicalizeSignedInfo signedInfoXML with
          | .error err => .error ("error canonicalizando SignedInfo: " ++ err)
          | .ok canonicalSignedInfo =>
            let signedInfoHash := L.Sum256 canonicalSignedInfo
            match signature.SignatureValue with
            | none => .panic "nil pointer dereference"
            | some signatureValue =>
              -- Decodificar firma
              match base64Decode signatureValue.Value with
              | .error err => .error ("error decodificando firma: " ++ err)
              | .ok signatureBytes =>
                -- Verificar firma
                match L.VerifyPKCS1v15 publicKey signedInfoHash signatureBytes with
                | some err => .error ("verificación de firma falló: " ++ err)
                | none => .ok true

/-- The Go method `VerifySignature`.  `.ok true` is `(true, nil)`, `.error err` is
`(false, err)`; the method has no other way to return. -/
def VerifySignature (L : SignLib) (signedXML : GoString) : Outcome Bool :=
  -- Extraer la firma del documento
  match extractSignature L signedXML with
  | .error err => .error ("error extrayendo firma: " ++ err)
  | .ok signature =>
    -- Extraer el certificado
    match signature.KeyInfo with
    | none => .panic "nil pointer dereference"
    | some keyInfo =>
      match keyInfo.X509Data with
      | none => .panic "nil pointer dereference"
      | some x509Data =>
        match base64Decode x509Data.X509Certificate with
        | .error err => .error ("error decodificando certificado: " ++ err)
        | .ok certData =>
          match L.ParseCertificate certData with
          | .error err => .error ("error parseando certificado: " ++ err)
          | .ok cert =>
            -- Verificar que el certificado no haya expirado
            if L.Now < cert.NotBefore ∨ L.Now > cert.NotAfter then
              .error "certificado expirado o no válido aún"
            else
              -- Extraer clave pública
              match cert.PublicKey with
              | none => .error "clave pública no es RSA"
              | some publicKey =>
                -- Recrear el documento sin la firma para verificación
                match canonicalWithoutSignature signedXML with
                | .error err => .error err
                | .ok canonicalDoc =>
                  verifyDigestAndSignature L signature publicKey canonicalDoc

/-! ## An example library

A small instance of `SignLib` for evaluating the service on concrete documents: the
XML encoder follows the layout of `encoding/xml`, the digest is the identity (so it has
no collisions) and a signature is the key followed by a check byte of the digest.  Its
decoder is idealised: it accepts exactly what the encoder writes, where `encoding/xml`
rejects the `ds:Signature` element (see `unmarshalXMLName` and `libXML`). -/

/-- `xml.EscapeText`. -/
def xmlEscape : GoString → GoString
  | [] => []
  | c :: cs =>
    (if c.val = 34 then bytesOf "&#34;"
     else if c.val = 39 then bytesOf "&#39;"
     else if c.val = 38 then bytesOf "&amp;"
     else if c.val = 60 then bytesOf "&lt;"
     else if c.val = 62 then bytesOf "&gt;"
     else if c.val = 9 then bytesOf "&#x9;"
     else if c.val = 10 then bytesOf "&#xA;"
     else if c.val = 13 then bytesOf "&#xD;"
     else [c]) ++ xmlEscape cs

/-- Indentation written before a tag at depth `d`: nothing for `xml.Marshal`, and for
`xml.MarshalIndent` a line break (except before the first tag), the prefix and `d`
copies of the indent. -/
def xmlSep (ind : Option (GoString × GoString)) (first : Bool) (d : Nat) : GoString :=
  match ind with
  | none => []
  | some (pre, indent) =>
    (if first then [] else bytesOf "\n") ++ pre ++ (List.replicate d indent).flatten

/-- A start tag with its attributes. -/
def xmlOpen (name : GoString) (attrs : List (GoString × GoString)) : GoString :=
  bytesOf "<" ++ name
    ++ (attrs.map (fun a => bytesOf " " ++ a.1 ++ bytesOf "=\"" ++ xmlEscape a.2 ++ bytesOf "\"")).flatten
    ++ bytesOf ">"

/-- An element that holds character data only. -/
def xmlLeaf (ind : Option (GoString × GoString)) (first : Bool) (d : Nat) (name : GoString)
    (attrs : List (GoString × GoString)) (text : GoString) : GoString :=
  xmlSep ind first d ++ xmlOpen name attrs ++ xmlEscape text ++ bytesOf "</" ++ name ++ bytesOf ">"

/-- An element that holds the given, already written, child elements. -/
def xmlNode (ind : Option (GoString × GoString)) (first : Bool) (d : Nat) (name : GoString)
    (attrs : List (GoString × GoString)) (children : List GoString) : GoString :=
  xmlSep ind first d ++ xmlOpen name attrs ++ children.flatten
    ++ (if children.isEmpty then [] else xmlSep ind false d)
    ++ bytesOf "</" ++ name ++ bytesOf ">"

/-- The encoding of a `SignedInfo` as the element `name` at depth `d`. -/
def xmlSignedInfo (ind : Option (GoString × GoString)) (first : Bool) (d : Nat)
    (name : GoString) (si : SignedInfo) : GoString :=
  xmlNode ind first d name []
    ((si.CanonicalizationMethod.map (fun m =>
        xmlLeaf ind false (d + 1) (bytesOf "ds:CanonicalizationMethod")
          [(bytesOf "Algorithm", m.Algorithm)] [])).toList
     ++ (si.SignatureMethod.map (fun m =>
        xmlLeaf ind false (d + 1) (bytesOf "ds:SignatureMethod")
          [(bytesOf "Algorithm", m.Algorithm)] [])).toList
     ++ (si.Reference.map (fun r =>
        xmlNode ind false (d + 1) (bytesOf "ds:Reference") [(bytesOf "URI", r.URI)]
          ((r.Transforms.map (fun ts =>
              xmlNode ind false (d + 2) (bytesOf "ds:Transforms") []
                (ts.Transform.map (fun t =>
                  xmlLeaf ind false (d + 3) (bytesOf "ds:Transform")
                    [(bytesOf "Algorithm", t.Algorithm)] [])))).toList
           ++ (r.DigestMethod.map (fun m =>
              xmlLeaf ind false (d + 2) (bytesOf "ds:DigestMethod")
                [(bytesOf "Algorithm", m.Algorithm)] [])).toList
           ++ [xmlLeaf ind false (d + 2) (bytesOf "ds:DigestValue") [] r.DigestValue]))).toList)

/-- The encoding of a `DigitalSignature`. -/
def xmlSignature (ind : Option (GoString × GoString)) (sig : DigitalSignature) : GoString :=
  xmlNode ind true 0 (bytesOf "ds:Signature")
    (if sig.Id = [] then [] else [(bytesOf "Id", sig.Id)])
    ((sig.SignedInfo.map (xmlSignedInfo ind false 1 (bytesOf "ds:SignedInfo"))).toList
     ++ (sig.SignatureValue.map (fun v =>
        xmlLeaf ind false 1 (bytesOf "ds:SignatureValue") [] v.Value)).toList
     ++ (sig.KeyInfo.map (fun k =>
        xmlNode ind false 1 (bytesOf "ds:KeyInfo") []
          ((k.X509Data.map (fun x =>
            xmlNode ind false 2 (bytesOf "ds:X509Data") []
              [xmlLeaf ind false 3 (bytesOf "ds:X509Certificate") [] x.X509Certificate])).toList))).toList)

/-- The text between the first `opening` and the next `closing`. -/
def textBetween (s opening closing : GoString) : Option GoString :=
  match indexOf? s opening with
  | none => none
  | some i =>
    let rest := s.drop (i + opening.length)
    match indexOf? rest closing with
    | none => none
    | some j => some (rest.take j)

/-- The example encoder for `xml.MarshalIndent(signature, "\t\t\t\t", "  ")`. -/
def marshalIndentDemo (sig : DigitalSignature) : Except GoError GoString :=
  .ok (xmlSignature (some (bytesOf "\t\t\t\t", bytesOf "  ")) sig)

/-- An idealised decoder, more permissive than `encoding/xml`: it reads the three values
of a signature and accepts the text when it is what the example encoder writes for a
signature with these values.  It shows what `VerifySignature` does behind the decoding
step, which under `encoding/xml` always fails (see `unmarshalXMLName`). -/
def unmarshalDemo (signatureXML : GoString) : Except GoError DigitalSignature :=
  match textBetween signatureXML (bytesOf "<ds:DigestValue>") (bytesOf "</ds:DigestValue>"),
        textBetween signatureXML (bytesOf "<ds:SignatureValue>") (bytesOf "</ds:SignatureValue>"),
        textBetween signatureXML (bytesOf "<ds:X509Certificate>")
          (bytesOf "</ds:X509Certificate>") with
  | some digest, some value, some cert =>
    let sig := createDigitalSignature (createSignedInfo digest) value cert
    if xmlSignature (some (bytesOf "\t\t\t\t", bytesOf "  ")) sig
        = bytesOf "\t\t\t\t" ++ signatureXML then .ok sig
    else .error "xml: unexpected content"
  | _, _, _ => .error "xml: element missing"

/-- The example certificate: valid from time 0 to time 100, with the RSA key `k`. -/
def certDemo : Certificate :=
  { Raw := bytesOf "CERT", NotBefore := 0, NotAfter := 100, PublicKey := some (bytesOf "k") }

/-- The example signature of a digest under a key is the key followed by this check
byte of the digest. -/
def checksumDemo (hashed : GoString) : GoString :=
  [Fin.ofNat (hashed.foldl (fun acc b => acc + b.val) 0)]

/-- The example library, at time 50, within the validity of the certificate, with the
idealised decoder. -/
def libDemo : SignLib where
  LoadBase64Certificate := fun _ _ => .ok (certDemo, bytesOf "k")
  LoadPEMCertificate := fun _ _ => .ok (certDemo, bytesOf "k")
  LoadCertificate := fun _ _ => .ok (certDemo, bytesOf "k")
  Sum256 := fun data => data
  SignPKCS1v15 := fun privateKey hashed => .ok (privateKey ++ checksumDemo hashed)
  VerifyPKCS1v15 := fun publicKey hashed sig =>
    if sig = publicKey ++ checksumDemo hashed then none
    else some "crypto/rsa: verification error"
  ParseCertificate := fun der =>
    if der = certDemo.Raw then .ok certDemo else .error "x509: malformed certificate"
  Now := 50
  MarshalSignedInfo := fun si => .ok (xmlSignedInfo none true 0 (bytesOf "SignedInfo") si)
  MarshalIndentSignature := marshalIndentDemo
  UnmarshalSignature := unmarshalDemo

/-- `VerifySignature` applied to the output of `SignDocument`. -/
def signThenVerify (L : SignLib) (xmlData certPath certPassword : GoString) : Outcome Bool :=
  match SignDocument L xmlData certPath certPassword with
  | .error err => .error err
  | .ok signedXML => VerifySignature L signedXML

/-- A document as `SerializeToXML` writes it, with the empty extension placeholder. -/
def docFirma : GoString :=
  bytesOf ("<?xml version=\"1.0\" encoding=\"UTF-8\"?><Invoice xmlns=\"urn:x\">\n" ++
    "\t<ext:UBLExtensions>\n\t\t<ext:UBLExtension>\n" ++
    "\t\t\t<ext:ExtensionContent></ext:ExtensionContent>\n" ++
    "\t\t</ext:UBLExtension>\n\t</ext:UBLExtensions>\n" ++
    "\t<cbc:ID>F1</cbc:ID>\n</Invoice>")

/-- A document without an extension block, shaped like the one of
`scripts/test_signing.go`. -/
def docSinExtensiones : GoString :=
  bytesOf ("<?xml version=\"1.0\" encoding=\"UTF-8\"?>\n<Invoice xmlns=\"urn:x\">\n" ++
    "    <cbc:UBLVersionID>2.1</cbc:UBLVersionID>\n" ++
    "    <cbc:ID>F001-00000001</cbc:ID>\n</Invoice>")


/-! ## `SUNATService.SendDocument` (internal/services/sunat_service.go) -/

/-- The UTF-8 encoding of a code point, as the Go compiler stores string literals. -/
def utf8Bytes (n : Nat) : GoString :=
  if n < 0x80 then [Fin.ofNat n]
  else if n < 0x800 then [Fin.ofNat (0xC0 + n / 64), Fin.ofNat (0x80 + n % 64)]
  else if n < 0x10000 then
    [Fin.ofNat (0xE0 + n / 4096), Fin.ofNat (0x80 + n / 64 % 64), Fin.ofNat (0x80 + n % 64)]
  else
    [Fin.ofNat (0xF0 + n / 262144), Fin.ofNat (0x80 + n / 4096 % 64),
     Fin.ofNat (0x80 + n / 64 % 64), Fin.ofNat (0x80 + n % 64)]

/-- The bytes of a Go string literal (UTF-8). -/
def utf8Of (s : String) : GoString := (s.data.map (fun c => utf8Bytes c.toNat)).flatten

/-- The Go struct `config.SUNATConfig`. -/
structure SUNATConfig where
  BaseURL : GoString := []
  BetaURL : GoString := []
  RUC : GoString := []
  Username : GoString := []
  Password : GoString := []
  Timeout : Int := 0
  MaxRetries : Int := 0
  ForceRealSend : Bool := false
  FEBeta : GoString := []
  FEHomologacion : GoString := []
  FEProduccion : GoString := []
  FEConsultaCDR : GoString := []
  GuiaBeta : GoString := []
  GuiaProduccion : GoString := []
  RetencionBeta : GoString := []
  RetencionProduccion : GoString := []
  deriving DecidableEq

/-- The Go struct `sunat.SendBillRequest`. -/
structure SendBillRequest where
  Xmlns : GoString := []
  FileName : GoString := []
  ContentFile : GoString := []
  deriving DecidableEq

/-- The Go method `Client.CreateSendBillRequest`. -/
def CreateSendBillRequest (fileName content : GoString) : SendBillRequest :=
  { FileName := fileName, ContentFile := content }

/-- The Go struct `SUNATService` with what its methods use from outside: the SOAP
client call `Client.SendDocument`, which acts on the world outside the process (a state
`σ`: the network and the SUNAT servers), `xml.Unmarshal`, the clock, and the libraries
of the encoding service. -/
structure SUNATService (σ : Type) where
  config : SUNATConfig
  ClientSendDocument : σ → SendBillRequest → σ × Except GoError HTTPResponse
  unmarshal : GoString → Except GoError SOAPResponse
  now : Int
  zip : ZipLib
  toLower : GoString → GoString

/-- The Go method `isSimulationMode`. -/
def isSimulationMode (config : SUNATConfig) : Bool :=
  -- Si force_real_send está habilitado, siempre enviar real
  if config.ForceRealSend then false
  else
    -- Detectar modo simulación por credenciales de prueba
    (config.Username = bytesOf "MODDATOS" || config.Username = bytesOf "20103129061MODDATOS")
      && config.Password = bytesOf "MODDATOS"

/-- The Go method `simulateSUNATResponse` (the line it prints is left out). -/
def simulateSUNATResponse (now : Int) (_pkg : SUNATPackage) : Outcome SUNATSendResponse :=
  .ok { Success := true
        StatusCode := 200
        Message := utf8Of "Documento aceptado por SUNAT (SIMULACIÓN)"
        Ticket := bytesOf "123456789"
        ApplicationResponse := bytesOf "ACEPTADO"
        Timestamp := now }

/-- The Go method `SUNATService.SendDocument`: the world after the call and the
outcome.  The world changes only through `Client.SendDocument`. -/
def SendDocument {σ : Type} (s : SUNATService σ) (w : σ) (pkg : SUNATPackage) :
    σ × Outcome SUNATSendResponse :=
  -- Validar paquete antes del envío
  match ValidatePackage s.zip s.toLower pkg with
  | some err => (w, .error ("paquete inválido: " ++ err))
  | none =>
    -- Modo simulación para desarrollo/pruebas
    if isSimulationMode s.config then (w, simulateSUNATResponse s.now pkg)
    else
      -- Preparar request usando el cliente SUNAT
      let sendBillRequest := CreateSendBillRequest pkg.FileName pkg.Base64Content
      -- Enviar a SUNAT
      match s.ClientSendDocument w sendBillRequest with
      | (w, .error err) => (w, .error ("error enviando a SUNAT: " ++ err))
      | (w, .ok response) =>
        -- Procesar respuesta
        (w, processResponse s.unmarshal s.now response)

/-- An example service in simulation mode; its world is the list of the requests the
client was called with, and the client answers every call with an empty HTTP 200. -/
def svcSimulacion : SUNATService (List SendBillRequest) where
  config := { RUC := bytesOf "20103129061", Username := bytesOf "MODDATOS"
              Password := bytesOf "MODDATOS", ForceRealSend := false }
  ClientSendDocument := fun w r => (w ++ [r], .ok { StatusCode := 200, Body := [] })
  unmarshal := fun _ => .error "EOF"
  now := 0
  zip := zipDemo
  toLower := toLowerASCII

/-- A package with no file name, no archive and no content. -/
def pkgVacio : SUNATPackage :=
  { FileName := [], ZipContent := [], Base64Content := [], XMLContent := [] }

/-- The `Base64Content` with blanks and line breaks removed, as `ValidateBase64` takes
it. -/
def base64Limpio (encodedData : GoString) : GoString :=
  ReplaceAll (ReplaceAll (ReplaceAll encodedData (bytesOf " ") []) (bytesOf "\n") [])
    (bytesOf "\r") []

/-- The example package with the base64 of other bytes ("otro") as `Base64Content`. -/
def pkgOtroBase64 : SUNATPackage :=
  { pkgDemo with Base64Content := base64Encode (bytesOf "otro") }

/-- The example package with a `Base64Content` of three characters. -/
def pkgBase64Corto : SUNATPackage :=
  { pkgDemo with Base64Content := bytesOf "abc" }

/-! ## UBL documents (internal/models/ubl.go)

A Go pointer field is an `Option`, a slice a `List`; the `XMLName` fields (never set by
the conversion) are left out. -/

structure ID where
  Value : GoString := []
  SchemeID : GoString := []
  SchemeName : GoString := []
  SchemeAgencyName : GoString := []
  SchemeURI : GoString := []
  deriving DecidableEq

structure PartyIdentification where
  ID : Option ID := none
  deriving DecidableEq

structure PartyName where
  Name : GoString := []
  deriving DecidableEq

structure TaxScheme where
  ID : Option ID := none
  Name : GoString := []
  TaxTypeCode : GoString := []
  deriving DecidableEq

structure PartyTaxScheme where
  RegistrationName : GoString := []
  CompanyID : Option ID := none
  TaxScheme : Option TaxScheme := none
  deriving DecidableEq

structure AddressLine where
  Line : GoString := []
  deriving DecidableEq

structure IdentificationCode where
  ListID : GoString := []
  ListAgencyName : GoString := []
  ListName : GoString := []
  Value : GoString := []
  deriving DecidableEq

structure Country where
  IdentificationCode : Option IdentificationCode := none
  deriving DecidableEq

structure RegistrationAddress where
  ID : Option ID := none
  AddressTypeCode : GoString := []
  CityName : GoString := []
  CountrySubentity : GoString := []
  District : GoString := []
  AddressLine : Option AddressLine := none
  Country : Option Country := none
  deriving DecidableEq

structure PartyLegalEntity where
  RegistrationName : GoString := []
  RegistrationAddress : Option RegistrationAddress := none
  deriving DecidableEq

structure PostalAddress where
  ID : GoString := []
  StreetName : GoString := []
  CitySubdivisionName : GoString := []
  CityName : GoString := []
  CountrySubentity : GoString := []
  District : GoString := []
  Country : Option Country := none
  deriving DecidableEq

structure Contact where
  Name : GoString := []
  Telephone : GoString := []
  ElectronicMail : GoString := []
  deriving DecidableEq

structure Party where
  PartyIdentification : List PartyIdentification := []
  PartyName : Option PartyName := none
  PartyTaxScheme : Option PartyTaxScheme := none
  PartyLegalEntity : Option PartyLegalEntity := none
  PostalAddress : Option PostalAddress := none
  Contact : Option Contact := none
  deriving DecidableEq

structure AccountingSupplierParty where
  Party : Option Party := none
  deriving DecidableEq

structure AccountingCustomerParty where
  Party : Option Party := none
  deriving DecidableEq

structure Amount where
  Value : ℚ := 0
  CurrencyID : GoString := []
  deriving DecidableEq

structure TaxCategory where
  ID : GoString := []
  Percent : ℚ := 0
  TaxExemptionReasonCode : GoString := []
  TaxScheme : Option TaxScheme := none
  deriving DecidableEq

structure TaxSubtotal where
  TaxableAmount : Option Amount := none
  TaxAmount : Option Amount := none
  TaxCategory : Option TaxCategory := none
  deriving DecidableEq

structure TaxTotal where
  TaxAmount : Option Amount := none
  TaxSubtotal : List TaxSubtotal := []
  deriving DecidableEq

structure LegalMonetaryTotal where
  LineExtensionAmount : Option Amount := none
  TaxExclusiveAmount : Option Amount := none
  TaxInclusiveAmount : Option Amount := none
  ChargeTotalAmount : Option Amount := none
  PrepaidAmount : Option Amount := none
  PayableAmount : Option Amount := none
  deriving DecidableEq

structure Quantity where
  Value : ℚ := 0
  UnitCode : GoString := []
  deriving DecidableEq

structure AlternativeConditionPrice where
  PriceAmount : Option Amount := none
  PriceTypeCode : GoString := []
  deriving DecidableEq

structure PricingReference where
  AlternativeConditionPrice : List AlternativeConditionPrice := []
  deriving DecidableEq

structure SellersItemIdentification where
  ID : GoString := []
  deriving DecidableEq

structure ItemClassificationCode where
  Value : GoString := []
  ListID : GoString := []
  ListAgencyName : GoString := []
  deriving DecidableEq

structure CommodityClassification where
  ItemClassificationCode : Option ItemClassificationCode := none
  deriving DecidableEq

structure ClassifiedTaxCategory where
  ID : GoString := []
  Percent : ℚ := 0
  TaxExemptionReasonCode : GoString := []
  TierRange : GoString := []
  TaxScheme : Option TaxScheme := none
  deriving DecidableEq

structure UBLItem where
  Description : List GoString := []
  SellersItemIdentification : Option SellersItemIdentification := none
  CommodityClassification : List CommodityClassification := []
  ClassifiedTaxCategory : List ClassifiedTaxCategory := []
  deriving DecidableEq

structure Price where
  PriceAmount : Option Amount := none
  deriving DecidableEq

structure InvoiceLine where
  ID : GoString := []
  InvoicedQuantity : Option Quantity := none
  LineExtensionAmount : Option Amount := none
  PricingReference : Option PricingReference := none
  TaxTotal : List TaxTotal := []
  Item : Option UBLItem := none
  Price : Option Price := none
  deriving DecidableEq

structure CreditNoteLine where
  ID : GoString := []
  CreditedQuantity : Option Quantity := none
  LineExtensionAmount : Option Amount := none
  PricingReference : Option PricingReference := none
  TaxTotal : List TaxTotal := []
  Item : Option UBLItem := none
  Price : Option Price := none
  deriving DecidableEq

structure DebitNoteLine where
  ID : GoString := []
  DebitedQuantity : Option Quantity := none
  LineExtensionAmount : Option Amount := none
  PricingReference : Option PricingReference := none
  TaxTotal : List TaxTotal := []
  Item : Option UBLItem := none
  Price : Option Price := none
  deriving DecidableEq

structure Note where
  Value : GoString := []
  LanguageLocaleID : GoString := []
  deriving DecidableEq

structure PaymentTerms where
  ID : GoString := []
  PaymentMeansID : GoString := []
  Amount : Option Amount := none
  PaymentDueDate : GoString := []
  deriving DecidableEq

structure ExtensionContent where
  Signature : Option DigitalSignature := none
  deriving DecidableEq

structure UBLExtension where
  ExtensionContent : Option ExtensionContent := none
  deriving DecidableEq

structure UBLExtensions where
  UBLExtension : List UBLExtension := []
  deriving DecidableEq

structure SignatoryParty where
  PartyIdentification : Option PartyIdentification := none
  PartyName : Option PartyName := none
  deriving DecidableEq

structure ExternalReference where
  URI : GoString := []
  deriving DecidableEq

structure DigitalSignatureAttachment where
  ExternalReference : Option ExternalReference := none
  deriving DecidableEq

structure Signature where
  ID : GoString := []
  SignatoryParty : Option SignatoryParty := none
  DigitalSignatureAttachment : Option DigitalSignatureAttachment := none
  deriving DecidableEq

structure UBLInvoice where
  Xmlns : GoString := []
  XmlnsCac : GoString := []
  XmlnsCbc : GoString := []
  XmlnsDs : GoString := []
  XmlnsExt : GoString := []
  UBLExtensions : Option UBLExtensions := none
  UBLVersionID : GoString := []
  CustomizationID : GoString := []
  ProfileID : GoString := []
  ID : GoString := []
  IssueDate : GoString := []
  IssueTime : GoString := []
  DueDate : GoString := []
  InvoiceTypeCode : GoString := []
  Note : List Note := []
  DocumentCurrencyCode : GoString := []
  LineCountNumeric : Int := 0
  Signature : Option Signature := none
  AccountingSupplierParty : Option AccountingSupplierParty := none
  AccountingCustomerParty : Option AccountingCustomerParty := none
  PaymentTerms : List PaymentTerms := []
  TaxTotal : List TaxTotal := []
  LegalMonetaryTotal : Option LegalMonetaryTotal := none
  InvoiceLines : List InvoiceLine := []
  deriving DecidableEq

structure UBLCreditNote where
  Xmlns : GoString := []
  XmlnsCac : GoString := []
  XmlnsCbc : GoString := []
  XmlnsDs : GoString := []
  XmlnsExt : GoString := []
  UBLExtensions : Option UBLExtensions := none
  UBLVersionID : GoString := []
  CustomizationID : GoString := []
  ID : GoString := []
  IssueDate : GoString := []
  CreditNoteTypeCode : GoString := []
  DocumentCurrencyCode : GoString := []
  LineCountNumeric : Int := 0
  Signature : Option Signature := none
  AccountingSupplierParty : Option AccountingSupplierParty := none
  AccountingCustomerParty : Option AccountingCustomerParty := none
  TaxTotal : List TaxTotal := []
  LegalMonetaryTotal : Option LegalMonetaryTotal := none
  CreditNoteLines : List CreditNoteLine := []
  deriving DecidableEq

structure UBLDebitNote where
  Xmlns : GoString := []
  XmlnsCac : GoString := []
  XmlnsCbc : GoString := []
  XmlnsDs : GoString := []
  XmlnsExt : GoString := []
  UBLExtensions : Option UBLExtensions := none
  UBLVersionID : GoString := []
  CustomizationID : GoString := []
  ID : GoString := []
  IssueDate : GoString := []
  DebitNoteTypeCode : GoString := []
  DocumentCurrencyCode : GoString := []
  LineCountNumeric : Int := 0
  Signature : Option Signature := none
  AccountingSupplierParty : Option AccountingSupplierParty := none
  AccountingCustomerParty : Option AccountingCustomerParty := none
  TaxTotal : List TaxTotal := []
  LegalMonetaryTotal : Option LegalMonetaryTotal := none
  DebitNoteLines : List DebitNoteLine := []
  deriving DecidableEq

/-- What `ConvertToUBL` returns as `interface{}`: one of the three document types. -/
inductive UBLDocument where
  | invoice (invoice : UBLInvoice)
  | creditNote (creditNote : UBLCreditNote)
  | debitNote (debitNote : UBLDebitNote)
  deriving DecidableEq

/-- The Go variable `UBLConst`: version of the schema. -/
def UBLConst.Version : GoString := bytesOf "2.1"
/-- The Go variable `UBLConst`: customization, 2.0 for Peru. -/
def UBLConst.CustomizationID : GoString := bytesOf "2.0"
def UBLConst.Xmlns : GoString := bytesOf "urn:oasis:names:specification:ubl:schema:xsd:Invoice-2"
def UBLConst.XmlnsCac : GoString :=
  bytesOf "urn:oasis:names:specification:ubl:schema:xsd:CommonAggregateComponents-2"
def UBLConst.XmlnsCbc : GoString :=
  bytesOf "urn:oasis:names:specification:ubl:schema:xsd:CommonBasicComponents-2"
def UBLConst.XmlnsDs : GoString := bytesOf "http://www.w3.org/2000/09/xmldsig#"
def UBLConst.XmlnsExt : GoString :=
  bytesOf "urn:oasis:names:specification:ubl:schema:xsd:CommonExtensionComponents-2"

def SUNATConstants.InvoiceTypeCode : GoString := bytesOf "01"
def SUNATConstants.CreditNoteTypeCode : GoString := bytesOf "07"
def SUNATConstants.DebitNoteTypeCode : GoString := bytesOf "08"
def SUNATConstants.BoletaTypeCode : GoString := bytesOf "03"
def SUNATConstants.IGVCode : GoString := bytesOf "1000"
def SUNATConstants.ICBCode : GoString := bytesOf "2000"
def SUNATConstants.ISCCode : GoString := bytesOf "9995"

/-! ## `ConversionService.ConvertToUBL` (internal/services/conversion_service.go)

`models.FormatUBLDate` (`time.Time.Format`) and `strings.ToLower` are parameters.  The
maps are kept as lists of entries in the order in which the keys were first inserted
(Go iterates a map in an unspecified order). -/

/-- The Go function `strconv.Itoa`. -/
def Itoa (i : Int) : GoString :=
  if i < 0 then bytesOf "-" ++ bytesOf (Nat.repr (-i).toNat) else bytesOf (Nat.repr i.toNat)

/-- The Go call `fmt.Sprintf("%03d", n)` for `n ≥ 0`: at least three digits. -/
def sprintf03d (n : Nat) : GoString :=
  List.replicate (3 - (bytesOf (Nat.repr n)).length) (Fin.ofNat 48) ++ bytesOf (Nat.repr n)

/-- The Go method `getInvoiceTypeCode`. -/
def getInvoiceTypeCode (tipo : TipoComprobante) : GoString :=
  if tipo = TipoFactura then SUNATConstants.InvoiceTypeCode
  else if tipo = TipoBoleta then SUNATConstants.BoletaTypeCode
  else SUNATConstants.InvoiceTypeCode

/-- The Go method `getTaxSchemeName`. -/
def getTaxSchemeName (tipoImpuesto : GoString) : GoString :=
  if tipoImpuesto = SUNATConstants.IGVCode then bytesOf "IGV"
  else if tipoImpuesto = bytesOf "1016" then bytesOf "IVAP"
  else if tipoImpuesto = SUNATConstants.ICBCode then bytesOf "ISC"
  else if tipoImpuesto = SUNATConstants.ISCCode then bytesOf "EXP"
  else if tipoImpuesto = bytesOf "9996" then bytesOf "GRA"
  else if tipoImpuesto = bytesOf "9997" then bytesOf "EXO"
  else if tipoImpuesto = bytesOf "9998" then bytesOf "INA"
  else if tipoImpuesto = bytesOf "9999" then bytesOf "OTROS"
  else bytesOf "IGV"

/-- The identifier block both party conversions write three times. -/
def documentoDeIdentidad (value schemeID : GoString) : ID :=
  { Value := value
    SchemeID := schemeID
    SchemeName := bytesOf "Documento de Identidad"
    SchemeAgencyName := bytesOf "PE:SUNAT"
    SchemeURI := bytesOf "urn:pe:gob:sunat:cpe:see:gem:catalogos:catalogo06" }

/-- The country block of the party conversions. -/
def paisISO (value : GoString) : Country :=
  { IdentificationCode := some
      { ListID := bytesOf "ISO 3166-1"
        ListAgencyName := bytesOf "United Nations Economic Commission for Europe"
        ListName := bytesOf "Country"
        Value := value } }

/-- The Go method `convertSupplierParty`. -/
def convertSupplierParty (emisor : Emisor) : Except GoError AccountingSupplierParty :=
  let ruc := TrimSpace emisor.RUC
  if ruc.length ≠ 11 then .error "RUC emisor inválido: debe tener 11 dígitos"
  else if (rangeRunes ruc).any (fun c => c < 48 || c > 57) then
    .error "RUC emisor inválido: solo debe contener números"
  else
    match ValidarRUC ruc with
    | some err => .error ("RUC emisor inválido: " ++ err)
    | none =>
      if TrimSpace emisor.RazonSocial = [] then .error "Razón social del emisor es obligatoria"
      else
        let ubigeo := if emisor.CodigoPostal = [] then bytesOf "150101" else emisor.CodigoPostal
        let addressLine :=
          if emisor.Direccion = [] then bytesOf "DIRECCION FISCAL" else emisor.Direccion
        let codigoPais := if emisor.CodigoPais = [] then bytesOf "PE" else emisor.CodigoPais
        let party : Party :=
          { PartyIdentification := [{ ID := some (documentoDeIdentidad ruc (bytesOf "6")) }]
            PartyName := some { Name := emisor.RazonSocial }
            PartyTaxScheme := some
              { RegistrationName := emisor.RazonSocial
                CompanyID := some (documentoDeIdentidad ruc (bytesOf "6"))
                TaxScheme := some { ID := some (documentoDeIdentidad ruc (bytesOf "6")) } }
            PartyLegalEntity := some
              { RegistrationName := emisor.RazonSocial
                RegistrationAddress := some
                  { ID := some { Value := ubigeo
                                 SchemeID := bytesOf "Ubigeo"
                                 SchemeName := bytesOf "Ubigeos"
                                 SchemeAgencyName := bytesOf "PE:INEI" }
                    AddressTypeCode := bytesOf "0000"
                    CityName := emisor.Provincia
                    CountrySubentity := emisor.Departamento
                    District := emisor.Distrito
                    AddressLine := some { Line := addressLine }
                    Country := some (paisISO codigoPais) } }
            PostalAddress := some
              { StreetName := addressLine
                CitySubdivisionName := emisor.Distrito
                CityName := emisor.Provincia
                CountrySubentity := emisor.Departamento
                Country := some (paisISO codigoPais) } }
        let party :=
          if emisor.Telefono ≠ [] ∨ emisor.Email ≠ [] then
            { party with Contact := some { Name := emisor.NombreComercial
                                           Telephone := emisor.Telefono
                                           ElectronicMail := emisor.Email } }
          else party
        .ok { Party := some party }

/-- The Go method `convertCustomerParty`. -/
def convertCustomerParty (receptor : Receptor) : Except GoError AccountingCustomerParty :=
  let schemeID :=
    if receptor.TipoDocumento = bytesOf "1" then bytesOf "1" -- DNI
    else if receptor.TipoDocumento = bytesOf "4" then bytesOf "4" -- CE
    else if receptor.TipoDocumento = bytesOf "7" then bytesOf "7" -- Pasaporte
    else bytesOf "6" -- Por defecto RUC
  if TrimSpace receptor.RazonSocial = [] then .error "Razón social del receptor es obligatoria"
  else if receptor.NumeroDocumento = [] then
    .error "Número de documento del receptor es obligatorio"
  else
    let addressLine :=
      if receptor.Direccion = [] then bytesOf "DIRECCION CLIENTE" else receptor.Direccion
    let party : Party :=
      { PartyIdentification :=
          [{ ID := some (documentoDeIdentidad receptor.NumeroDocumento schemeID) }]
        PartyName := some { Name := receptor.RazonSocial }
        PartyTaxScheme := some
          { RegistrationName := receptor.RazonSocial
            CompanyID := some (documentoDeIdentidad receptor.NumeroDocumento schemeID)
            TaxScheme := some
              { ID := some (documentoDeIdentidad receptor.NumeroDocumento schemeID) } }
        PartyLegalEntity := some
          { RegistrationName := receptor.RazonSocial
            RegistrationAddress := some
              { CityName := bytesOf "LIMA"
                CountrySubentity := bytesOf "LIMA"
                District := bytesOf "LIMA"
                AddressLine := some { Line := addressLine }
                Country := some (paisISO (bytesOf "PE")) } } }
    let party :=
      if receptor.Direccion ≠ [] then
        { party with PostalAddress := some { StreetName := receptor.Direccion
                                             Country := some (paisISO (bytesOf "PE")) } }
      else party
    let party :=
      if receptor.Email ≠ [] then
        { party with Contact := some { ElectronicMail := receptor.Email } }
      else party
    .ok { Party := some party }

/-- The tax subtotal written for a tax entry with these values. -/
def taxSubtotalDe (tipoImpuesto codigoImpuesto : GoString) (baseImponible tasa montoImpuesto : ℚ)
    (moneda : GoString) : TaxSubtotal :=
  { TaxableAmount := some { Value := baseImponible, CurrencyID := moneda }
    TaxAmount := some { Value := montoImpuesto, CurrencyID := moneda }
    TaxCategory := some
      { ID := codigoImpuesto
        Percent := tasa
        TaxScheme := some
          { ID := some { Value := tipoImpuesto
                         SchemeID := bytesOf "UN/ECE 5153"
                         SchemeName := bytesOf "Codigo de tributos"
                         SchemeAgencyName := bytesOf "PE:SUNAT" }
            Name := getTaxSchemeName tipoImpuesto
            TaxTypeCode := bytesOf "VAT" } } }

/-- The statement `taxGroups[key] = append(taxGroups[key], impuesto)`. -/
def taxGroupsAdd (key : GoString) (impuesto : Impuesto) :
    List (GoString × List Impuesto) → List (GoString × List Impuesto)
  | [] => [(key, [impuesto])]
  | (k, group) :: rest =>
    if k = key then (k, group ++ [impuesto]) :: rest
    else (k, group) :: taxGroupsAdd key impuesto rest

/-- Body of `for _, group := range taxGroups`. -/
def taxTotalDe (moneda : GoString) (group : List Impuesto) : TaxTotal :=
  let totalAmount := group.foldl (fun total impuesto => total + impuesto.MontoImpuesto) (0 : ℚ)
  let taxSubtotals := group.map (fun impuesto =>
    taxSubtotalDe impuesto.TipoImpuesto impuesto.CodigoImpuesto impuesto.BaseImponible
      impuesto.Tasa impuesto.MontoImpuesto moneda)
  { TaxAmount := some { Value := totalAmount, CurrencyID := moneda }
    TaxSubtotal := taxSubtotals }

/-- The Go method `convertTaxTotals`. -/
def convertTaxTotals (impuestos : List Impuesto) (moneda : GoString) :
    Except GoError (List TaxTotal) :=
  -- Agrupar impuestos por tipo
  let taxGroups := impuestos.foldl
    (fun taxGroups impuesto =>
      taxGroupsAdd (impuesto.TipoImpuesto ++ bytesOf "-" ++ impuesto.CodigoImpuesto) impuesto
        taxGroups) []
  .ok (taxGroups.map (fun entry => taxTotalDe moneda entry.2))

/-- The Go method `convertLegalMonetaryTotal`. -/
def convertLegalMonetaryTotal (totales : Totales) (moneda : GoString) :
    Except GoError LegalMonetaryTotal :=
  .ok { LineExtensionAmount := some { Value := totales.TotalValorVenta, CurrencyID := moneda }
        TaxExclusiveAmount := some { Value := totales.TotalValorVenta, CurrencyID := moneda }
        TaxInclusiveAmount := some { Value := totales.TotalPrecioVenta, CurrencyID := moneda }
        ChargeTotalAmount := some { Value := totales.TotalDescuentos, CurrencyID := moneda }
        PrepaidAmount := some { Value := totales.TotalAnticipos, CurrencyID := moneda }
        PayableAmount := some { Value := totales.ImporteTotal, CurrencyID := moneda } }

/-- The Go method `convertClassifiedTaxCategory`. -/
def convertClassifiedTaxCategory (item : Item) : List ClassifiedTaxCategory :=
  let percent : ℚ := 18 -- Por defecto IGV
  let s := TipoAfectacionIGV.String item.TipoAfectacion
  let codes : GoString × GoString :=
    if s = bytesOf "10" then (bytesOf "S", bytesOf "10") -- Gravado - Operación Onerosa
    else if s = bytesOf "20" then (bytesOf "E", bytesOf "20") -- Exonerado
    else if s = bytesOf "30" then (bytesOf "O", bytesOf "30") -- Inafecto
    else if s = bytesOf "11" then (bytesOf "G", bytesOf "11") -- Gravado - Operación Gratuita
    else if s = bytesOf "21" then (bytesOf "G", bytesOf "21") -- Transferencia gratuita
    else (bytesOf "S", bytesOf "10")
  [{ ID := codes.1
     Percent := percent
     TaxExemptionReasonCode := codes.2
     TaxScheme := some
       { ID := some { Value := bytesOf "1000"
                      SchemeID := bytesOf "UN/ECE 5153"
                      SchemeName := bytesOf "Codigo de tributos"
                      SchemeAgencyName := bytesOf "PE:SUNAT" }
         Name := bytesOf "IGV"
         TaxTypeCode := bytesOf "VAT" } }]

/-- The Go method `convertItemTaxTotals`. -/
def convertItemTaxTotals (impuestosItem : List ImpuestoItem) (moneda : GoString) :
    Except GoError (List TaxTotal) :=
  .ok (impuestosItem.map (fun impuesto =>
    { TaxAmount := some { Value := impuesto.MontoImpuesto, CurrencyID := moneda }
      TaxSubtotal :=
        [taxSubtotalDe impuesto.TipoImpuesto impuesto.CodigoImpuesto impuesto.BaseImponible
          impuesto.Tasa impuesto.MontoImpuesto moneda] }))

/-- The alternative-price block of a line. -/
def pricingReferenceDe (item : Item) (moneda : GoString) : PricingReference :=
  { AlternativeConditionPrice :=
      [{ PriceAmount := some { Value := item.ValorUnitario, CurrencyID := moneda }
         PriceTypeCode := bytesOf "01" }] } -- Precio unitario (incluye el IGV)

/-- The item block of a line. -/
def ublItemDe (item : Item) : UBLItem :=
  { Description := [item.Descripcion]
    SellersItemIdentification := some { ID := item.Codigo }
    ClassifiedTaxCategory := convertClassifiedTaxCategory item }

/-- Body of the loop of `convertInvoiceLines`. -/
def convertInvoiceLine (item : Item) (moneda : GoString) : Except GoError InvoiceLine :=
  let invoiceLine : InvoiceLine :=
    { ID := Itoa item.ID
      InvoicedQuantity := some { Value := item.Cantidad, UnitCode := item.UnidadMedida }
      LineExtensionAmount := some { Value := item.ValorVenta, CurrencyID := moneda }
      Item := some (ublItemDe item)
      Price := some { PriceAmount := some { Value := item.PrecioUnitario, CurrencyID := moneda } } }
  -- Referencia de precios (para diferentes tipos de afectación)
  let invoiceLine :=
    if item.TipoAfectacion ≠ GravadoOneroso then
      { invoiceLine with PricingReference := some (pricingReferenceDe item moneda) }
    else invoiceLine
  -- Impuestos por línea
  if item.ImpuestoItem.length > 0 then
    match convertItemTaxTotals item.ImpuestoItem moneda with
    | .error err => .error ("error converting item tax totals: " ++ err)
    | .ok taxTotals => .ok { invoiceLine with TaxTotal := taxTotals }
  else .ok invoiceLine

/-- The Go method `convertInvoiceLines`. -/
def convertInvoiceLines (items : List Item) (moneda : GoString) :
    Except GoError (List InvoiceLine) :=
  items.mapM (fun item => convertInvoiceLine item moneda)

/-- The Go method `convertCreditNoteLines`. -/
def convertCreditNoteLines (items : List Item) (moneda : GoString) :
    Except GoError (List CreditNoteLine) :=
  .ok (items.map (fun item =>
    { ID := Itoa item.ID
      CreditedQuantity := some { Value := item.Cantidad, UnitCode := item.UnidadMedida }
      LineExtensionAmount := some { Value := item.ValorVenta, CurrencyID := moneda }
      Item := some (ublItemDe item)
      Price := some
        { PriceAmount := some { Value := item.PrecioUnitario, CurrencyID := moneda } } }))

/-- Body of the loop of `convertDebitNoteLines`. -/
def convertDebitNoteLine (item : Item) (moneda : GoString) : Except GoError DebitNoteLine :=
  let debitNoteLine : DebitNoteLine :=
    { ID := Itoa item.ID
      DebitedQuantity := some { Value := item.Cantidad, UnitCode := item.UnidadMedida }
      LineExtensionAmount := some { Value := item.ValorVenta, CurrencyID := moneda }
      Item := some (ublItemDe item)
      Price := some { PriceAmount := some { Value := item.ValorUnitario, CurrencyID := moneda } } }
  -- Referencia de precios (para diferentes tipos de afectación)
  let debitNoteLine :=
    if item.TipoAfectacion ≠ GravadoOneroso then
      { debitNoteLine with PricingReference := some (pricingReferenceDe item moneda) }
    else debitNoteLine
  -- Impuestos por línea
  if item.ImpuestoItem.length > 0 then
    match convertItemTaxTotals item.ImpuestoItem moneda with
    | .error err => .error ("error converting item tax totals: " ++ err)
    | .ok taxTotals => .ok { debitNoteLine with TaxTotal := taxTotals }
  else .ok debitNoteLine

/-- The Go method `convertDebitNoteLines`. -/
def convertDebitNoteLines (items : List Item) (moneda : GoString) :
    Except GoError (List DebitNoteLine) :=
  items.mapM (fun item => convertDebitNoteLine item moneda)

/-- The extensions block every converted document starts with: one extension with an
empty content. -/
def extensionVacia : UBLExtensions :=
  { UBLExtension := [{ ExtensionContent := some {} }] }

/-- The payment terms of `convertToUBLInvoice` for a payment form. -/
def paymentTermsDe (FormatUBLDate : Int → GoString) (ToLower : GoString → GoString)
    (formaPago : FormaPago) (comprobante : Comprobante) : List PaymentTerms :=
  -- Si es crédito y hay cuotas
  if ToLower formaPago.TipoPago = bytesOf "credito" ∧ formaPago.Cuotas.length > 0 then
    -- Total de crédito
    let total : PaymentTerms :=
      { ID := bytesOf "FormaPago"
        PaymentMeansID := bytesOf "Credito"
        Amount := some { Value := comprobante.Totales.ImporteTotal
                         CurrencyID := comprobante.TipoMoneda } }
    -- Cuotas
    let cuotas := formaPago.Cuotas.enum.map (fun (entry : Nat × Cuota) =>
      ({ ID := bytesOf "FormaPago"
         PaymentMeansID := bytesOf "Cuota" ++ sprintf03d (entry.1 + 1)
         Amount := some { Value := entry.2.Monto, CurrencyID := comprobante.TipoMoneda }
         PaymentDueDate := FormatUBLDate entry.2.FechaVencimiento } : PaymentTerms))
    total :: cuotas
  else
    -- Pago contado o sin cuotas
    [{ ID := bytesOf "FormaPago"
       PaymentMeansID := formaPago.TipoPago
       Amount := some { Value := comprobante.Totales.ImporteTotal
                        CurrencyID := comprobante.TipoMoneda } }]

/-- The Go method `convertToUBLInvoice`. -/
def convertToUBLInvoice (FormatUBLDate : Int → GoString) (ToLower : GoString → GoString)
    (comprobante : Comprobante) : Except GoError UBLInvoice :=
  let invoice : UBLInvoice :=
    { Xmlns := UBLConst.Xmlns
      XmlnsCac := UBLConst.XmlnsCac
      XmlnsCbc := UBLConst.XmlnsCbc
      XmlnsDs := UBLConst.XmlnsDs
      XmlnsExt := UBLConst.XmlnsExt
      UBLExtensions := some extensionVacia
      UBLVersionID := UBLConst.Version
      CustomizationID := UBLConst.CustomizationID
      ID := comprobante.Serie ++ bytesOf "-" ++ comprobante.Numero
      IssueDate := FormatUBLDate comprobante.FechaEmision
      InvoiceTypeCode := getInvoiceTypeCode comprobante.Tipo
      DocumentCurrencyCode := comprobante.TipoMoneda
      LineCountNumeric := comprobante.Items.length }
  -- Fecha de vencimiento (opcional)
  let invoice :=
    match comprobante.FechaVencimiento with
    | some fechaVencimiento => { invoice with DueDate := FormatUBLDate fechaVencimiento }
    | none => invoice
  -- Mapeo de Note (monto en letras)
  let invoice :=
    if comprobante.Observaciones ≠ [] then
      { invoice with Note := [{ Value := comprobante.Observaciones }] }
    else invoice
  -- Mapeo de PaymentTerms (cuotas de pago y forma de pago)
  let invoice :=
    match comprobante.FormaPago with
    | some formaPago =>
      { invoice with
          PaymentTerms := paymentTermsDe FormatUBLDate ToLower formaPago comprobante }
    | none => invoice
  -- Proveedor (Emisor)
  match convertSupplierParty comprobante.Emisor with
  | .error err => .error ("error converting supplier party: " ++ err)
  | .ok supplierParty =>
    -- Cliente (Receptor)
    match convertCustomerParty comprobante.Receptor with
    | .error err => .error ("error converting customer party: " ++ err)
    | .ok customerParty =>
      -- Totales de impuestos
      match convertTaxTotals comprobante.Impuestos comprobante.TipoMoneda with
      | .error err => .error ("error converting tax totals: " ++ err)
      | .ok taxTotals =>
        -- Totales monetarios
        match convertLegalMonetaryTotal comprobante.Totales comprobante.TipoMoneda with
        | .error err => .error ("error converting monetary total: " ++ err)
        | .ok monetaryTotal =>
          -- Líneas de factura
          match convertInvoiceLines comprobante.Items comprobante.TipoMoneda with
          | .error err => .error ("error converting invoice lines: " ++ err)
          | .ok invoiceLines =>
            .ok { invoice with
                    AccountingSupplierParty := some supplierParty
                    AccountingCustomerParty := some customerParty
                    TaxTotal := taxTotals
                    LegalMonetaryTotal := some monetaryTotal
                    InvoiceLines := invoiceLines }

/-- The Go method `convertToUBLCreditNote`. -/
def convertToUBLCreditNote (FormatUBLDate : Int → GoString) (comprobante : Comprobante) :
    Except GoError UBLCreditNote :=
  let creditNote : UBLCreditNote :=
    { Xmlns := UBLConst.Xmlns
      XmlnsCac := UBLConst.XmlnsCac
      XmlnsCbc := UBLConst.XmlnsCbc
      XmlnsDs := UBLConst.XmlnsDs
      XmlnsExt := UBLConst.XmlnsExt
      UBLExtensions := some extensionVacia
      UBLVersionID := UBLConst.Version
      CustomizationID := UBLConst.CustomizationID
      ID := comprobante.Serie ++ bytesOf "-" ++ comprobante.Numero
      IssueDate := FormatUBLDate comprobante.FechaEmision
      CreditNoteTypeCode := SUNATConstants.CreditNoteTypeCode
      DocumentCurrencyCode := comprobante.TipoMoneda
      LineCountNumeric := comprobante.Items.length }
  match convertSupplierParty comprobante.Emisor with
  | .error err => .error ("error converting supplier party: " ++ err)
  | .ok supplierParty =>
    match convertCustomerParty comprobante.Receptor with
    | .error err => .error ("error converting customer party: " ++ err)
    | .ok customerParty =>
      match convertTaxTotals comprobante.Impuestos comprobante.TipoMoneda with
      | .error err => .error ("error converting tax totals: " ++ err)
      | .ok taxTotals =>
        match convertLegalMonetaryTotal comprobante.Totales comprobante.TipoMoneda with
        | .error err => .error ("error converting monetary total: " ++ err)
        | .ok monetaryTotal =>
          match convertCreditNoteLines comprobante.Items comprobante.TipoMoneda with
          | .error err => .error ("error converting credit note lines: " ++ err)
          | .ok creditNoteLines =>
            .ok { creditNote with
                    AccountingSupplierParty := some supplierParty
                    AccountingCustomerParty := some customerParty
                    TaxTotal := taxTotals
                    LegalMonetaryTotal := some monetaryTotal
                    CreditNoteLines := creditNoteLines }

/-- The Go method `convertToUBLRealDebitNote`. -/
def convertToUBLRealDebitNote (FormatUBLDate : Int → GoString) (comprobante : Comprobante) :
    Except GoError UBLDebitNote :=
  let debitNote : UBLDebitNote :=
    { Xmlns := UBLConst.Xmlns
      XmlnsCac := UBLConst.XmlnsCac
      XmlnsCbc := UBLConst.XmlnsCbc
      XmlnsDs := UBLConst.XmlnsDs
      XmlnsExt := UBLConst.XmlnsExt
      UBLExtensions := some extensionVacia
      UBLVersionID := UBLConst.Version
      CustomizationID := UBLConst.CustomizationID
      ID := comprobante.Serie ++ bytesOf "-" ++ comprobante.Numero
      IssueDate := FormatUBLDate comprobante.FechaEmision
      DebitNoteTypeCode := SUNATConstants.DebitNoteTypeCode
      DocumentCurrencyCode := comprobante.TipoMoneda
      LineCountNumeric := comprobante.Items.length }
  match convertSupplierParty comprobante.Emisor with
  | .error err => .error ("error converting supplier party: " ++ err)
  | .ok supplierParty =>
    match convertCustomerParty comprobante.Receptor with
    | .error err => .error ("error converting customer party: " ++ err)
    | .ok customerParty =>
      match convertTaxTotals comprobante.Impuestos comprobante.TipoMoneda with
      | .error err => .error ("error converting tax totals: " ++ err)
      | .ok taxTotals =>
        match convertLegalMonetaryTotal comprobante.Totales comprobante.TipoMoneda with
        | .error err => .error ("error converting monetary total: " ++ err)
        | .ok monetaryTotal =>
          match convertDebitNoteLines comprobante.Items comprobante.TipoMoneda with
          | .error err => .error ("error converting debit note lines: " ++ err)
          | .ok debitNoteLines =>
            .ok { debitNote with
                    AccountingSupplierParty := some supplierParty
                    AccountingCustomerParty := some customerParty
                    TaxTotal := taxTotals
                    LegalMonetaryTotal := some monetaryTotal
                    DebitNoteLines := debitNoteLines }

/-- The Go method `ConvertToUBL`: the document, or the error (with which the Go
method returns no usable document). -/
def ConvertToUBL (FormatUBLDate : Int → GoString) (ToLower : GoString → GoString)
    (comprobante : Comprobante) : Except GoError UBLDocument :=
  -- Validación básica de campos obligatorios y catálogos SUNAT
  if comprobante.Emisor.RUC = [] ∨ comprobante.Emisor.RUC.length ≠ 11 then
    .error "RUC emisor es obligatorio y debe tener 11 dígitos"
  else if comprobante.Receptor.NumeroDocumento = [] then
    .error "Número de documento del receptor es obligatorio"
  else if comprobante.TipoMoneda = [] then .error "Código de moneda es obligatorio"
  else if comprobante.Items.length = 0 then
    .error "Debe haber al menos un item en el comprobante"
  -- Validar tipo de comprobante según catálogo SUNAT
  else if comprobante.Tipo = TipoFactura then
    (convertToUBLInvoice FormatUBLDate ToLower comprobante).map UBLDocument.invoice
  else if comprobante.Tipo = TipoBoleta then
    -- Para boleta, usar estructura de factura pero con InvoiceTypeCode "03"
    (convertToUBLInvoice FormatUBLDate ToLower comprobante).map UBLDocument.invoice
  else if comprobante.Tipo = TipoNotaCredito then
    (convertToUBLCreditNote FormatUBLDate comprobante).map UBLDocument.creditNote
  else if comprobante.Tipo = TipoNotaDebito then
    (convertToUBLRealDebitNote FormatUBLDate comprobante).map UBLDocument.debitNote
  else
    .error ("tipo de comprobante no soportado: "
      ++ showBytes (TipoComprobante.String comprobante.Tipo))

/-- An example of `models.FormatUBLDate` for time stamps in days since 2024-01-01,
right for the first 31 days. -/
def formatoFechaDemo (t : Int) : GoString :=
  bytesOf "2024-01-" ++ (if t + 1 < 10 then bytesOf "0" else []) ++ Itoa (t + 1)

/-- An example invoice with one taxed-paid item. -/
def comprobanteDemo : Comprobante :=
  { Tipo := TipoFactura, Serie := bytesOf "F001", Numero := bytesOf "00000001"
    FechaEmision := 14, TipoMoneda := bytesOf "PEN"
    Emisor := { RUC := bytesOf "20123456789", RazonSocial := bytesOf "EMPRESA DEMO S.A.C." }
    Receptor := { TipoDocumento := bytesOf "6", NumeroDocumento := bytesOf "20987654321"
                  RazonSocial := bytesOf "CLIENTE DEMO S.A.C." }
    Items := [{ ID := 1, NumeroItem := 1, Codigo := bytesOf "P001"
                Descripcion := bytesOf "Producto", UnidadMedida := bytesOf "NIU"
                Cantidad := 2, ValorUnitario := 100, PrecioUnitario := 118
                TipoAfectacion := GravadoOneroso, ValorVenta := 200, ValorTotal := 236 }]
    Totales := { TotalVentaGravada := 200, TotalImpuestos := 36, TotalValorVenta := 200
                 TotalPrecioVenta := 236, ImporteTotal := 236 } }

/-- The example invoice with an issuer RUC of unknown prefix "99". -/
def comprobanteRUCMalo : Comprobante :=
  { comprobanteDemo with
      Emisor := { RUC := bytesOf "99123456789", RazonSocial := bytesOf "EMPRESA DEMO S.A.C." } }

/-- Whether a result is a value. -/
def esOk {α : Type} : Except GoError α → Bool
  | .ok _ => true
  | .error _ => false

/-! ## Document identifiers (internal/handlers/comprobante_handler.go)

The handlers build the identifier of the package in line, just before they call
`ProcessForSUNAT`. -/

/-- The expression `comprobante.Emisor.RUC + "-" + comprobante.Tipo.String() + "-" +
comprobante.Serie + "-" + comprobante.Numero` of `CreateComprobante`, `SignComprobante`,
`SendToSUNAT`, `GenerateXMLWithoutSignature`, `processComprobanteForBatch` and
`FullProcessComprobante`. -/
def documentID (comprobante : Comprobante) : GoString :=
  comprobante.Emisor.RUC ++ bytesOf "-" ++ TipoComprobante.String comprobante.Tipo
    ++ bytesOf "-" ++ comprobante.Serie ++ bytesOf "-" ++ comprobante.Numero

/-- The identifier built by `createComprobanteTipoValidado` for the bound document and
the `tipo` of the calling handler: `comprobante.Tipo = models.TipoComprobante(tipo)`,
then `comprobante.Emisor.RUC + "-" + strconv.Itoa(int(comprobante.Tipo)) + "-" +
comprobante.Serie + "-" + comprobante.Numero`. -/
def createComprobanteTipoValidado_documentID (comprobante : Comprobante) (tipo : Int) :
    GoString :=
  let comprobante := { comprobante with Tipo := tipo }
  comprobante.Emisor.RUC ++ bytesOf "-" ++ Itoa comprobante.Tipo
    ++ bytesOf "-" ++ comprobante.Serie ++ bytesOf "-" ++ comprobante.Numero

/-- The identifier built in `CreateFactura`: `createComprobanteTipoValidado(c, 1)`. -/
def CreateFactura_documentID (comprobante : Comprobante) : GoString :=
  createComprobanteTipoValidado_documentID comprobante 1

/-- The identifier built in `CreateNotaCredito`: `createComprobanteTipoValidado(c, 3)`. -/
def CreateNotaCredito_documentID (comprobante : Comprobante) : GoString :=
  createComprobanteTipoValidado_documentID comprobante 3

/-- The identifier built in `CreateNotaDebito`: `createComprobanteTipoValidado(c, 4)`. -/
def CreateNotaDebito_documentID (comprobante : Comprobante) : GoString :=
  createComprobanteTipoValidado_documentID comprobante 4

/-! ## Example inputs for the totals, the line conversions and the SOAP responses -/

/-- The items of scripts/test_venta_exonerada.go, with `tipo_afectacion` 20 as the
script gives it (the SUNAT catalogue code of "Exonerado - Operación Onerosa"). -/
def docExonerado20 : Comprobante :=
  { Tipo := TipoFactura, Serie := bytesOf "F001", Numero := bytesOf "00000003"
    TipoMoneda := bytesOf "PEN"
    Items :=
      [{ ID := 1, NumeroItem := 1, Codigo := bytesOf "P003", UnidadMedida := bytesOf "NIU"
         Cantidad := 10, ValorUnitario := 25, PrecioUnitario := 25
         TipoAfectacion := 20, ValorVenta := 250, ValorTotal := 250
         ImpuestoItem := [{ TipoImpuesto := bytesOf "9997", CodigoImpuesto := bytesOf "EXO"
                            BaseImponible := 250, Tasa := 0, MontoImpuesto := 0 }] },
       { ID := 2, NumeroItem := 2, Codigo := bytesOf "P004", UnidadMedida := bytesOf "NIU"
         Cantidad := 5, ValorUnitario := 15, PrecioUnitario := 15
         TipoAfectacion := 20, ValorVenta := 75, ValorTotal := 75
         ImpuestoItem := [{ TipoImpuesto := bytesOf "9997", CodigoImpuesto := bytesOf "EXO"
                            BaseImponible := 75, Tasa := 0, MontoImpuesto := 0 }] }] }

/-- An exonerated item with one per-item tax entry. -/
def itemExonerado : Item :=
  { ID := 1, NumeroItem := 1, Codigo := bytesOf "P003", Descripcion := bytesOf "Libros"
    UnidadMedida := bytesOf "NIU", Cantidad := 10, ValorUnitario := 25, PrecioUnitario := 25
    TipoAfectacion := Exonerado, ValorVenta := 250, ValorTotal := 250
    ImpuestoItem := [{ TipoImpuesto := bytesOf "9997", CodigoImpuesto := bytesOf "EXO"
                       BaseImponible := 250, Tasa := 0, MontoImpuesto := 0 }] }

/-- The HTTP 200 response of the acceptance test
(`TestSUNATServiceSendDocumentAccepted`). -/
def aceptacionResponse : HTTPResponse :=
  { StatusCode := 200
    Body :=
      bytesOf ("<?xml version=\"1.0\" encoding=\"UTF-8\"?>\n" ++
        "<soap:Envelope xmlns:soap=\"http://schemas.xmlsoap.org/soap/envelope/\">\n" ++
        "  <soap:Body>\n" ++
        "    <ns2:sendBillResponse xmlns:ns2=\"http://service.sunat.gob.pe\">\n" ++
        "      <applicationResponse>") ++ base64Encode (bytesOf "CDR-ACEPTADO") ++
      bytesOf ("</applicationResponse>\n" ++
        "    </ns2:sendBillResponse>\n" ++
        "  </soap:Body>\n" ++
        "</soap:Envelope>") }

/-- What `xml.Unmarshal` reads from the body of the acceptance response. -/
def aceptacionSOAP : SOAPResponse :=
  { Body :=
      { SendBillResponse :=
          some { ApplicationResponse := base64Encode (bytesOf "CDR-ACEPTADO") } } }

/-- An example of `xml.Unmarshal` into a `SOAPResponse`: it reads the body of the
acceptance response, and fails with `EOF` on an empty input as `encoding/xml` does. -/
def unmarshalSOAPDemo (body : GoString) : Except GoError SOAPResponse :=
  if body = [] then .error "EOF"
  else if body = aceptacionResponse.Body then .ok aceptacionSOAP
  else .error "expected element type <Envelope>"

/-- An example service outside simulation mode whose client records the request and
gets an HTTP 500 answer (`TestSUNATServiceSendDocumentError`). -/
def svcError500 : SUNATService (List SendBillRequest) where
  config := { RUC := bytesOf "20123456789", Username := bytesOf "20123456789USUARIO1"
              Password := bytesOf "clave", MaxRetries := 3 }
  ClientSendDocument := fun w r =>
    (w ++ [r], .ok { StatusCode := 500, Body := bytesOf "Error interno del servidor" })
  unmarshal := unmarshalSOAPDemo
  now := 0
  zip := zipDemo
  toLower := toLowerASCII

/-- An example signature block. -/
def firmaDemo : DigitalSignature :=
  createDigitalSignature (createSignedInfo (bytesOf "ZGlnZXN0")) (bytesOf "ZmlybWE=")
    (bytesOf "Y2VydA==")

/-! ## `Client.sendSOAPRequest` (pkg/sunat/client.go)

`xml.MarshalIndent`, `http.NewRequest`, `http.Client.Do` and `time.Sleep` are parameters;
the last two act on the world outside the process (a state `σ`).  The lines the method
prints are left out. -/

structure UsernameToken where
  Username : GoString := []
  Password : GoString := []
  deriving DecidableEq

structure Security where
  Xmlns : GoString := []
  UsernameToken : UsernameToken := {}
  deriving DecidableEq

structure SOAPHeader where
  Security : Security := {}
  deriving DecidableEq

structure GetStatusRequest where
  Xmlns : GoString := []
  Ticket : GoString := []
  deriving DecidableEq

structure GetCDRRequest where
  Xmlns : GoString := []
  RUC : GoString := []
  Tipo : GoString := []
  Serie : GoString := []
  Numero : GoString := []
  deriving DecidableEq

structure SOAPBody where
  SendBill : Option SendBillRequest := none
  GetStatus : Option GetStatusRequest := none
  GetCDR : Option GetCDRRequest := none
  deriving DecidableEq

structure SOAPEnvelope where
  Xmlns : GoString := []
  Header : SOAPHeader := {}
  Body : SOAPBody := {}
  deriving DecidableEq

/-- An `*http.Request` as far as the client sets it up. -/
structure HTTPRequest where
  Method : GoString := []
  URL : GoString := []
  Body : GoString := []
  Header : List (GoString × GoString) := []
  deriving DecidableEq

/-- The libraries under `sendSOAPRequest`.  `Do` is `c.httpClient.Do`: it changes the
world and gives a response or a transport error; `Sleep` is `time.Sleep` for a number
of seconds. -/
structure HTTPLib (σ : Type) where
  marshalIndent : SOAPEnvelope → Except GoError GoString
  NewRequest : GoString → GoString → GoString → Except GoError HTTPRequest
  Do : σ → HTTPRequest → σ × Except GoError HTTPResponse
  Sleep : σ → Int → σ

/-- The Go struct `Client`. -/
structure Client (σ : Type) where
  config : SUNATConfig
  httpClient : HTTPLib σ
  baseURL : GoString

/-- The Go method `createSOAPEnvelope`. -/
def createSOAPEnvelope {σ : Type} (c : Client σ) : SOAPEnvelope :=
  { Xmlns := bytesOf "http://schemas.xmlsoap.org/soap/envelope/"
    Header :=
      { Security :=
          { Xmlns := bytesOf ("http://docs.oasis-open.org/wss/2004/01/" ++
              "oasis-200401-wss-wssecurity-secext-1.0.xsd")
            UsernameToken := { Username := c.config.Username
                               Password := c.config.Password } } }
    Body := {} }

/-- The state of the retry loop of `sendSOAPRequest`: the world, and the variables
`resp` and `err`. -/
structure RetryState (σ : Type) where
  world : σ
  resp : Option HTTPResponse
  err : Option GoError

/-- The loop `for i := 0; i <= c.config.MaxRetries; i++` of `sendSOAPRequest`, from
the value `i` of the loop variable; `fuel` bounds the iterations. -/
def retryLoop {σ : Type} (c : Client σ) (req : HTTPRequest) :
    Nat → Int → RetryState σ → RetryState σ
  | 0, _, st => st
  | fuel + 1, i, st =>
    if i ≤ c.config.MaxRetries then
      match c.httpClient.Do st.world req with
      | (w, .ok resp) => { world := w, resp := some resp, err := none } -- break
      | (w, .error err) =>
        let w := if i < c.config.MaxRetries then c.httpClient.Sleep w (i + 1) else w
        retryLoop c req fuel (i + 1) { world := w, resp := none, err := some err }
    else st

/-- The Go method `sendSOAPRequest`: the world after the call and the outcome.  The
loop runs at most `MaxRetries + 1` times, which is the fuel given to it. -/
def sendSOAPRequest {σ : Type} (c : Client σ) (w : σ) (envelope : SOAPEnvelope)
    (action : GoString) : σ × Outcome HTTPResponse :=
  -- Serializar envelope a XML
  match c.httpClient.marshalIndent envelope with
  | .error err => (w, .error ("error serializando SOAP envelope: " ++ err))
  | .ok xmlData =>
    -- Agregar declaración XML
    let xmlWithHeader := bytesOf "<?xml version=\"1.0\" encoding=\"UTF-8\"?>" ++ xmlData
    -- Crear HTTP request
    match c.httpClient.NewRequest (bytesOf "POST") c.baseURL xmlWithHeader with
    | .error err => (w, .error ("error creando HTTP request: " ++ err))
    | .ok req =>
      -- Configurar headers
      let header := mapSet (bytesOf "Content-Type") (bytesOf "text/xml; charset=utf-8") req.Header
      let header := mapSet (bytesOf "SOAPAction") (bytesOf "urn:" ++ action) header
      let header := mapSet (bytesOf "User-Agent") (bytesOf "FacturacionElectronica/1.0") header
      let req := { req with Header := header }
      -- Realizar request con reintentos
      let st := retryLoop c req (c.config.MaxRetries + 1).toNat 0
        { world := w, resp := none, err := none }
      match st.err with
      | some err =>
        (st.world, .error ("error enviando request a SUNAT después de "
          ++ toString (c.config.MaxRetries + 1) ++ " intentos: " ++ err))
      | none =>
        match st.resp with
        | none => (st.world, .panic "nil pointer dereference")
        | some resp => (st.world, .ok resp)

/-- What happens in the outside world during `sendSOAPRequest`. -/
inductive Evento where
  | intento
  | espera (segundos : Int)
  deriving DecidableEq

/-- A world that records the attempts and the waits. -/
structure Mundo where
  intentos : Nat := 0
  eventos : List Evento := []
  deriving DecidableEq

/-- The library whose `k`-th call of `Do` (counted from 0) has the transport result
`resultados k`; serialization and request creation succeed. -/
def libGuion (resultados : Nat → Except GoError HTTPResponse) : HTTPLib Mundo where
  marshalIndent := fun _ => .ok (bytesOf "<soap:Envelope></soap:Envelope>")
  NewRequest := fun method url body => .ok { Method := method, URL := url, Body := body }
  Do := fun w _ =>
    ({ intentos := w.intentos + 1, eventos := w.eventos ++ [Evento.intento] },
     resultados w.intentos)
  Sleep := fun w segundos => { w with eventos := w.eventos ++ [Evento.espera segundos] }

/-- The client with configuration `cfg` over the scripted library. -/
def clienteGuion (cfg : SUNATConfig) (resultados : Nat → Except GoError HTTPResponse) :
    Client Mundo :=
  { config := cfg, httpClient := libGuion resultados
    baseURL := if cfg.BetaURL ≠ [] then cfg.BetaURL else cfg.BaseURL }

/-- The events of `n` failed attempts, from attempt number `i` on (counted from 0),
each followed by its wait: after the `k`-th attempt (counted from 1) `k` seconds. -/
def trazaFallos : Nat → Nat → List Evento
  | _, 0 => []
  | i, n + 1 => Evento.intento :: Evento.espera ((i : Int) + 1) :: trazaFallos (i + 1) n

/-- Three transport results for examples: two failures, then an HTTP 503 response. -/
def resultadosDemo (k : Nat) : Except GoError HTTPResponse :=
  if k < 2 then .error "dial tcp: connection refused"
  else .ok { StatusCode := 503, Body := bytesOf "Service Unavailable" }

/-! ## `ComprobanteHandler.processComprobanteForBatch` (internal/handlers/comprobante_handler.go)

The repository acts on the system state `σ`; `SerializeToXML` (`xml.MarshalIndent`) is a
parameter, as are the libraries of the services. -/

/-- The repository calls of `processComprobanteForBatch`. -/
structure Repository (σ : Type) where
  /-- `h.repository.GetByID(id)`. -/
  GetByID : GoString → σ → Except GoError Comprobante × σ
  /-- `h.repository.UpdateXML(id, xml)`. -/
  UpdateXML : GoString → GoString → σ → Option GoError × σ
  /-- `h.repository.UpdateSignedXML(id, xml)`. -/
  UpdateSignedXML : GoString → GoString → σ → Option GoError × σ
  /-- `h.repository.UpdateSUNATInfo(id, ticket, estado)`. -/
  UpdateSUNATInfo : GoString → GoString → GoString → σ → Option GoError × σ
  /-- `h.repository.UpdateStatus(id, status)`. -/
  UpdateStatus : GoString → EstadoProceso → σ → Option GoError × σ

/-- The Go struct `ComprobanteHandler` as far as `processComprobanteForBatch` uses it. -/
structure ComprobanteHandler (σ : Type) where
  repository : Repository σ
  FormatUBLDate : Int → GoString
  ToLower : GoString → GoString
  SerializeToXML : UBLDocument → Except GoError GoString
  signLib : SignLib
  zip : ZipLib
  sunatService : SUNATService σ

/-- The block `if comprobante.EstadoProceso == models.EstadoPendiente` of
`processComprobanteForBatch`: the local `comprobante` afterwards, or the error
returned. -/
def batchConvertir {σ : Type} (h : ComprobanteHandler σ) (id : GoString)
    (comprobante : Comprobante) (w : σ) : Except GoError Comprobante × σ :=
  -- Procesar si está pendiente
  if comprobante.EstadoProceso = EstadoPendiente then
    -- Convertir a UBL
    match ConvertToUBL h.FormatUBLDate h.ToLower comprobante with
    | .error err => (.error err, w)
    | .ok ublDocument =>
      -- Serializar a XML
      match h.SerializeToXML ublDocument with
      | .error err => (.error err, w)
      | .ok xmlData =>
        -- Guardar XML
        match h.repository.UpdateXML id xmlData w with
        | (some err, w) => (.error err, w)
        | (none, w) => (.ok { comprobante with XMLGenerado := xmlData }, w)
  else (.ok comprobante, w)

/-- The block `if comprobante.EstadoProceso < models.EstadoFirmado`. -/
def batchFirmar {σ : Type} (h : ComprobanteHandler σ) (id certPath certPass : GoString)
    (comprobante : Comprobante) (w : σ) : Except GoError Comprobante × σ :=
  -- Firmar si no está firmado
  if comprobante.EstadoProceso < EstadoFirmado then
    let xmlData := comprobante.XMLGenerado
    match SignDocument h.signLib xmlData certPath certPass with
    | .error err => (.error err, w)
    | .ok signedXML =>
      match h.repository.UpdateSignedXML id signedXML w with
      | (some err, w) => (.error err, w)
      | (none, w) => (.ok { comprobante with XMLFirmado := signedXML }, w)
  else (.ok comprobante, w)

/-- The block `if comprobante.EstadoProceso == models.EstadoFirmado` and the final
`return nil`. -/
def batchEnviar {σ : Type} (h : ComprobanteHandler σ) (id : GoString)
    (comprobante : Comprobante) (w : σ) : Outcome Unit × σ :=
  -- Enviar a SUNAT
  if comprobante.EstadoProceso = EstadoFirmado then
    let documentID := comprobante.Emisor.RUC ++ bytesOf "-"
      ++ TipoComprobante.String comprobante.Tipo ++ bytesOf "-" ++ comprobante.Serie
      ++ bytesOf "-" ++ comprobante.Numero
    match ProcessForSUNAT h.zip h.ToLower comprobante.XMLFirmado documentID with
    | .error err => (.error err, w)
    | .ok pkg =>
      match SendDocument h.sunatService w pkg with
      | (w, .error err) => (.error err, w)
      | (w, .panic reason) => (.panic reason, w)
      | (w, .ok response) =>
        -- Actualizar información SUNAT
        match h.repository.UpdateSUNATInfo id response.Ticket (bytesOf "ENVIADO") w with
        | (some err, w) => (.error err, w)
        | (none, w) =>
          match h.repository.UpdateStatus id EstadoEnviado w with
          | (some err, w) => (.error err, w)
          | (none, w) => (.ok (), w)
  else (.ok (), w)

/-- The Go method `processComprobanteForBatch`: the returned error (`ok` for `nil`) and
the system state afterwards.  The three blocks test the `EstadoProceso` of the local
`comprobante`, which no statement of the method assigns. -/
def processComprobanteForBatch {σ : Type} (h : ComprobanteHandler σ)
    (id certPath certPass : GoString) (w : σ) : Outcome Unit × σ :=
  -- Obtener comprobante
  match h.repository.GetByID id w with
  | (.error err, w) => (.error err, w)
  | (.ok comprobante, w) =>
    match batchConvertir h id comprobante w with
    | (.error err, w) => (.error err, w)
    | (.ok comprobante, w) =>
      match batchFirmar h id certPath certPass comprobante w with
      | (.error err, w) => (.error err, w)
      | (.ok comprobante, w) => batchEnviar h id comprobante w

/-- What the example handler does to the system. -/
inductive Accion where
  | updateXML (id : GoString)
  | updateSignedXML (id : GoString)
  | sendDocument (fileName : GoString)
  | updateSUNATInfo (id ticket estado : GoString)
  | updateStatus (id : GoString) (status : EstadoProceso)
  deriving DecidableEq

/-- A small signing library for the example: fixed digest, signature and encodings. -/
def libMinima : SignLib where
  LoadBase64Certificate := fun _ _ => .ok (certDemo, bytesOf "k")
  LoadPEMCertificate := fun _ _ => .ok (certDemo, bytesOf "k")
  LoadCertificate := fun _ _ => .ok (certDemo, bytesOf "k")
  Sum256 := fun _ => bytesOf "h"
  SignPKCS1v15 := fun _ _ => .ok (bytesOf "s")
  VerifyPKCS1v15 := fun _ _ _ => none
  ParseCertificate := fun _ => .ok certDemo
  Now := 50
  MarshalSignedInfo := fun _ => .ok (bytesOf "<SignedInfo></SignedInfo>")
  MarshalIndentSignature := fun _ => .ok (bytesOf "<ds:Signature></ds:Signature>")
  UnmarshalSignature := fun _ => .error "EOF"

/-- An example handler whose system state is the list of the actions taken.  The
repository holds the example invoice in the state `estado` under every id; every
call succeeds; the SUNAT service answers every request with an HTTP 200. -/
def handlerDemo (estado : EstadoProceso) : ComprobanteHandler (List Accion) where
  repository :=
    { GetByID := fun id w =>
        (.ok { comprobanteDemo with ID := id, EstadoProceso := estado
                                    XMLGenerado := docFirma
                                    XMLFirmado := bytesOf "<Invoice>firmado</Invoice>" }, w)
      UpdateXML := fun id _ w => (none, w ++ [Accion.updateXML id])
      UpdateSignedXML := fun id _ w => (none, w ++ [Accion.updateSignedXML id])
      UpdateSUNATInfo := fun id ticket estado w =>
        (none, w ++ [Accion.updateSUNATInfo id ticket estado])
      UpdateStatus := fun id status w => (none, w ++ [Accion.updateStatus id status]) }
  FormatUBLDate := formatoFechaDemo
  ToLower := toLowerASCII
  SerializeToXML := fun _ => .ok docFirma
  signLib := libMinima
  zip := zipDemo
  sunatService :=
    { config := { Username := bytesOf "20123456789USUARIO1", Password := bytesOf "clave" }
      ClientSendDocument := fun w r =>
        (w ++ [Accion.sendDocument r.FileName], .ok { StatusCode := 200, Body := [] })
      unmarshal := fun _ =>
        .ok { Body := { SendBillResponse := some { Ticket := bytesOf "T-1" } } }
      now := 0
      zip := zipDemo
      toLower := toLowerASCII }

/-! ## Statements about `GenerateCanonicalXML` -/

/-- A complete XML comment in `s`: an occurrence of `<!--` at a position `i` and an
occurrence of `-->` at a position `j ≥ i`. -/
def ComentarioCompleto (s : GoString) : Prop :=
  ∃ i j, i ≤ j ∧ bytesOf "<!--" <+: s.drop i ∧ bytesOf "-->" <+: s.drop j

/-- Whether the comment loop of `GenerateCanonicalXML` leaves at `xmlStr` through one
of its two `break`s. -/
def stripCommentsBreaks (xmlStr : GoString) : Bool :=
  if Index xmlStr (bytesOf "<!--") = -1 then true
  else Index (sliceFrom xmlStr (Index xmlStr (bytesOf "<!--"))) (bytesOf "-->") = -1

/-- Where the white-space replacements of `GenerateCanonicalXML` delete a byte: right
after a `>` or right before a `<`. -/
def JuntoAEtiqueta (a b : GoString) : Prop :=
  a.getLast? = some (62 : Byte) ∨ b.head? = some (60 : Byte)

/-- The string `t` comes from `s` by deleting bytes, each of them right after a `>` or
right before a `<` at the time it is deleted. -/
inductive Borra : GoString → GoString → Prop where
  | refl (s : GoString) : Borra s s
  | paso (a b : GoString) (c : Byte) (t : GoString) (h : JuntoAEtiqueta a b)
      (rest : Borra (a ++ b) t) : Borra (a ++ c :: b) t

/-! ## Statements about `AddDigitalSignature` -/

/-- The opening tag of the extension placeholder. -/
def etiquetaAbre : GoString := bytesOf "<ext:ExtensionContent>"

/-- The closing tag of the extension placeholder. -/
def etiquetaCierra : GoString := bytesOf "</ext:ExtensionContent>"

/-- The three child elements before which `AddDigitalSignature` creates the extension
block. -/
def childElements : List GoString :=
  [bytesOf "<cbc:UBLVersionID>", bytesOf "<cbc:CustomizationID>", bytesOf "<cbc:ID>"]

/-- The part of the literal `extensionsXML` up to the end of the opening tag of the
placeholder. -/
def extensionsAntes : GoString :=
  bytesOf "\t<ext:UBLExtensions>\n\t\t<ext:UBLExtension>\n\t\t\t<ext:ExtensionContent>"

/-- The part of the literal `extensionsXML` from the closing tag of the placeholder
on. -/
def extensionsDespues : GoString :=
  bytesOf "</ext:ExtensionContent>\n\t\t</ext:UBLExtension>\n\t</ext:UBLExtensions>\n\t"

/-- The two items of scripts/test_venta_bonificacion.go: 10 × 100.00 taxed-paid with tax
180.00, and the free item 2 × 50.00 with tax 18.00 under the free tax code; the
affectation of the free item is `regalo` (the script writes the number 30). -/
def docBonificacion (regalo : TipoAfectacionIGV) : Comprobante :=
  { Tipo := TipoFactura, Serie := bytesOf "F001", Numero := bytesOf "00000006"
    TipoMoneda := bytesOf "PEN"
    Items :=
      [{ ID := 1, NumeroItem := 1, Codigo := bytesOf "P006", UnidadMedida := bytesOf "NIU"
         Cantidad := 10, ValorUnitario := 100, PrecioUnitario := 118
         TipoAfectacion := 10, ValorVenta := 1000, ValorTotal := 1180
         ImpuestoItem := [{ TipoImpuesto := bytesOf "1000", CodigoImpuesto := bytesOf "IGV"
                            BaseImponible := 1000, Tasa := 18, MontoImpuesto := 180 }] },
       { ID := 2, NumeroItem := 2, Codigo := bytesOf "P007", UnidadMedida := bytesOf "NIU"
         Cantidad := 2, ValorUnitario := 50, PrecioUnitario := 0
         TipoAfectacion := regalo, ValorVenta := 100, ValorTotal := 0
         ImpuestoItem := [{ TipoImpuesto := bytesOf "9996", CodigoImpuesto := bytesOf "GRA"
                            BaseImponible := 100, Tasa := 18, MontoImpuesto := 18 }] }]
    Totales := { TotalValorVenta := 1100, TotalVentaGravada := 1000, TotalVentaGratuita := 100
                 TotalImpuestos := 198, TotalPrecioVenta := 1180, ImporteTotal := 1180 } }

/-- The entry that `CalculateTotals` writes for the two item taxes of
`docDescuentoDeclarado`, which have the same key. -/
def entradaDescuento : Impuesto :=
  { TipoImpuesto := bytesOf "1000", CodigoImpuesto := bytesOf "10"
    BaseImponible := 245, Tasa := 18, MontoImpuesto := 441 / 10 }

/-- The decoder of `encoding/xml` on the texts that `extractSignature` hands to it.
The `XMLName` field of `models.DigitalSignature` has the tag `ds:Signature`, which the
decoder compares with the local name of the element; for an element written as
`<ds:Signature ...>` the local name is `Signature`, and the decoder returns this
error. -/
def unmarshalXMLName (_signatureXML : GoString) : Except GoError DigitalSignature :=
  .error "expected element type <ds:Signature> but have <Signature>"

/-- The example library with the decoder of `encoding/xml` in place of the idealised
one. -/
def libXML : SignLib := { libDemo with UnmarshalSignature := unmarshalXMLName }

/-- The document `docFirma` as `SignDocument` returns it under the example library. -/
def signedFirma : GoString :=
  match SignDocument libXML docFirma (bytesOf "cert.p12") [] with
  | .ok signedXML => signedXML
  | .error _ => []
/-! # Theorems -/

/-! ### Lemmas on rune decoding -/

theorem decodeRune_ascii (p0 : Byte) (rest : GoString) (h : p0.val < 0x80) :
    decodeRune (p0 :: rest) = (p0.val, 1) := by
  simp [decodeRune, h]

theorem runeWidth_cases (p0 : Nat) :
    (p0 < 0xE0 ∧ runeWidth p0 = 2) ∨ (0xE0 ≤ p0 ∧ p0 < 0xF0 ∧ runeWidth p0 = 3)
      ∨ (0xF0 ≤ p0 ∧ runeWidth p0 = 4) := by
  unfold runeWidth; split_ifs <;> omega

theorem acceptLo_ge (p0 : Nat) :
    0x80 ≤ acceptLo p0 ∧ (p0 = 0xE0 → acceptLo p0 = 0xA0) ∧ (p0 = 0xF0 → acceptLo p0 = 0x90) := by
  unfold acceptLo; split_ifs <;> omega

theorem acceptHi_le (p0 : Nat) : acceptHi p0 ≤ 0xBF := by
  unfold acceptHi; split_ifs <;> omega

theorem decodeRune_nonascii (p0 : Byte) (rest : GoString) (h : 0x80 ≤ p0.val) :
    0x80 ≤ (decodeRune (p0 :: rest)).1 ∧ 1 ≤ (decodeRune (p0 :: rest)).2 := by
  have hlt := p0.isLt
  have hw := runeWidth_cases p0.val
  have hlo := acceptLo_ge p0.val
  have hhi := acceptHi_le p0.val
  rcases rest with _ | ⟨b1, _ | ⟨b2, _ | ⟨b3, r⟩⟩⟩ <;>
    simp only [decodeRune, RuneError] <;>
    split_ifs <;> simp only [Nat.le_refl, and_true, true_and] <;> omega

theorem rangeRunesAux_digits (fuel : Nat) (s : GoString) (h : s.length ≤ fuel)
    (hd : ∀ b ∈ s, 48 ≤ b.val ∧ b.val ≤ 57) :
    rangeRunesAux fuel s = s.map Fin.val := by
  induction fuel generalizing s with
  | zero =>
    have : s = [] := List.eq_nil_of_length_eq_zero (Nat.le_zero.mp h)
    subst this; rfl
  | succ n ih =>
    cases s with
    | nil => rfl
    | cons p0 rest =>
      have h0 := hd p0 (List.mem_cons_self _ _)
      have hdec := decodeRune_ascii p0 rest (by omega)
      simp only [rangeRunesAux, hdec, List.drop_succ_cons, List.drop_zero, List.map_cons]
      rw [ih rest (by simpa using h) (fun b hb => hd b (List.mem_cons_of_mem _ hb))]

theorem rangeRunesAux_all_digits (fuel : Nat) (s : GoString) (h : s.length ≤ fuel)
    (hr : ∀ r ∈ rangeRunesAux fuel s, 48 ≤ r ∧ r ≤ 57) :
    ∀ b ∈ s, 48 ≤ b.val ∧ b.val ≤ 57 := by
  induction fuel generalizing s with
  | zero =>
    have : s = [] := List.eq_nil_of_length_eq_zero (Nat.le_zero.mp h)
    subst this; simp
  | succ n ih =>
    cases s with
    | nil => simp
    | cons p0 rest =>
      simp only [rangeRunesAux, List.mem_cons, forall_eq_or_imp] at hr
      obtain ⟨h1, h2⟩ := hr
      by_cases hp : p0.val < 0x80
      · have hdec := decodeRune_ascii p0 rest hp
        rw [hdec] at h1 h2
        simp only [List.drop_succ_cons, List.drop_zero] at h2
        intro b hb
        rcases List.mem_cons.mp hb with rfl | hb
        · exact h1
        · exact ih rest (by simpa using h) h2 b hb
      · have := (decodeRune_nonascii p0 rest (by omega)).1
        omega

/-- The digit test of the `range` loop succeeds on every rune exactly when every byte
is an ASCII digit, and then the runes are the bytes. -/
theorem rangeRunes_digits_iff (s : GoString) :
    (∀ r ∈ rangeRunes s, 48 ≤ r ∧ r ≤ 57) ↔ (∀ b ∈ s, 48 ≤ b.val ∧ b.val ≤ 57) := by
  constructor
  · exact rangeRunesAux_all_digits s.length s le_rfl
  · intro hd r hr
    rw [rangeRunes, rangeRunesAux_digits s.length s le_rfl hd] at hr
    obtain ⟨b, hb, rfl⟩ := List.mem_map.mp hr
    exact hd b hb

theorem rucWellFormed_iff_runes (ruc : GoString) :
    rucWellFormed ruc ↔ rucWellFormedRunes ruc := by
  unfold rucWellFormed rucWellFormedRunes
  constructor
  · rintro ⟨hl, hd, hp⟩
    refine ⟨?_, (rangeRunes_digits_iff ruc).mpr hd, hp⟩
    rw [rangeRunes, rangeRunesAux_digits ruc.length ruc le_rfl hd, List.length_map, hl]
  · rintro ⟨hl, hr, hp⟩
    have hd := (rangeRunes_digits_iff ruc).mp hr
    refine ⟨?_, hd, hp⟩
    rw [rangeRunes, rangeRunesAux_digits ruc.length ruc le_rfl hd, List.length_map] at hl
    exact hl

theorem ValidarRUC_eq_none_iff (ruc : GoString) :
    ValidarRUC ruc = none ↔ rucWellFormed ruc := by
  unfold ValidarRUC rucWellFormed
  by_cases hl : ruc.length = 11
  · by_cases hd : ∀ b ∈ ruc, 48 ≤ b.val ∧ b.val ≤ 57
    · have hr := (rangeRunes_digits_iff ruc).mpr hd
      have hany : (rangeRunes ruc).any (fun char => char < 48 || char > 57) = false := by
        rw [List.any_eq_false]
        intro r hr1
        have := hr r hr1
        simp; omega
      simp only [hl, hany, ne_eq, not_true_eq_false, ↓reduceIte, Bool.false_eq_true,
        List.any_cons, List.any_nil, Bool.or_false, Bool.not_eq_true', Bool.or_eq_false_iff,
        decide_eq_false_iff_not, ite_eq_right_iff, reduceCtorEq, imp_false, true_and]
      constructor
      · intro h
        refine ⟨hd, ?_⟩
        by_contra hc
        push_neg at hc
        exact h ⟨hc.1, hc.2.1, hc.2.2.1, hc.2.2.2⟩
      · rintro ⟨_, h⟩ ⟨h1, h2, h3, h4⟩
        rcases h with h | h | h | h <;> contradiction
    · have hr : ¬ ∀ r ∈ rangeRunes ruc, 48 ≤ r ∧ r ≤ 57 :=
        fun h => hd ((rangeRunes_digits_iff ruc).mp h)
      have hany : (rangeRunes ruc).any (fun char => char < 48 || char > 57) = true := by
        rw [List.any_eq_true]
        push_neg at hr
        obtain ⟨r, hr1, hr2⟩ := hr
        refine ⟨r, hr1, ?_⟩
        simp
        by_cases h48 : 48 ≤ r
        · right; exact hr2 h48
        · left; omega
      simp [hl, hany, hd]
  · simp [hl]

/-! ### Lemmas on `CalculateTotals` -/

theorem mathRound_intCast (n : ℤ) : mathRound (n : ℚ) = n := by
  unfold mathRound
  split_ifs with h
  · have : ⌊(n : ℚ) + 1 / 2⌋ = n := by
      rw [Int.floor_eq_iff]; constructor <;> norm_num
    rw [this]
  · have : ⌊-(n : ℚ) + 1 / 2⌋ = -n := by
      rw [Int.floor_eq_iff]; constructor <;> push_cast <;> norm_num
    rw [this]; simp

theorem montoMapa_add (key : GoString) (imp : ImpuestoItem) (m : ImpuestosMap) :
    montoMapa (impuestosMapAdd key imp m) = montoMapa m + imp.MontoImpuesto := by
  induction m with
  | nil => simp [impuestosMapAdd, montoMapa]
  | cons e rest ih =>
    obtain ⟨k, v⟩ := e
    unfold impuestosMapAdd
    split_ifs with hk
    · simp [montoMapa]; ring
    · have := ih
      simp only [montoMapa, List.map_cons, List.sum_cons] at this ⊢
      rw [this]; ring

theorem montoMapa_foldl_impuestoItemStep (imps : List ImpuestoItem) (m : ImpuestosMap) :
    montoMapa (imps.foldl impuestoItemStep m)
      = montoMapa m + (imps.map (fun imp => imp.MontoImpuesto)).sum := by
  induction imps generalizing m with
  | nil => simp
  | cons imp rest ih =>
    simp only [List.foldl_cons, List.map_cons, List.sum_cons]
    rw [ih, impuestoItemStep, montoMapa_add]; ring

theorem foldl_itemStep_snd (items : List Item) (tot : Totales) (m : ImpuestosMap) :
    montoMapa (items.foldl itemStep (tot, m)).2 = montoMapa m + impuestosDe items := by
  induction items generalizing tot m with
  | nil => simp [impuestosDe]
  | cons it rest ih =>
    simp only [List.foldl_cons]
    rw [show itemStep (tot, m) it = ((itemStep (tot, m) it).1, (itemStep (tot, m) it).2) from rfl,
      ih]
    simp only [itemStep, montoMapa_foldl_impuestoItemStep, impuestosDe, List.map_cons,
      List.sum_cons]
    ring

theorem ventaDe_cons (t : TipoAfectacionIGV) (it : Item) (rest : List Item) :
    ventaDe t (it :: rest)
      = (if it.TipoAfectacion = t then it.Cantidad * it.ValorUnitario else 0) + ventaDe t rest := by
  unfold ventaDe
  by_cases h : it.TipoAfectacion = t <;> simp [List.filter_cons, h]

theorem foldl_itemStep_fst (items : List Item) (tot : Totales) (m : ImpuestosMap) :
    (items.foldl itemStep (tot, m)).1 =
      { tot with
        TotalVentaGravada := tot.TotalVentaGravada + ventaDe GravadoOneroso items
        TotalVentaExonerada := tot.TotalVentaExonerada + ventaDe Exonerado items
        TotalVentaInafecta := tot.TotalVentaInafecta + ventaDe Inafecto items
        TotalVentaGratuita := tot.TotalVentaGratuita + ventaDe GravadoGratuito items } := by
  induction items generalizing tot m with
  | nil => simp [ventaDe]
  | cons it rest ih =>
    simp only [List.foldl_cons]
    rw [show itemStep (tot, m) it = ((itemStep (tot, m) it).1, (itemStep (tot, m) it).2) from rfl,
      ih]
    simp only [ventaDe_cons, itemStep]
    have h01 : GravadoOneroso ≠ GravadoGratuito := by decide
    have h02 : GravadoOneroso ≠ Exonerado := by decide
    have h03 : GravadoOneroso ≠ Inafecto := by decide
    have h12 : GravadoGratuito ≠ Exonerado := by decide
    have h13 : GravadoGratuito ≠ Inafecto := by decide
    have h23 : Exonerado ≠ Inafecto := by decide
    split_ifs <;> simp_all <;> ring_nf

theorem foldl_impuestoStep_snd (m : ImpuestosMap) (l : List Impuesto) (tot : Totales) :
    (m.foldl impuestoStep (l, tot)).2 =
      { tot with TotalImpuestos := tot.TotalImpuestos + montoMapa m } := by
  induction m generalizing l tot with
  | nil => simp [montoMapa]
  | cons e rest ih =>
    simp only [List.foldl_cons, impuestoStep]
    rw [ih]
    simp [montoMapa]; ring

theorem foldl_impuestoStep_fst (m : ImpuestosMap) (l : List Impuesto) (tot : Totales) :
    (m.foldl impuestoStep (l, tot)).1 = l ++ m.map (fun e => e.2) := by
  induction m generalizing l tot with
  | nil => simp
  | cons e rest ih =>
    simp only [List.foldl_cons, impuestoStep]
    rw [ih]; simp

/-- Closed form of the totals computed by `CalculateTotals`. -/
theorem CalculateTotals_totales (c : Comprobante) :
    (CalculateTotals c).1.Totales =
      { TotalVentaGravada := ventaDe GravadoOneroso c.Items
        TotalVentaExonerada := ventaDe Exonerado c.Items
        TotalVentaInafecta := ventaDe Inafecto c.Items
        TotalVentaGratuita := ventaDe GravadoGratuito c.Items
        TotalDescuentos := 0
        TotalAnticipos := 0
        TotalImpuestos := impuestosDe c.Items
        TotalValorVenta :=
          ventaDe GravadoOneroso c.Items + ventaDe Exonerado c.Items + ventaDe Inafecto c.Items
        TotalPrecioVenta :=
          ventaDe GravadoOneroso c.Items + ventaDe Exonerado c.Items + ventaDe Inafecto c.Items
            + impuestosDe c.Items
        Redondeo := 0
        ImporteTotal :=
          mathRound ((ventaDe GravadoOneroso c.Items + ventaDe Exonerado c.Items
            + ventaDe Inafecto c.Items + impuestosDe c.Items) * 100) / 100 } := by
  simp only [CalculateTotals, foldl_impuestoStep_snd, foldl_itemStep_fst, foldl_itemStep_snd]
  simp [montoMapa]

/-! ## Claims -/

/-- C1: `ValidarRUC` returns no error if and only if the string has exactly 11
characters, every character is an ASCII digit `'0'`..`'9'` and its first two
characters are one of "10", "15", "17", "20"; every other string gets an error.
The condition is stated both on the bytes of the string and on the runes the `range`
loop visits (the two readings of "character" agree). -/
theorem C1_ValidarRUC_accepts_iff (ruc : GoString) :
    (ValidarRUC ruc = none ↔
      (ruc.length = 11 ∧ (∀ b ∈ ruc, 48 ≤ b.val ∧ b.val ≤ 57) ∧
        (ruc.take 2 = bytesOf "10" ∨ ruc.take 2 = bytesOf "15" ∨
          ruc.take 2 = bytesOf "17" ∨ ruc.take 2 = bytesOf "20"))) ∧
    (ValidarRUC ruc = none ↔
      ((rangeRunes ruc).length = 11 ∧ (∀ r ∈ rangeRunes ruc, 48 ≤ r ∧ r ≤ 57) ∧
        (ruc.take 2 = bytesOf "10" ∨ ruc.take 2 = bytesOf "15" ∨
          ruc.take 2 = bytesOf "17" ∨ ruc.take 2 = bytesOf "20"))) ∧
    ((ValidarRUC ruc).isSome = true ↔
      ¬ (ruc.length = 11 ∧ (∀ b ∈ ruc, 48 ≤ b.val ∧ b.val ≤ 57) ∧
        (ruc.take 2 = bytesOf "10" ∨ ruc.take 2 = bytesOf "15" ∨
          ruc.take 2 = bytesOf "17" ∨ ruc.take 2 = bytesOf "20"))) := by
  have h1 : ValidarRUC ruc = none ↔ rucWellFormed ruc := ValidarRUC_eq_none_iff ruc
  have h2 : rucWellFormed ruc ↔ rucWellFormedRunes ruc := rucWellFormed_iff_runes ruc
  refine ⟨h1, h1.trans h2, ?_⟩
  rw [← Option.not_isSome_iff_eq_none] at h1
  constructor
  · intro hs hw
    exact (h1.mpr hw) hs
  · intro hn
    by_contra hs
    exact hn (h1.mp hs)

/-- C2: canonicalizing the canonical output again does not give it back.  For the
input `<a>\n\n\n<b/></a>` the first pass leaves `<a>\n<b/></a>` (one line break of
the three survives the single replacement pass) and the second pass turns that into
`<a><b/></a>`. -/
theorem C2_GenerateCanonicalXML_not_idempotent :
    GenerateCanonicalXML (bytesOf "<a>\n\n\n<b/></a>") = .ok (bytesOf "<a>\n<b/></a>") ∧
    (GenerateCanonicalXML (bytesOf "<a>\n\n\n<b/></a>") >>= GenerateCanonicalXML)
      = .ok (bytesOf "<a><b/></a>") ∧
    (GenerateCanonicalXML (bytesOf "<a>\n\n\n<b/></a>") >>= GenerateCanonicalXML)
      ≠ GenerateCanonicalXML (bytesOf "<a>\n\n\n<b/></a>") := by
  decide

theorem ventaDe_of_all (t : TipoAfectacionIGV) (items : List Item)
    (h : ∀ it ∈ items, it.TipoAfectacion = t) :
    ventaDe t items = (items.map (fun it => it.Cantidad * it.ValorUnitario)).sum := by
  unfold ventaDe
  rw [List.filter_eq_self.mpr]
  intro it hit
  simp [h it hit]

theorem ventaDe_of_none (t : TipoAfectacionIGV) (items : List Item)
    (h : ∀ it ∈ items, it.TipoAfectacion ≠ t) : ventaDe t items = 0 := by
  unfold ventaDe
  rw [List.filter_eq_nil_iff.mpr]
  · simp
  · intro it hit
    simp [h it hit]

theorem mathRound_23600 : mathRound 23600 = 23600 := by
  have := mathRound_intCast 23600
  simpa using this

theorem mathRound_25400 : mathRound 25400 = 25400 := by
  have := mathRound_intCast 25400
  simpa using this

/-- C7: for a document whose items all have affectation `GravadoOneroso`,
`CalculateTotals` returns no error and sets `TotalVentaGravada` to the sum over the
items of `Cantidad × ValorUnitario`, `TotalImpuestos` to the sum of all per-item
`MontoImpuesto`, and `ImporteTotal` to `TotalVentaGravada + TotalImpuestos` rounded to
2 decimals; the one-item document (quantity 2, unit value 100, one 18% tax entry of
amount 36) gets 200.00, 36.00 and 236.00. -/
theorem C7_CalculateTotals_gravado (c : Comprobante)
    (h : ∀ it ∈ c.Items, it.TipoAfectacion = GravadoOneroso) :
    (CalculateTotals c).2 = none ∧
    (CalculateTotals c).1.Totales.TotalVentaGravada
      = (c.Items.map (fun it => it.Cantidad * it.ValorUnitario)).sum ∧
    (CalculateTotals c).1.Totales.TotalImpuestos
      = (c.Items.map
          (fun it => (it.ImpuestoItem.map (fun imp => imp.MontoImpuesto)).sum)).sum ∧
    (CalculateTotals c).1.Totales.ImporteTotal
      = mathRound (((CalculateTotals c).1.Totales.TotalVentaGravada
          + (CalculateTotals c).1.Totales.TotalImpuestos) * 100) / 100 ∧
    ((CalculateTotals docUnItemGravado).1.Totales.TotalVentaGravada = 200 ∧
      (CalculateTotals docUnItemGravado).1.Totales.TotalImpuestos = 36 ∧
      (CalculateTotals docUnItemGravado).1.Totales.ImporteTotal = 236) := by
  have hE : ventaDe Exonerado c.Items = 0 :=
    ventaDe_of_none _ _ (fun it hit => by rw [h it hit]; decide)
  have hI : ventaDe Inafecto c.Items = 0 :=
    ventaDe_of_none _ _ (fun it hit => by rw [h it hit]; decide)
  refine ⟨rfl, ?_, ?_, ?_, ?_, ?_, ?_⟩
  · rw [CalculateTotals_totales]; exact ventaDe_of_all _ _ h
  · rw [CalculateTotals_totales]; rfl
  · rw [CalculateTotals_totales]; simp only [hE, hI, add_zero]
  · rw [CalculateTotals_totales]
    norm_num [ventaDe, docUnItemGravado, GravadoOneroso]
  · rw [CalculateTotals_totales]
    norm_num [impuestosDe, docUnItemGravado]
  · rw [CalculateTotals_totales]
    norm_num [ventaDe, impuestosDe, docUnItemGravado, GravadoOneroso, Exonerado, Inafecto,
      mathRound_23600]

/-- Witness for C7: the one-item example document satisfies the hypothesis. -/
theorem C7_CalculateTotals_gravado_witness :
    (∀ it ∈ docUnItemGravado.Items, it.TipoAfectacion = GravadoOneroso) ∧
    (CalculateTotals docUnItemGravado).1.Totales.TotalVentaGravada
      = (docUnItemGravado.Items.map (fun it => it.Cantidad * it.ValorUnitario)).sum :=
  ⟨by simp [docUnItemGravado],
   (C7_CalculateTotals_gravado docUnItemGravado (by simp [docUnItemGravado])).2.1⟩

/-- C8: on the document with a taxed-paid item (sale value 200, tax 36) and a
free-of-charge item (sale value 100, tax 18 under the free tax code) `CalculateTotals`
gives `TotalVentaGravada = 200`, `TotalVentaGratuita = 100`, `TotalImpuestos = 54`,
and `ImporteTotal = 254`, not 236: the tax of the free-of-charge item is part of
`TotalImpuestos` and so of `TotalPrecioVenta` and `ImporteTotal`. -/
theorem C8_CalculateTotals_gratuito_importe :
    (CalculateTotals docGravadoMasGratuito).1.Totales.TotalVentaGravada = 200 ∧
    (CalculateTotals docGravadoMasGratuito).1.Totales.TotalVentaGratuita = 100 ∧
    (CalculateTotals docGravadoMasGratuito).1.Totales.TotalImpuestos = 54 ∧
    (CalculateTotals docGravadoMasGratuito).1.Totales.ImporteTotal = 254 ∧
    (CalculateTotals docGravadoMasGratuito).1.Totales.ImporteTotal ≠ 236 := by
  have h4 : (CalculateTotals docGravadoMasGratuito).1.Totales.ImporteTotal = 254 := by
    rw [CalculateTotals_totales]
    norm_num [ventaDe, impuestosDe, docGravadoMasGratuito, GravadoOneroso, GravadoGratuito,
      Exonerado, Inafecto, mathRound_25400]
  refine ⟨?_, ?_, ?_, h4, ?_⟩
  · rw [CalculateTotals_totales]
    norm_num [ventaDe, docGravadoMasGratuito, GravadoOneroso, GravadoGratuito]
  · rw [CalculateTotals_totales]
    norm_num [ventaDe, docGravadoMasGratuito, GravadoOneroso, GravadoGratuito]
  · rw [CalculateTotals_totales]
    norm_num [impuestosDe, docGravadoMasGratuito]
  · rw [h4]; norm_num

/-! ### Lemmas on `processBatch` -/

theorem fallidosHasta_succ (resultados : Nat → Option GoError) (m : Nat) :
    fallidosHasta resultados (m + 1) =
      fallidosHasta resultados m + (if (resultados m).isSome then 1 else 0) := by
  unfold fallidosHasta
  rw [List.range_succ, List.filter_append, List.length_append]
  cases h : resultados m <;> simp [h]

theorem fallidosHasta_le (resultados : Nat → Option GoError) (m : Nat) :
    fallidosHasta resultados m ≤ m := by
  unfold fallidosHasta
  calc ((List.range m).filter (fun t => (resultados t).isSome)).length
      ≤ (List.range m).length := List.length_filter_le _ _
    _ = m := List.length_range m

/-- The loop of `processBatch` in the recording environment, started after `i` ids. -/
theorem foldl_processBatchStep_registro (resultados : Nat → Option GoError) (now : Int)
    (batchID certPath certPass : GoString) (ids : List GoString) :
    ∀ (i : Nat) (l : List LlamadaLote),
      ids.foldl (processBatchStep (envRegistro resultados now) batchID certPath certPass)
        { sys := { procesados := i, llamadas := l }
          exitosos := (i : Int) - (fallidosHasta resultados i : Int)
          fallidos := (fallidosHasta resultados i : Int) } =
      { sys := { procesados := i + ids.length
                 llamadas := l ++ llamadasLote resultados batchID certPath certPass i ids }
        exitosos := ((i + ids.length : Nat) : Int)
          - (fallidosHasta resultados (i + ids.length) : Int)
        fallidos := (fallidosHasta resultados (i + ids.length) : Int) } := by
  induction ids with
  | nil => intro i l; simp [llamadasLote]
  | cons id rest ih =>
    intro i l
    have hstep : processBatchStep (envRegistro resultados now) batchID certPath certPass
        { sys := { procesados := i, llamadas := l }
          exitosos := (i : Int) - (fallidosHasta resultados i : Int)
          fallidos := (fallidosHasta resultados i : Int) } id =
        { sys := { procesados := i + 1
                   llamadas := l ++ [LlamadaLote.procesar id certPath certPass,
                     LlamadaLote.progreso batchID ((i : Int) + 1)
                       ((i : Int) + 1 - (fallidosHasta resultados (i + 1) : Int))
                       (fallidosHasta resultados (i + 1) : Int)] }
          exitosos := ((i + 1 : Nat) : Int) - (fallidosHasta resultados (i + 1) : Int)
          fallidos := (fallidosHasta resultados (i + 1) : Int) } := by
      have hF := fallidosHasta_succ resultados i
      cases hr : resultados i with
      | none =>
        simp only [hr, Option.isSome_none, Bool.false_eq_true, if_false, Nat.add_zero] at hF
        simp only [processBatchStep, envRegistro, hr, Option.isSome_none, Bool.false_eq_true,
          if_false, hF, List.append_assoc, List.singleton_append]
        have e1 : (i : Int) - (fallidosHasta resultados i : Int) + 1
            + (fallidosHasta resultados i : Int) = (i : Int) + 1 := by ring
        have e2 : (i : Int) - (fallidosHasta resultados i : Int) + 1
            = (i : Int) + 1 - (fallidosHasta resultados i : Int) := by ring
        have e3 : ((i + 1 : Nat) : Int) = (i : Int) + 1 := by push_cast; ring
        rw [e1, e2, e3]
      | some e =>
        simp only [hr, Option.isSome_some, if_true] at hF
        simp only [processBatchStep, envRegistro, hr, Option.isSome_some, if_true, hF,
          List.append_assoc, List.singleton_append]
        have e1 : (i : Int) - (fallidosHasta resultados i : Int)
            + ((fallidosHasta resultados i : Int) + 1) = (i : Int) + 1 := by ring
        have e2 : (i : Int) - (fallidosHasta resultados i : Int)
            = (i : Int) + 1 - ((fallidosHasta resultados i : Int) + 1) := by ring
        have e3 : ((i + 1 : Nat) : Int) = (i : Int) + 1 := by push_cast; ring
        have e4 : ((fallidosHasta resultados i + 1 : Nat) : Int)
            = (fallidosHasta resultados i : Int) + 1 := by push_cast; ring
        rw [e1, e3, e4, ← e2]
    have hidx : i + 1 + rest.length = i + (rest.length + 1) := by omega
    rw [List.foldl_cons, hstep, ih (i + 1), hidx]
    simp only [llamadasLote, List.length_cons, List.append_assoc, List.cons_append,
      List.nil_append]

theorem llamadasLote_length (resultados : Nat → Option GoError)
    (batchID certPath certPass : GoString) (ids : List GoString) :
    ∀ desde, (llamadasLote resultados batchID certPath certPass desde ids).length
      = 2 * ids.length := by
  induction ids with
  | nil => intro desde; rfl
  | cons id rest ih =>
    intro desde
    simp only [llamadasLote, List.length_cons, ih (desde + 1)]
    omega

/-- The calls at the positions `2 * j` and `2 * j + 1` of the expected list. -/
theorem llamadasLote_getElem? (resultados : Nat → Option GoError)
    (batchID certPath certPass : GoString) (ids : List GoString) :
    ∀ (desde j : Nat), j < ids.length →
      (llamadasLote resultados batchID certPath certPass desde ids)[2 * j]? =
        (ids[j]?).map (fun id => LlamadaLote.procesar id certPath certPass) ∧
      (llamadasLote resultados batchID certPath certPass desde ids)[2 * j + 1]? =
        some (LlamadaLote.progreso batchID (((desde + j : Nat) : Int) + 1)
          (((desde + j : Nat) : Int) + 1 - (fallidosHasta resultados (desde + j + 1) : Int))
          (fallidosHasta resultados (desde + j + 1) : Int)) := by
  induction ids with
  | nil => intro desde j hj; simp at hj
  | cons id rest ih =>
    intro desde j hj
    cases j with
    | zero => simp [llamadasLote]
    | succ j =>
      have hj2 : j < rest.length := by simpa using hj
      have h := ih (desde + 1) j hj2
      have e1 : desde + 1 + j = desde + (j + 1) := by omega
      have e2 : 2 * (j + 1) = 2 * j + 1 + 1 := by omega
      have e3 : 2 * (j + 1) + 1 = 2 * j + 1 + 1 + 1 := by omega
      rw [e1] at h
      rw [e3, e2]
      simp only [llamadasLote, List.getElem?_cons_succ]
      exact h

theorem llamadasLote_progreso (resultados : Nat → Option GoError)
    (batchID certPath certPass : GoString) (ids : List GoString) (b : GoString)
    (p s f : Int) :
    ∀ desde, LlamadaLote.progreso b p s f ∈
        llamadasLote resultados batchID certPath certPass desde ids → p = s + f := by
  induction ids with
  | nil => intro desde h; simp [llamadasLote] at h
  | cons id rest ih =>
    intro desde h
    simp only [llamadasLote, List.mem_cons, LlamadaLote.progreso.injEq] at h
    rcases h with h | ⟨-, rfl, rfl, rfl⟩ | h
    · exact absurd h (by simp)
    · ring
    · exact ih _ h

/-- What `processBatch` leaves in the recording environment. -/
theorem processBatch_registro (resultados : Nat → Option GoError) (now : Int)
    (batchID certPath certPass : GoString) (ids : List GoString) :
    processBatch (envRegistro resultados now) batchID ids certPath certPass {} =
      { procesados := ids.length
        llamadas := llamadasLote resultados batchID certPath certPass 0 ids ++
          [LlamadaLote.finalizar batchID
            (if fallidosHasta resultados ids.length = 0 then bytesOf "COMPLETADO"
             else bytesOf "COMPLETADO_CON_ERRORES") now] } := by
  have h := foldl_processBatchStep_registro resultados now batchID certPath certPass ids 0 []
  have h0 : fallidosHasta resultados 0 = 0 := rfl
  simp only [h0, Nat.cast_zero, sub_self, Nat.zero_add, List.nil_append] at h
  have hst : processBatchLoop (envRegistro resultados now) batchID ids certPath certPass {} =
      { sys := { procesados := ids.length
                 llamadas := llamadasLote resultados batchID certPath certPass 0 ids }
        exitosos := (ids.length : Int) - (fallidosHasta resultados ids.length : Int)
        fallidos := (fallidosHasta resultados ids.length : Int) } := h
  simp only [processBatch]
  rw [hst]
  simp only [estadoFinal, envRegistro]
  by_cases hk : fallidosHasta resultados ids.length = 0
  · simp [hk]
  · have : (0 : Int) < (fallidosHasta resultados ids.length : Int) := by omega
    simp [hk, this]

/-- C10: let the `k`-th call of `processComprobanteForBatch` (counted from 0) return
`resultados k` and let the repository record the calls it receives.  For every list of
`n` ids `processBatch` makes `2 * n + 1` calls: for the `j`-th id (counted from 0) it
processes the id and then calls `UpdateBatchProgress` with `processed = j + 1`,
`failed` the number of failures among the ids handled so far and
`successful = processed - failed`; every `UpdateBatchProgress` call it makes has
`processed = successful + failed`, the last one has `processed = n`,
`successful = n - k` and `failed = k` for the number `k` of failures; and the last call
is `FinalizeBatch` with `COMPLETADO` when `k = 0` and `COMPLETADO_CON_ERRORES`
otherwise.  Five ids of which the second and the fourth fail give the reports
(1, 1, 0), (2, 1, 1), (3, 2, 1), (4, 2, 2), (5, 3, 2) and `COMPLETADO_CON_ERRORES`. -/
theorem C10_processBatch_counters (resultados : Nat → Option GoError) (now : Int)
    (batchID certPath certPass : GoString) (ids : List GoString) :
    (processBatch (envRegistro resultados now) batchID ids certPath certPass {}).procesados
      = ids.length ∧
    (processBatch (envRegistro resultados now) batchID ids certPath certPass {}).llamadas.length
      = 2 * ids.length + 1 ∧
    (∀ j, j < ids.length →
      (processBatch (envRegistro resultados now) batchID ids certPath certPass {}).llamadas[2 * j]?
        = (ids[j]?).map (fun id => LlamadaLote.procesar id certPath certPass) ∧
      (processBatch (envRegistro resultados now) batchID ids certPath
          certPass {}).llamadas[2 * j + 1]?
        = some (LlamadaLote.progreso batchID ((j : Int) + 1)
            ((j : Int) + 1 - (fallidosHasta resultados (j + 1) : Int))
            (fallidosHasta resultados (j + 1) : Int))) ∧
    (processBatch (envRegistro resultados now) batchID ids certPath
        certPass {}).llamadas[2 * ids.length]?
      = some (LlamadaLote.finalizar batchID
          (if fallidosHasta resultados ids.length = 0 then bytesOf "COMPLETADO"
           else bytesOf "COMPLETADO_CON_ERRORES") now) ∧
    (∀ b p s f, LlamadaLote.progreso b p s f ∈
        (processBatch (envRegistro resultados now) batchID ids certPath certPass {}).llamadas →
      p = s + f) ∧
    processBatch (envRegistro resultadosDosFallos 7) (bytesOf "L1")
        [bytesOf "1", bytesOf "2", bytesOf "3", bytesOf "4", bytesOf "5"]
        (bytesOf "cert.p12") [] {} =
      { procesados := 5
        llamadas :=
          [LlamadaLote.procesar (bytesOf "1") (bytesOf "cert.p12") [],
           LlamadaLote.progreso (bytesOf "L1") 1 1 0,
           LlamadaLote.procesar (bytesOf "2") (bytesOf "cert.p12") [],
           LlamadaLote.progreso (bytesOf "L1") 2 1 1,
           LlamadaLote.procesar (bytesOf "3") (bytesOf "cert.p12") [],
           LlamadaLote.progreso (bytesOf "L1") 3 2 1,
           LlamadaLote.procesar (bytesOf "4") (bytesOf "cert.p12") [],
           LlamadaLote.progreso (bytesOf "L1") 4 2 2,
           LlamadaLote.procesar (bytesOf "5") (bytesOf "cert.p12") [],
           LlamadaLote.progreso (bytesOf "L1") 5 3 2,
           LlamadaLote.finalizar (bytesOf "L1") (bytesOf "COMPLETADO_CON_ERRORES") 7] } := by
  have hlen := llamadasLote_length resultados batchID certPath certPass ids 0
  refine ⟨?_, ?_, ?_, ?_, ?_, ?_⟩
  · rw [processBatch_registro]
  · rw [processBatch_registro]
    simp only [List.length_append, hlen, List.length_singleton]
  · intro j hj
    rw [processBatch_registro]
    simp only
    have h := llamadasLote_getElem? resultados batchID certPath certPass ids 0 j hj
    simp only [Nat.zero_add] at h
    rw [List.getElem?_append_left (by rw [hlen]; omega),
      List.getElem?_append_left (by rw [hlen]; omega)]
    exact h
  · rw [processBatch_registro]
    simp only
    rw [List.getElem?_append_right (by rw [hlen]), hlen]
    simp
  · intro b p s f h
    rw [processBatch_registro] at h
    simp only [List.mem_append, List.mem_singleton] at h
    rcases h with h | h
    · exact llamadasLote_progreso resultados batchID certPath certPass ids b p s f 0 h
    · exact absurd h (by simp)
  · decide

/-! ### Lemmas on base64 -/

theorem b64Value_b64Char (n : Nat) (h : n < 64) : b64Value (b64Char n) = some n := by
  unfold b64Char b64Value
  split_ifs with h1 h2 h3 h4 <;> simp [Fin.ofNat] at * <;> omega

theorem b64Char_not_newline (n : Nat) (h : n < 64) :
    (b64Char n).val ≠ 10 ∧ (b64Char n).val ≠ 13 ∧ b64Char n ≠ b64Pad := by
  unfold b64Char b64Pad
  split_ifs <;> simp [Fin.ofNat, Fin.ext_iff] <;> omega

theorem b64Value_b64Pad : b64Value b64Pad = none := by decide

theorem b64Pad_not_newline : b64Pad.val ≠ 10 ∧ b64Pad.val ≠ 13 := by decide

theorem base64Encode_no_newline (bs : GoString) :
    ∀ c ∈ base64Encode bs, c.val ≠ 10 ∧ c.val ≠ 13 := by
  induction bs using base64Encode.induct with
  | case1 => simp [base64Encode]
  | case2 a =>
    have ha := a.isLt
    intro c hc
    simp only [base64Encode, List.mem_cons, List.mem_singleton, List.not_mem_nil, or_false] at hc
    rcases hc with rfl | rfl | rfl | rfl
    · exact ⟨(b64Char_not_newline _ (by omega)).1, (b64Char_not_newline _ (by omega)).2.1⟩
    · exact ⟨(b64Char_not_newline _ (by omega)).1, (b64Char_not_newline _ (by omega)).2.1⟩
    · exact b64Pad_not_newline
    · exact b64Pad_not_newline
  | case3 a b =>
    have ha := a.isLt
    have hb := b.isLt
    intro c hc
    simp only [base64Encode, List.mem_cons, List.mem_singleton, List.not_mem_nil, or_false] at hc
    rcases hc with rfl | rfl | rfl | rfl
    · exact ⟨(b64Char_not_newline _ (by omega)).1, (b64Char_not_newline _ (by omega)).2.1⟩
    · exact ⟨(b64Char_not_newline _ (by omega)).1, (b64Char_not_newline _ (by omega)).2.1⟩
    · exact ⟨(b64Char_not_newline _ (by omega)).1, (b64Char_not_newline _ (by omega)).2.1⟩
    · exact b64Pad_not_newline
  | case4 a b c rest ih =>
    have ha := a.isLt
    have hb := b.isLt
    have hc := c.isLt
    intro x hx
    simp only [base64Encode, List.mem_cons] at hx
    rcases hx with rfl | rfl | rfl | rfl | hx
    · exact ⟨(b64Char_not_newline _ (by omega)).1, (b64Char_not_newline _ (by omega)).2.1⟩
    · exact ⟨(b64Char_not_newline _ (by omega)).1, (b64Char_not_newline _ (by omega)).2.1⟩
    · exact ⟨(b64Char_not_newline _ (by omega)).1, (b64Char_not_newline _ (by omega)).2.1⟩
    · exact ⟨(b64Char_not_newline _ (by omega)).1, (b64Char_not_newline _ (by omega)).2.1⟩
    · exact ih x hx

theorem byte_ofNat_val (b : Byte) (n : Nat) (h : n = b.val) : (Fin.ofNat n : Byte) = b := by
  apply Fin.ext
  have := b.isLt
  simp [Fin.ofNat, h]

theorem base64DecodeQuanta_encode (bs : GoString) :
    base64DecodeQuanta (base64Encode bs) = .ok bs := by
  induction bs using base64Encode.induct with
  | case1 => simp [base64Encode, base64DecodeQuanta]
  | case2 a =>
    have ha := a.isLt
    simp only [base64Encode, base64DecodeQuanta, b64Value_b64Char _ (show a.val / 4 < 64 by omega),
      b64Value_b64Char _ (show a.val % 4 * 16 < 64 by omega), b64Value_b64Pad, and_self,
      ↓reduceIte]
    rw [byte_ofNat_val a _ (by omega)]
  | case3 a b =>
    have ha := a.isLt
    have hb := b.isLt
    simp only [base64Encode, base64DecodeQuanta, b64Value_b64Char _ (show a.val / 4 < 64 by omega),
      b64Value_b64Char _ (show a.val % 4 * 16 + b.val / 16 < 64 by omega),
      b64Value_b64Char _ (show b.val % 16 * 4 < 64 by omega), b64Value_b64Pad, ↓reduceIte]
    rw [byte_ofNat_val a _ (by omega), byte_ofNat_val b _ (by omega)]
  | case4 a b c rest ih =>
    have ha := a.isLt
    have hb := b.isLt
    have hc := c.isLt
    have v0 := b64Value_b64Char _ (show a.val / 4 < 64 by omega)
    have v1 := b64Value_b64Char _ (show a.val % 4 * 16 + b.val / 16 < 64 by omega)
    have v2 := b64Value_b64Char _ (show b.val % 16 * 4 + c.val / 64 < 64 by omega)
    have v3 := b64Value_b64Char _ (show c.val % 64 < 64 by omega)
    have e0 := byte_ofNat_val a (a.val / 4 * 4 + (a.val % 4 * 16 + b.val / 16) / 16) (by omega)
    have e1 := byte_ofNat_val b ((a.val % 4 * 16 + b.val / 16) % 16 * 16
      + (b.val % 16 * 4 + c.val / 64) / 4) (by omega)
    have e2 := byte_ofNat_val c ((b.val % 16 * 4 + c.val / 64) % 4 * 64 + c.val % 64) (by omega)
    rw [base64Encode]
    cases hE : base64Encode rest with
    | nil =>
      rw [hE] at ih
      simp only [base64DecodeQuanta, Except.ok.injEq] at ih
      simp only [base64DecodeQuanta, v0, v1, v2, v3, e0, e1, e2, ← ih]
    | cons e es =>
      rw [hE] at ih
      simp only [base64DecodeQuanta, v0, v1, v2, v3, e0, e1, e2, ih]

/-- Round trip of the standard base64 encoding. -/
theorem base64Decode_encode (bs : GoString) : base64Decode (base64Encode bs) = .ok bs := by
  unfold base64Decode
  rw [List.filter_eq_self.mpr]
  · exact base64DecodeQuanta_encode bs
  · intro c hc
    have := base64Encode_no_newline bs c hc
    simp [this.1, this.2]

/-! ### Lemmas on the encoding service -/

theorem generateSUNATFileName_eq (documentID : GoString) :
    generateSUNATFileName documentID = documentID := by
  unfold generateSUNATFileName; split_ifs <;> rfl

/-- What a successful `ProcessForSUNAT` returns. -/
theorem ProcessForSUNAT_ok (z : ZipLib) (toLower : GoString → GoString)
    (signedXML documentID : GoString) (pkg : SUNATPackage)
    (h : ProcessForSUNAT z toLower signedXML documentID = .ok pkg) :
    ∃ zipData, CreateZipFile z signedXML documentID = .ok zipData ∧
      pkg = { FileName := documentID ++ bytesOf ".zip"
              ZipContent := zipData
              Base64Content := EncodeToBase64 zipData
              XMLContent := signedXML } ∧
      ValidatePackage z toLower pkg = none := by
  unfold ProcessForSUNAT at h
  simp only [generateSUNATFileName_eq] at h
  split_ifs at h with h1 h2
  split at h
  · exact absurd h (by simp)
  · rename_i zipData hz
    split_ifs at h with h3 h4
    split at h
    · exact absurd h (by simp)
    · rename_i hv
      have hp := (Except.ok.inj h).symm
      exact ⟨zipData, hz, hp, by rw [hp]; exact hv⟩

/-- What a successful `CreateZipFile` did. -/
theorem CreateZipFile_ok (z : ZipLib) (xmlData fileName zipData : GoString)
    (h : CreateZipFile z xmlData fileName = .ok zipData) :
    ∃ (w1 w2 w3 : z.Writer) (n : Int),
      z.Create z.NewWriter
        (if !HasSuffix fileName (bytesOf ".xml") then fileName ++ bytesOf ".xml" else fileName)
        = .ok w1 ∧
      z.Write w1 xmlData = (w2, n, none) ∧ n = xmlData.length ∧ z.Close w2 = (w3, none) ∧
      zipData = z.Bytes w3 := by
  unfold CreateZipFile at h
  split_ifs at h with h1 h2
  all_goals
    simp only [h2, ↓reduceIte]
    simp only at h
    split at h
    · exact absurd h (by simp)
    · rename_i w1 hc
      split at h
      · exact absurd h (by simp)
      · rename_i w2 n hw
        split_ifs at h with h3
        split at h
        · exact absurd h (by simp)
        · rename_i w3 hcl
          split_ifs at h with h4
          exact ⟨w1, w2, w3, n, hc, hw, by simpa using h3, hcl, (Except.ok.inj h).symm⟩

theorem zipDemo_roundTrip : zipDemo.RoundTrip := by
  intro name data w1 w2 w3 n hc hw hn hcl
  simp only [zipDemo] at hc
  split_ifs at hc with h1
  have e1 := (Except.ok.inj hc).symm
  subst e1
  simp only [zipDemo, List.nil_append, Prod.mk.injEq] at hw
  obtain ⟨e2, -, -⟩ := hw
  subst e2
  simp only [zipDemo, Prod.mk.injEq, and_true] at hcl
  subst hcl
  have hl : (Fin.ofNat name.length : Fin 256).val = name.length := by
    simp [Fin.ofNat]; omega
  simp only [zipDemo, hl, List.length_append]
  simp

/-- C5: whenever `ProcessForSUNAT` returns a package, decoding its `Base64Content`
with `DecodeFromBase64` succeeds and gives exactly its `ZipContent`. -/
theorem C5_ProcessForSUNAT_base64_roundtrip (z : ZipLib) (toLower : GoString → GoString)
    (signedXML documentID : GoString) (pkg : SUNATPackage)
    (h : ProcessForSUNAT z toLower signedXML documentID = .ok pkg) :
    DecodeFromBase64 pkg.Base64Content = .ok pkg.ZipContent := by
  obtain ⟨zipData, -, hp, -⟩ := ProcessForSUNAT_ok z toLower signedXML documentID pkg h
  subst hp
  simp only [DecodeFromBase64, EncodeToBase64, base64Decode_encode]

/-- Witness for C5: with the example archive library a package is returned and its
base64 form decodes to its ZIP bytes. -/
theorem C5_ProcessForSUNAT_base64_roundtrip_witness :
    ProcessForSUNAT zipDemo toLowerASCII (bytesOf "<Invoice/>")
        (bytesOf "20123456789-01-F001-1") = .ok pkgDemo ∧
      DecodeFromBase64 pkgDemo.Base64Content = .ok pkgDemo.ZipContent :=
  ⟨by decide, C5_ProcessForSUNAT_base64_roundtrip zipDemo toLowerASCII (bytesOf "<Invoice/>")
    (bytesOf "20123456789-01-F001-1") pkgDemo (by decide)⟩

/-- C6: whenever `ProcessForSUNAT` returns a package (the archive library reading back
what it wrote), `ExtractFromZip` applied to its `ZipContent` yields exactly one entry,
named after the document with the `.xml` suffix, whose content is the signed XML,
which is also the package's `XMLContent`. -/
theorem C6_ProcessForSUNAT_zip_roundtrip (z : ZipLib) (hz : z.RoundTrip)
    (toLower : GoString → GoString) (signedXML documentID : GoString) (pkg : SUNATPackage)
    (h : ProcessForSUNAT z toLower signedXML documentID = .ok pkg) :
    ExtractFromZip z pkg.ZipContent =
      .ok [((if !HasSuffix documentID (bytesOf ".xml") then documentID ++ bytesOf ".xml"
              else documentID), signedXML)] ∧
    pkg.XMLContent = signedXML := by
  obtain ⟨zipData, hc, hp, -⟩ := ProcessForSUNAT_ok z toLower signedXML documentID pkg h
  obtain ⟨w1, w2, w3, n, h1, h2, h3, h4, h5⟩ := CreateZipFile_ok z signedXML documentID zipData hc
  have hr := hz _ _ w1 w2 w3 n h1 h2 h3 h4
  subst hp
  refine ⟨?_, rfl⟩
  simp only [ExtractFromZip, h5, hr, extractLoop, mapSet]

/-- Witness for C6: the example archive library round-trips and returns a package. -/
theorem C6_ProcessForSUNAT_zip_roundtrip_witness :
    zipDemo.RoundTrip ∧
    ProcessForSUNAT zipDemo toLowerASCII (bytesOf "<Invoice/>")
        (bytesOf "20123456789-01-F001-1") = .ok pkgDemo ∧
    ExtractFromZip zipDemo pkgDemo.ZipContent =
      .ok [((if !HasSuffix (bytesOf "20123456789-01-F001-1") (bytesOf ".xml")
              then bytesOf "20123456789-01-F001-1" ++ bytesOf ".xml"
              else bytesOf "20123456789-01-F001-1"), bytesOf "<Invoice/>")] ∧
    pkgDemo.XMLContent = bytesOf "<Invoice/>" :=
  ⟨zipDemo_roundTrip, by decide,
   C6_ProcessForSUNAT_zip_roundtrip zipDemo zipDemo_roundTrip toLowerASCII
     (bytesOf "<Invoice/>") (bytesOf "20123456789-01-F001-1") pkgDemo (by decide)⟩

/-- C9: `processResponse` never derives an accepted or rejected outcome from the
certified response.  On an HTTP 200 response its result does not depend on the body at
all (the body has been consumed when `ParseSOAPResponse` reads it), and whenever it
returns an outcome the outcome has `Success = true` and the fixed message
`Documento enviado exitosamente`, also when the parser hands back the rejection
response of the test (`ResponseCode` 0003): the outcome then is a success carrying the
raw CDR bytes. -/
theorem C9_processResponse_ignores_ResponseCode
    (unmarshal : GoString → Except GoError SOAPResponse) (now : Int) (body : GoString) :
    processResponse unmarshal now { StatusCode := 200, Body := body }
      = processResponse unmarshal now { StatusCode := 200, Body := [] } ∧
    (∀ r, processResponse unmarshal now { StatusCode := 200, Body := body } = .ok r →
      r.Success = true ∧ r.Message = bytesOf "Documento enviado exitosamente") ∧
    processResponse (fun _ => .ok rejectionSOAP) now rejectionResponse
      = .ok { Success := true, StatusCode := 200, Ticket := [],
              ApplicationResponse := rejectionCDR,
              Message := bytesOf "Documento enviado exitosamente", Timestamp := now } := by
  refine ⟨rfl, ?_, ?_⟩
  · intro r h
    simp only [processResponse, ioReadAll, ne_eq, not_true_eq_false, ↓reduceIte] at h
    split at h
    · exact absurd h (by simp)
    · split at h
      · exact absurd h (by simp)
      · split at h
        · exact absurd h (by simp)
        · have := (Outcome.ok.inj h).symm
          subst this
          exact ⟨rfl, rfl⟩
  · simp only [processResponse, ParseSOAPResponse, ioReadAll, rejectionResponse, rejectionSOAP,
      ne_eq, not_true_eq_false, ↓reduceIte, DecodeFromBase64, base64Decode_encode]
    have hne : base64Encode rejectionCDR ≠ [] := by decide
    simp [hne]

/-! ### Lemmas on the signing service -/

theorem base64Encode_injective (a b : GoString) (h : base64Encode a = base64Encode b) :
    a = b := by
  have ha := base64Decode_encode a
  rw [h, base64Decode_encode] at ha
  exact (Except.ok.inj ha).symm

/-- What `VerifySignature` has checked when it returns `(true, nil)`: the digest value
of the extracted signature is the base64 of the digest of the canonical form of the
document without its signature. -/
theorem VerifySignature_ok (L : SignLib) (s : GoString) (h : VerifySignature L s = .ok true) :
    ∃ sig si ref canon, extractSignature L s = .ok sig ∧ sig.SignedInfo = some si ∧
      si.Reference = some ref ∧ canonicalWithoutSignature s = .ok canon ∧
      ref.DigestValue = base64Encode (L.Sum256 canon) := by
  unfold VerifySignature at h
  split at h
  · exact absurd h (by simp)
  · rename_i sig hsig
    split at h
    · exact absurd h (by simp)
    · split at h
      · exact absurd h (by simp)
      · split at h
        · exact absurd h (by simp)
        · split at h
          · exact absurd h (by simp)
          · split_ifs at h
            split at h
            · exact absurd h (by simp)
            · split at h
              · exact absurd h (by simp)
              · rename_i canon hcanon
                unfold verifyDigestAndSignature at h
                split at h
                · exact absurd h (by simp)
                · rename_i si hsi
                  split at h
                  · exact absurd h (by simp)
                  · rename_i ref href
                    simp only at h
                    split_ifs at h with hd
                    exact ⟨sig, si, ref, canon, hsig, hsi, href, hcanon, by simpa using hd⟩

/-- `VerifySignature` sees a document only through the text of its signature element
and the canonical form of the rest. -/
theorem VerifySignature_congr (L : SignLib) (s t : GoString)
    (h1 : extractSignatureXML s = extractSignatureXML t)
    (h2 : canonicalWithoutSignature s = canonicalWithoutSignature t) :
    VerifySignature L s = VerifySignature L t := by
  simp only [VerifySignature, extractSignature, h1, h2]

/-- C3: under the example library (collision-free digest, signatures that verify, a
decoder that reads back what the encoder wrote, the certificate within its validity)
`SignDocument` succeeds on a serialized document with the empty extension
placeholder, and `VerifySignature` on its output returns `false` with the error
`digest del documento no coincide`: the document-without-signature rebuilt by
`removeSignature` keeps the white space that `AddDigitalSignature` put around the
signature, so its canonical form is not the one that was digested when signing.  The
same happens for a document without an extension block, where `AddDigitalSignature`
inserts the block and `removeSignature` leaves it in place.  With the decoder of
`encoding/xml`, which rejects the `ds:Signature` element because of the `XMLName` tag,
`VerifySignature` returns `false` before that, with the error of `extractSignature`. -/
theorem C3_VerifySignature_rejects_signed_document :
    (SignDocument libDemo docFirma (bytesOf "cert.p12") []).toOption.isSome = true ∧
    signThenVerify libDemo docFirma (bytesOf "cert.p12") []
      = .error "digest del documento no coincide" ∧
    (SignDocument libDemo docFirma (bytesOf "cert.p12") [] >>= canonicalWithoutSignature)
      ≠ GenerateCanonicalXML docFirma ∧
    (SignDocument libDemo docSinExtensiones (bytesOf "./certs/cert.b64") []).toOption.isSome
      = true ∧
    signThenVerify libDemo docSinExtensiones (bytesOf "./certs/cert.b64") []
      = .error "digest del documento no coincide" ∧
    signThenVerify libXML docFirma (bytesOf "cert.p12") []
      = .error ("error extrayendo firma: error parseando firma digital: " ++
          "expected element type <ds:Signature> but have <Signature>") := by
  decide!

/-! ### Lemmas on the tax map of `CalculateTotals` -/

/-- The tax map after the item loop is the fold of the inner loop body over all the
item taxes in document order. -/
theorem foldl_itemStep_map (items : List Item) (tot : Totales) (m : ImpuestosMap) :
    (items.foldl itemStep (tot, m)).2 = (impuestosItems items).foldl impuestoItemStep m := by
  induction items generalizing tot m with
  | nil => rfl
  | cons it rest ih =>
    simp only [List.foldl_cons, impuestosItems, List.map_cons, List.flatten_cons,
      List.foldl_append]
    rw [show itemStep (tot, m) it = ((itemStep (tot, m) it).1, (itemStep (tot, m) it).2) from rfl,
      ih]
    rfl

/-- The keys of the map after one insertion. -/
theorem impuestosMapAdd_keys (key : GoString) (i : ImpuestoItem) (m : ImpuestosMap) :
    (impuestosMapAdd key i m).map Prod.fst =
      if key ∈ m.map Prod.fst then m.map Prod.fst else m.map Prod.fst ++ [key] := by
  induction m with
  | nil => simp [impuestosMapAdd]
  | cons e rest ih =>
    obtain ⟨k, imp⟩ := e
    by_cases hk : k = key
    · simp [impuestosMapAdd, hk]
    · have hk2 : ¬ key = k := fun h => hk h.symm
      simp only [impuestosMapAdd, hk, if_false, List.map_cons, ih, List.mem_cons, hk2, false_or]
      split_ifs <;> simp

theorem impuestosMapAdd_nodup (key : GoString) (i : ImpuestoItem) (m : ImpuestosMap)
    (h : (m.map Prod.fst).Nodup) : ((impuestosMapAdd key i m).map Prod.fst).Nodup := by
  rw [impuestosMapAdd_keys]
  split_ifs with hk
  · exact h
  · exact List.Nodup.append h (List.nodup_singleton key) (by simpa using hk)

/-- The entries of the map after one insertion. -/
theorem impuestosMapAdd_mem (key : GoString) (i : ImpuestoItem) (m : ImpuestosMap)
    (h : (m.map Prod.fst).Nodup) (k : GoString) (e : Impuesto) :
    (k, e) ∈ impuestosMapAdd key i m ↔
      (k ≠ key ∧ (k, e) ∈ m) ∨
      (k = key ∧ ((∃ e0, (key, e0) ∈ m ∧ e = entradaSuma e0 i) ∨
                  ((∀ e0, (key, e0) ∉ m) ∧ e = entradaNueva i))) := by
  induction m with
  | nil =>
    simp only [impuestosMapAdd, List.mem_singleton, Prod.mk.injEq, List.not_mem_nil, false_and,
      and_false, exists_false, not_false_eq_true, implies_true, true_and, false_or, entradaNueva,
      ne_eq]
  | cons x rest ih =>
    obtain ⟨k0, imp⟩ := x
    simp only [List.map_cons, List.nodup_cons, List.mem_map, Prod.exists, exists_and_right,
      exists_eq_right, not_exists] at h
    obtain ⟨hnot, hnd⟩ := h
    by_cases hk : k0 = key
    · subst hk
      simp only [impuestosMapAdd, if_true, List.mem_cons, Prod.mk.injEq]
      constructor
      · rintro (⟨rfl, rfl⟩ | hm)
        · exact Or.inr ⟨rfl, Or.inl ⟨imp, Or.inl ⟨trivial, rfl⟩, rfl⟩⟩
        · refine Or.inl ⟨?_, Or.inr hm⟩
          rintro rfl; exact hnot e hm
      · rintro (⟨hne, h1 | hm⟩ | ⟨rfl, h2⟩)
        · exact absurd h1.1 hne
        · exact Or.inr hm
        · rcases h2 with ⟨e0, h3 | h3, rfl⟩ | ⟨h3, -⟩
          · rw [← h3.2]; exact Or.inl ⟨rfl, rfl⟩
          · exact absurd h3 (hnot e0)
          · exact absurd (Or.inl ⟨trivial, rfl⟩) (h3 imp)
    · simp only [impuestosMapAdd, hk, if_false, List.mem_cons, Prod.mk.injEq, ih hnd]
      constructor
      · rintro (⟨rfl, rfl⟩ | ⟨hne, hm⟩ | ⟨rfl, h2⟩)
        · exact Or.inl ⟨hk, Or.inl ⟨rfl, rfl⟩⟩
        · exact Or.inl ⟨hne, Or.inr hm⟩
        · refine Or.inr ⟨rfl, ?_⟩
          rcases h2 with ⟨e0, h3, rfl⟩ | ⟨h3, rfl⟩
          · exact Or.inl ⟨e0, Or.inr h3, rfl⟩
          · refine Or.inr ⟨fun e0 hh => ?_, rfl⟩
            rcases hh with hh | hh
            · exact hk hh.1.symm
            · exact h3 e0 hh
      · rintro (⟨hne, h1 | hm⟩ | ⟨rfl, h2⟩)
        · exact Or.inl h1
        · exact Or.inr (Or.inl ⟨hne, hm⟩)
        · refine Or.inr (Or.inr ⟨rfl, ?_⟩)
          rcases h2 with ⟨e0, h3 | h3, rfl⟩ | ⟨h3, rfl⟩
          · exact absurd h3.1.symm hk
          · exact Or.inl ⟨e0, h3, rfl⟩
          · exact Or.inr ⟨fun e0 hh => h3 e0 (Or.inr hh), rfl⟩

theorem agregado_snoc_ne (k : GoString) (l : List ImpuestoItem) (i : ImpuestoItem)
    (h : claveDe i ≠ k) : agregado k (l ++ [i]) = agregado k l := by
  unfold agregado
  have : conClave k (l ++ [i]) = conClave k l := by simp [conClave, List.filter_append, h]
  rw [this]

theorem agregado_snoc_eq (l : List ImpuestoItem) (i : ImpuestoItem) :
    agregado (claveDe i) (l ++ [i]) =
      some (match agregado (claveDe i) l with
            | some e0 => entradaSuma e0 i
            | none => entradaNueva i) := by
  unfold agregado
  have : conClave (claveDe i) (l ++ [i]) = conClave (claveDe i) l ++ [i] := by
    simp [conClave, List.filter_append]
  rw [this]
  cases conClave (claveDe i) l with
  | nil => simp [entradaNueva]
  | cons j rest => simp [entradaSuma, List.sum_append, add_assoc]

theorem MapaInv_step (l : List ImpuestoItem) (m : ImpuestosMap) (i : ImpuestoItem)
    (h : MapaInv l m) : MapaInv (l ++ [i]) (impuestoItemStep m i) := by
  obtain ⟨hnd, hmem⟩ := h
  have hstep : impuestoItemStep m i = impuestosMapAdd (claveDe i) i m := rfl
  rw [hstep]
  refine ⟨impuestosMapAdd_nodup _ _ _ hnd, fun k e => ?_⟩
  rw [impuestosMapAdd_mem _ _ _ hnd]
  by_cases hk : k = claveDe i
  · subst hk
    rw [agregado_snoc_eq]
    cases hag : agregado (claveDe i) l with
    | none =>
      have hno : ∀ e0, (claveDe i, e0) ∉ m := fun e0 h0 => by
        rw [hmem, hag] at h0; exact Option.noConfusion h0
      constructor
      · rintro (⟨hne, -⟩ | ⟨-, ⟨e0, h0, -⟩ | ⟨-, rfl⟩⟩)
        · exact absurd rfl hne
        · exact absurd h0 (hno e0)
        · rfl
      · intro h1
        simp only [Option.some.injEq] at h1
        exact Or.inr ⟨rfl, Or.inr ⟨hno, h1.symm⟩⟩
    | some e1 =>
      have h1 : (claveDe i, e1) ∈ m := (hmem _ _).2 hag
      constructor
      · rintro (⟨hne, -⟩ | ⟨-, ⟨e0, h0, rfl⟩ | ⟨h0, -⟩⟩)
        · exact absurd rfl hne
        · rw [hmem, hag] at h0
          simp only [Option.some.injEq] at h0
          rw [h0]
        · exact absurd h1 (h0 e1)
      · intro h2
        simp only [Option.some.injEq] at h2
        exact Or.inr ⟨rfl, Or.inl ⟨e1, h1, h2.symm⟩⟩
  · have hk2 : claveDe i ≠ k := fun h => hk h.symm
    rw [agregado_snoc_ne _ _ _ hk2, ← hmem]
    constructor
    · rintro (⟨-, h0⟩ | ⟨h0, -⟩)
      · exact h0
      · exact absurd h0 hk
    · exact fun h0 => Or.inl ⟨hk, h0⟩

theorem MapaInv_foldl (l l0 : List ImpuestoItem) (m : ImpuestosMap) (h : MapaInv l0 m) :
    MapaInv (l0 ++ l) (l.foldl impuestoItemStep m) := by
  induction l generalizing l0 m with
  | nil => simpa using h
  | cons i rest ih =>
    have := ih (l0 ++ [i]) (impuestoItemStep m i) (MapaInv_step l0 m i h)
    simpa using this

/-- The document-level taxes written by `CalculateTotals` are the entries of a map
that satisfies the invariant for all the item taxes of the document. -/
theorem CalculateTotals_impuestos (c : Comprobante) :
    ∃ m : ImpuestosMap, MapaInv (impuestosItems c.Items) m ∧
      (CalculateTotals c).1.Impuestos = m.map Prod.snd := by
  refine ⟨(impuestosItems c.Items).foldl impuestoItemStep [], ?_, ?_⟩
  · have h0 : MapaInv [] [] := ⟨List.nodup_nil, fun k e => by simp [agregado, conClave]⟩
    simpa using MapaInv_foldl (impuestosItems c.Items) [] [] h0
  · simp only [CalculateTotals, foldl_impuestoStep_fst, foldl_itemStep_map, List.nil_append]


/-- What an aggregate is made of: the item taxes with its key, the first of which gives
type, code and rate. -/
theorem agregado_some (k : GoString) (l : List ImpuestoItem) (e : Impuesto)
    (h : agregado k l = some e) :
    ∃ j rest, conClave k l = j :: rest ∧ j ∈ l ∧ claveDe j = k ∧
      e.TipoImpuesto = j.TipoImpuesto ∧ e.CodigoImpuesto = j.CodigoImpuesto ∧
      e.Tasa = j.Tasa ∧
      e.BaseImponible = ((conClave k l).map (fun i => i.BaseImponible)).sum ∧
      e.MontoImpuesto = ((conClave k l).map (fun i => i.MontoImpuesto)).sum := by
  unfold agregado at h
  cases hc : conClave k l with
  | nil => rw [hc] at h; exact Option.noConfusion h
  | cons j rest =>
    rw [hc] at h
    simp only [Option.some.injEq] at h
    have hj : j ∈ conClave k l := by rw [hc]; exact List.mem_cons_self _ _
    simp only [conClave, List.mem_filter, decide_eq_true_eq] at hj
    subst h
    exact ⟨j, rest, rfl, hj.1, hj.2, rfl, rfl, rfl, rfl, rfl⟩

theorem agregado_isSome (l : List ImpuestoItem) (i : ImpuestoItem) (h : i ∈ l) :
    ∃ e, agregado (claveDe i) l = some e := by
  unfold agregado
  cases hc : conClave (claveDe i) l with
  | nil =>
    have : i ∈ conClave (claveDe i) l := by simp [conClave, h]
    rw [hc] at this; exact absurd this (List.not_mem_nil _)
  | cons j rest => exact ⟨_, rfl⟩

theorem mathRound_29410 : mathRound 29410 = 29410 := by
  have := mathRound_intCast 29410
  norm_num at this ⊢; exact this

theorem mathRound_half9 : mathRound (9 / 2) = 5 := by
  have h : ⌊(9 / 2 : ℚ) + 1 / 2⌋ = 5 := by
    rw [Int.floor_eq_iff]; norm_num
  simp only [mathRound, h]; norm_num

theorem mathRound_9 : mathRound 9 = 9 := by
  have := mathRound_intCast 9
  norm_num at this ⊢; exact this

/-- Evaluation for C14.  On the two items of scripts/test_venta_bonificacion.go
(10 × 100.00 taxed-paid and the free item 2 × 50.00), with the free item under the
affectation `GravadoGratuito` of the switch, `CalculateTotals` gives
`TotalVentaGravada = 1000`, `TotalVentaGratuita = 100` and `TotalValorVenta = 1000`,
where the four subtotals add up to 1100, the `total_valor_venta` of the script.  With
the affectation 30 that the script writes, no subtotal gets the free item and
`TotalValorVenta` is 1000 as well.  For every document `TotalValorVenta` is the sum of
the three other subtotals, so it is the sum of the four less `TotalVentaGratuita`. -/
theorem C14_valor_venta_omits_gratuita :
    (docBonificacion GravadoGratuito).Totales.TotalValorVenta = 1100 ∧
    (CalculateTotals (docBonificacion GravadoGratuito)).1.Totales.TotalVentaGravada = 1000 ∧
    (CalculateTotals (docBonificacion GravadoGratuito)).1.Totales.TotalVentaExonerada = 0 ∧
    (CalculateTotals (docBonificacion GravadoGratuito)).1.Totales.TotalVentaInafecta = 0 ∧
    (CalculateTotals (docBonificacion GravadoGratuito)).1.Totales.TotalVentaGratuita = 100 ∧
    (CalculateTotals (docBonificacion GravadoGratuito)).1.Totales.TotalValorVenta = 1000 ∧
    (CalculateTotals (docBonificacion 30)).1.Totales.TotalVentaGratuita = 0 ∧
    (CalculateTotals (docBonificacion 30)).1.Totales.TotalValorVenta = 1000 ∧
    ∀ c : Comprobante,
      (CalculateTotals c).1.Totales.TotalValorVenta =
        (CalculateTotals c).1.Totales.TotalVentaGravada
          + (CalculateTotals c).1.Totales.TotalVentaExonerada
          + (CalculateTotals c).1.Totales.TotalVentaInafecta
          + (CalculateTotals c).1.Totales.TotalVentaGratuita
          - (CalculateTotals c).1.Totales.TotalVentaGratuita := by
  refine ⟨rfl, ?_, ?_, ?_, ?_, ?_, ?_, ?_, ?_⟩
  · rw [CalculateTotals_totales]
    norm_num [ventaDe, docBonificacion, GravadoOneroso, GravadoGratuito]
  · rw [CalculateTotals_totales]
    norm_num [ventaDe, docBonificacion, GravadoOneroso, GravadoGratuito, Exonerado]
  · rw [CalculateTotals_totales]
    norm_num [ventaDe, docBonificacion, GravadoOneroso, GravadoGratuito, Inafecto]
  · rw [CalculateTotals_totales]
    norm_num [ventaDe, docBonificacion, GravadoOneroso, GravadoGratuito]
  · rw [CalculateTotals_totales]
    norm_num [ventaDe, docBonificacion, GravadoOneroso, GravadoGratuito, Exonerado, Inafecto]
  · rw [CalculateTotals_totales]
    norm_num [ventaDe, docBonificacion, GravadoOneroso, GravadoGratuito]
  · rw [CalculateTotals_totales]
    norm_num [ventaDe, docBonificacion, GravadoOneroso, GravadoGratuito, Exonerado, Inafecto]
  · intro c
    rw [CalculateTotals_totales]
    ring

/-- C15: `CalculateTotals` leaves the items stored in the document as they were (the
values are assigned to the loop's copy of each item); on the one-item example the
stored item keeps `ValorVenta = 0` and `ValorTotal = 0` although
`Cantidad × ValorUnitario = 200`. -/
theorem C15_CalculateTotals_items_unchanged :
    (∀ c : Comprobante, (CalculateTotals c).1.Items = c.Items) ∧
    (CalculateTotals docUnItemGravado).1.Items.map
        (fun it => (it.ValorVenta, it.Cantidad * it.ValorUnitario, it.ValorTotal)) =
      [(0, 200, 0)] := by
  refine ⟨fun c => rfl, ?_⟩
  simp only [CalculateTotals, docUnItemGravado, List.map_cons, List.map_nil]
  norm_num

/-- Evaluation for C16.  The item taxes ("1000-A", "B") and ("1000", "A-B") are two
different pairs with the same key "1000-A-B"; `CalculateTotals` merges them into the
single entry ("1000-A", "B") with base 200 and amount 20, and the pair
("1000", "A-B") has no entry. -/
theorem C16_distinct_pairs_merged :
    (impuestosItems docClavesIguales.Items).map parItem =
      [(bytesOf "1000-A", bytesOf "B"), (bytesOf "1000", bytesOf "A-B")] ∧
    (CalculateTotals docClavesIguales).1.Impuestos =
      [{ TipoImpuesto := bytesOf "1000-A", CodigoImpuesto := bytesOf "B"
         BaseImponible := 200, Tasa := 18, MontoImpuesto := 20 }] := by
  refine ⟨rfl, ?_⟩
  have hk : bytesOf "1000-A" ++ bytesOf "-" ++ bytesOf "B" =
      bytesOf "1000" ++ bytesOf "-" ++ bytesOf "A-B" := by decide
  simp only [CalculateTotals, docClavesIguales, List.foldl_cons, List.foldl_nil, itemStep,
    impuestoItemStep, impuestosMapAdd, impuestoStep, hk, if_true, List.nil_append]
  norm_num

/-- Outside the collisions of the key: when item taxes with the same key
`TipoImpuesto + "-" + CodigoImpuesto` always have the same (`TipoImpuesto`,
`CodigoImpuesto`) pair, the document-level `Impuestos` after `CalculateTotals` hold no
pair twice, hold exactly the pairs that occur among the items' taxes, and each entry's
`BaseImponible` and `MontoImpuesto` are the sums of those of all the item taxes with
its pair. -/
theorem CalculateTotals_impuestos_por_par (c : Comprobante)
    (h : ∀ i ∈ impuestosItems c.Items, ∀ j ∈ impuestosItems c.Items,
      claveDe i = claveDe j → parItem i = parItem j) :
    (((CalculateTotals c).1.Impuestos).map parDe).Nodup ∧
    (∀ p, p ∈ ((CalculateTotals c).1.Impuestos).map parDe ↔
      p ∈ (impuestosItems c.Items).map parItem) ∧
    ∀ e ∈ (CalculateTotals c).1.Impuestos,
      e.BaseImponible =
        ((conPar e.TipoImpuesto e.CodigoImpuesto (impuestosItems c.Items)).map
          (fun i => i.BaseImponible)).sum ∧
      e.MontoImpuesto =
        ((conPar e.TipoImpuesto e.CodigoImpuesto (impuestosItems c.Items)).map
          (fun i => i.MontoImpuesto)).sum := by
  obtain ⟨m, ⟨hnd, hmem⟩, hr⟩ := CalculateTotals_impuestos c
  rw [hr]
  have hkey : ∀ x ∈ m, x.1 = x.2.TipoImpuesto ++ bytesOf "-" ++ x.2.CodigoImpuesto := by
    rintro ⟨k, e⟩ hx
    obtain ⟨j, rest, -, -, hk, ht, hc, -⟩ := agregado_some k _ e ((hmem k e).1 hx)
    simp only [← hk, claveDe, ht, hc]
  refine ⟨?_, ?_, ?_⟩
  · have h1 : m.map Prod.fst =
        (m.map Prod.snd).map (fun e => e.TipoImpuesto ++ bytesOf "-" ++ e.CodigoImpuesto) := by
      rw [List.map_map]
      exact List.map_congr_left hkey
    have h2 : ((m.map Prod.snd).map
        (fun e => e.TipoImpuesto ++ bytesOf "-" ++ e.CodigoImpuesto)) =
        ((m.map Prod.snd).map parDe).map (fun p => p.1 ++ bytesOf "-" ++ p.2) := by
      simp only [List.map_map]; rfl
    rw [h1, h2] at hnd
    exact List.Nodup.of_map _ hnd
  · rintro ⟨t, k⟩
    simp only [List.mem_map, Prod.exists, exists_and_right, exists_eq_right, parDe, parItem,
      Prod.mk.injEq]
    constructor
    · rintro ⟨e, ⟨key, he⟩, rfl, rfl⟩
      obtain ⟨j, rest, -, hj, -, ht, hc, -⟩ := agregado_some key _ e ((hmem key e).1 he)
      exact ⟨j, hj, ht.symm, hc.symm⟩
    · rintro ⟨i, hi, rfl, rfl⟩
      obtain ⟨e, he⟩ := agregado_isSome _ i hi
      obtain ⟨j, rest, -, hj, hk, ht, hc, -⟩ := agregado_some _ _ e he
      have hp := h j hj i hi hk
      simp only [parItem, Prod.mk.injEq] at hp
      exact ⟨e, ⟨_, (hmem _ e).2 he⟩, ht.trans hp.1, hc.trans hp.2⟩
  · intro e he
    simp only [List.mem_map, Prod.exists, exists_and_right, exists_eq_right] at he
    obtain ⟨key, he⟩ := he
    obtain ⟨j, rest, -, hj, hk, ht, hc, -, hb, hm⟩ := agregado_some key _ e ((hmem key e).1 he)
    have hfil : conPar e.TipoImpuesto e.CodigoImpuesto (impuestosItems c.Items) =
        conClave key (impuestosItems c.Items) := by
      unfold conPar conClave
      apply List.filter_congr
      intro i hi
      simp only [decide_eq_decide]
      constructor
      · rintro ⟨h1, h2⟩
        rw [← hk]; simp only [claveDe, h1, h2, ht, hc]
      · intro h1
        have hp := h i hi j hj (h1.trans hk.symm)
        simp only [parItem, Prod.mk.injEq] at hp
        exact ⟨hp.1.trans ht.symm, hp.2.trans hc.symm⟩
    rw [hfil]
    exact ⟨hb, hm⟩

/-- C17, as stated, fails: on two items of 0.25 whose 18% taxes are each rounded to
cents (0.05 = round(0.045)), `CalculateTotals` writes the entry with base 0.50, rate 18
and amount 0.10, while round(0.50 × 18 / 100) = 0.09. -/
theorem C17_sum_of_rounded_amounts :
    (∀ i ∈ impuestosItems docDosCentavos.Items,
      i.MontoImpuesto = round2 (i.BaseImponible * i.Tasa / 100)) ∧
    (CalculateTotals docDosCentavos).1.Impuestos =
      [{ TipoImpuesto := bytesOf "1000", CodigoImpuesto := bytesOf "IGV"
         BaseImponible := 1 / 2, Tasa := 18, MontoImpuesto := 1 / 10 }] ∧
    round2 (1 / 2 * 18 / 100) = 9 / 100 ∧
    ¬ ∀ e ∈ (CalculateTotals docDosCentavos).1.Impuestos,
        e.MontoImpuesto = round2 (e.BaseImponible * e.Tasa / 100) := by
  have hr : round2 (1 / 4 * 18 / 100) = 1 / 20 := by
    simp only [round2]; norm_num [mathRound_half9]
  have hr2 : round2 (1 / 2 * 18 / 100) = 9 / 100 := by
    simp only [round2]; norm_num [mathRound_9]
  have hI : (CalculateTotals docDosCentavos).1.Impuestos =
      [{ TipoImpuesto := bytesOf "1000", CodigoImpuesto := bytesOf "IGV"
         BaseImponible := 1 / 2, Tasa := 18, MontoImpuesto := 1 / 10 }] := by
    simp only [CalculateTotals, docDosCentavos, List.foldl_cons, List.foldl_nil, itemStep,
      impuestoItemStep, impuestosMapAdd, impuestoStep, if_true, List.nil_append]
    norm_num
  refine ⟨?_, hI, hr2, ?_⟩
  · intro i hi
    simp only [impuestosItems, docDosCentavos, List.map_cons, List.map_nil, List.flatten_cons,
      List.flatten_nil, List.append_nil, List.singleton_append, List.mem_cons,
      List.mem_singleton, List.not_mem_nil, or_false, or_self] at hi
    subst hi
    exact hr.symm
  · rw [hI]
    intro hall
    have := hall _ (List.mem_singleton_self _)
    simp only [hr2] at this
    norm_num at this

/-- C17, amended: after `CalculateTotals` every document-level tax entry is the
aggregate of the item taxes that have its key `TipoImpuesto + "-" + CodigoImpuesto`:
there is a first such item tax, the entry has its `Tasa`, and the entry's
`BaseImponible` and `MontoImpuesto` are the sums of the `BaseImponible` and of the
`MontoImpuesto` of all the item taxes with that key.  No amount is computed from base
and rate and none is rounded. -/
theorem C17_CalculateTotals_monto_suma (c : Comprobante) (e : Impuesto)
    (he : e ∈ (CalculateTotals c).1.Impuestos) :
    ∃ j rest,
      conClave (e.TipoImpuesto ++ bytesOf "-" ++ e.CodigoImpuesto) (impuestosItems c.Items)
        = j :: rest ∧
      e.Tasa = j.Tasa ∧
      e.BaseImponible = ((j :: rest).map (fun i => i.BaseImponible)).sum ∧
      e.MontoImpuesto = ((j :: rest).map (fun i => i.MontoImpuesto)).sum := by
  obtain ⟨m, ⟨-, hmem⟩, hr⟩ := CalculateTotals_impuestos c
  rw [hr] at he
  simp only [List.mem_map, Prod.exists, exists_and_right, exists_eq_right] at he
  obtain ⟨key, he⟩ := he
  obtain ⟨j, rest, hc, -, hk, ht, hcod, hta, hb, hm⟩ :=
    agregado_some key _ e ((hmem key e).1 he)
  have hkey : e.TipoImpuesto ++ bytesOf "-" ++ e.CodigoImpuesto = key := by
    rw [← hk, ht, hcod]; rfl
  rw [hkey]
  rw [hc] at hb hm
  exact ⟨j, rest, hc, hta, hb, hm⟩

/-- The amended C17 at the document of scripts/test_totals_calculation.go, whose two
item taxes (bases 200 and 45, amounts 36 and 8.10, rate 18) have the same key and are
merged into the entry with base 245 and amount 44.10. -/
theorem C17_CalculateTotals_monto_suma_witness :
    entradaDescuento ∈ (CalculateTotals docDescuentoDeclarado).1.Impuestos ∧
    (conClave (bytesOf "1000-10") (impuestosItems docDescuentoDeclarado.Items)).map
        (fun i => (i.BaseImponible, i.Tasa, i.MontoImpuesto))
      = [(200, 18, 36), (45, 18, 81 / 10)] ∧
    ∃ j rest,
      conClave (entradaDescuento.TipoImpuesto ++ bytesOf "-" ++ entradaDescuento.CodigoImpuesto)
        (impuestosItems docDescuentoDeclarado.Items) = j :: rest ∧
      entradaDescuento.Tasa = j.Tasa ∧
      entradaDescuento.BaseImponible = ((j :: rest).map (fun i => i.BaseImponible)).sum ∧
      entradaDescuento.MontoImpuesto = ((j :: rest).map (fun i => i.MontoImpuesto)).sum :=
  have hmem : entradaDescuento ∈ (CalculateTotals docDescuentoDeclarado).1.Impuestos := by
    have hI : (CalculateTotals docDescuentoDeclarado).1.Impuestos = [entradaDescuento] := by
      simp only [CalculateTotals, docDescuentoDeclarado, List.foldl_cons, List.foldl_nil,
        itemStep, impuestoItemStep, impuestosMapAdd, impuestoStep, if_true, List.nil_append,
        entradaDescuento]
      norm_num
    rw [hI]
    exact List.mem_singleton_self _
  have hk : bytesOf "1000" ++ (bytesOf "-" ++ bytesOf "10") = bytesOf "1000-10" := by decide
  ⟨hmem,
   by simp [conClave, impuestosItems, docDescuentoDeclarado, claveDe, hk],
   C17_CalculateTotals_monto_suma docDescuentoDeclarado entradaDescuento hmem⟩

/-- C18: on the document of scripts/test_totals_calculation.go (taxed sales 250, taxes
44.10, declared discounts 5) `CalculateTotals` leaves `TotalDescuentos = 0` and
`ImporteTotal = 294.10`, not the declared 5 and 289.10; for every document the
discounts, advances and rounding after the call are 0, whatever was declared. -/
theorem C18_CalculateTotals_drops_declared_amounts :
    docDescuentoDeclarado.Totales.TotalDescuentos = 5 ∧
    (CalculateTotals docDescuentoDeclarado).1.Totales.TotalVentaGravada = 250 ∧
    (CalculateTotals docDescuentoDeclarado).1.Totales.TotalImpuestos = 441 / 10 ∧
    (CalculateTotals docDescuentoDeclarado).1.Totales.TotalPrecioVenta = 2941 / 10 ∧
    (CalculateTotals docDescuentoDeclarado).1.Totales.TotalDescuentos = 0 ∧
    (CalculateTotals docDescuentoDeclarado).1.Totales.ImporteTotal = 2941 / 10 ∧
    ∀ c : Comprobante,
      (CalculateTotals c).1.Totales.TotalDescuentos = 0 ∧
      (CalculateTotals c).1.Totales.TotalAnticipos = 0 ∧
      (CalculateTotals c).1.Totales.Redondeo = 0 := by
  refine ⟨rfl, ?_, ?_, ?_, ?_, ?_, fun c => ?_⟩
  · rw [CalculateTotals_totales]
    norm_num [ventaDe, docDescuentoDeclarado, GravadoOneroso]
  · rw [CalculateTotals_totales]
    norm_num [impuestosDe, docDescuentoDeclarado]
  · rw [CalculateTotals_totales]
    norm_num [ventaDe, impuestosDe, docDescuentoDeclarado, GravadoOneroso, Exonerado, Inafecto]
  · rw [CalculateTotals_totales]
  · rw [CalculateTotals_totales]
    norm_num [ventaDe, impuestosDe, docDescuentoDeclarado, GravadoOneroso, Exonerado, Inafecto,
      mathRound_29410]
  · rw [CalculateTotals_totales]
    exact ⟨rfl, rfl, rfl⟩

/-- C11, as stated, fails: in simulation mode a package without a file name is not
answered with the canned success; `SendDocument` returns the validation error (and
the client is not called). -/
theorem C11_simulation_rejects_invalid_package :
    isSimulationMode svcSimulacion.config = true ∧
    SendDocument svcSimulacion [] pkgVacio =
      ([], .error "paquete inválido: nombre de archivo requerido") := by
  decide

/-- C11, amended: in simulation mode (`ForceRealSend` false, `Username` "MODDATOS" or
"20103129061MODDATOS", `Password` "MODDATOS") `SendDocument` never calls the SUNAT
client (the outside world is left as it was, whatever the client would do); for every
package that passes `ValidatePackage` it returns a successful outcome with `Ticket`
"123456789" and `ApplicationResponse` "ACEPTADO", and for every package that fails
`ValidatePackage` it returns the error "paquete inválido: ...". -/
theorem C11_SendDocument_simulation {σ : Type} (s : SUNATService σ) (w : σ)
    (pkg : SUNATPackage)
    (hforce : s.config.ForceRealSend = false)
    (huser : s.config.Username = bytesOf "MODDATOS" ∨
      s.config.Username = bytesOf "20103129061MODDATOS")
    (hpass : s.config.Password = bytesOf "MODDATOS") :
    (SendDocument s w pkg).1 = w ∧
    (ValidatePackage s.zip s.toLower pkg = none →
      ∃ r, (SendDocument s w pkg).2 = .ok r ∧ r.Success = true ∧
        r.Ticket = bytesOf "123456789" ∧ r.ApplicationResponse = bytesOf "ACEPTADO") ∧
    (∀ err, ValidatePackage s.zip s.toLower pkg = some err →
      (SendDocument s w pkg).2 = .error ("paquete inválido: " ++ err)) := by
  have hsim : isSimulationMode s.config = true := by
    unfold isSimulationMode
    rcases huser with hu | hu <;> simp [hforce, hu, hpass]
  cases hv : ValidatePackage s.zip s.toLower pkg with
  | some err => simp [SendDocument, hv]
  | none => simp [SendDocument, hv, hsim, simulateSUNATResponse]

/-- The amended C11 at the example service and the example package. -/
theorem C11_SendDocument_simulation_witness :
    ValidatePackage svcSimulacion.zip svcSimulacion.toLower pkgDemo = none ∧
    (SendDocument svcSimulacion [] pkgDemo).1 = [] ∧
    ∃ r, (SendDocument svcSimulacion [] pkgDemo).2 = .ok r ∧ r.Success = true ∧
      r.Ticket = bytesOf "123456789" ∧ r.ApplicationResponse = bytesOf "ACEPTADO" :=
  have hv : ValidatePackage svcSimulacion.zip svcSimulacion.toLower pkgDemo = none := by
    decide
  ⟨hv,
   (C11_SendDocument_simulation svcSimulacion [] pkgDemo rfl (Or.inl rfl) rfl).1,
   (C11_SendDocument_simulation svcSimulacion [] pkgDemo rfl (Or.inl rfl) rfl).2.1 hv⟩

/-- C19, as stated, fails: the example package with the base64 of other bytes as
`Base64Content` (it decodes to "otro", not to its `ZipContent`) passes
`ValidatePackage`. -/
theorem C19_ValidatePackage_accepts_other_base64 :
    base64Decode pkgOtroBase64.Base64Content = .ok (bytesOf "otro") ∧
    bytesOf "otro" ≠ pkgOtroBase64.ZipContent ∧
    ValidatePackage zipDemo toLowerASCII pkgOtroBase64 = none := by
  decide

/-- C19, amended: `ValidatePackage` returns an error for every package whose
`Base64Content`, with blanks and line breaks removed, has a length that is not a
multiple of 4 or does not decode as standard base64. -/
theorem C19_ValidatePackage_invalid_base64 (z : ZipLib) (toLower : GoString → GoString)
    (pkg : SUNATPackage)
    (h : (base64Limpio pkg.Base64Content).length % 4 ≠ 0 ∨
      ∀ bs, base64Decode (base64Limpio pkg.Base64Content) ≠ .ok bs) :
    ∃ err, ValidatePackage z toLower pkg = some err := by
  have hb : ∃ err, ValidateBase64 pkg.Base64Content = some err := by
    simp only [ValidateBase64]
    rcases h with h | h
    · exact ⟨_, if_pos h⟩
    · by_cases hl : (base64Limpio pkg.Base64Content).length % 4 ≠ 0
      · exact ⟨_, if_pos hl⟩
      · simp only [base64Limpio] at hl h
        rw [if_neg hl]
        split
        · exact ⟨_, rfl⟩
        · rename_i bs hbs
          exact absurd hbs (h bs)
  obtain ⟨err, herr⟩ := hb
  simp only [ValidatePackage, herr]
  split_ifs <;> exact ⟨_, rfl⟩

/-- The amended C19 at the example package with a three-character `Base64Content`. -/
theorem C19_ValidatePackage_invalid_base64_witness :
    (base64Limpio pkgBase64Corto.Base64Content).length % 4 ≠ 0 ∧
    ∃ err, ValidatePackage zipDemo toLowerASCII pkgBase64Corto = some err :=
  ⟨by decide,
   C19_ValidatePackage_invalid_base64 zipDemo toLowerASCII pkgBase64Corto (Or.inl (by decide))⟩

/-! ### Lemmas on `ConvertToUBL` -/

theorem trimLeftSpaceAux_suffix (fuel : Nat) (s : GoString) :
    trimLeftSpaceAux fuel s <:+ s := by
  induction fuel generalizing s with
  | zero => exact List.suffix_refl s
  | succ n ih =>
    cases s with
    | nil => exact List.suffix_refl _
    | cons b rest =>
      simp only [trimLeftSpaceAux]
      split_ifs
      · exact (ih _).trans (List.drop_suffix _ _)
      · exact List.suffix_refl _

theorem trimRightSpaceAux_prefix (fuel : Nat) (s : GoString) :
    trimRightSpaceAux fuel s <+: s := by
  induction fuel generalizing s with
  | zero => exact List.prefix_refl s
  | succ n ih =>
    cases s with
    | nil => exact List.prefix_refl _
    | cons b rest =>
      simp only [trimRightSpaceAux]
      split_ifs
      · exact (ih _).trans (List.take_prefix _ _)
      · exact List.prefix_refl _

/-- `TrimSpace` only removes bytes: a result of the same length is the string itself. -/
theorem TrimSpace_eq_of_length (s : GoString) (h : (TrimSpace s).length = s.length) :
    TrimSpace s = s := by
  have h1 := trimLeftSpaceAux_suffix s.length s
  have h2 := trimRightSpaceAux_prefix (trimLeftSpaceAux s.length s).length
    (trimLeftSpaceAux s.length s)
  have hl1 := h1.length_le
  have hl2 := h2.length_le
  simp only [TrimSpace] at h ⊢
  have e1 : trimLeftSpaceAux s.length s = s := h1.eq_of_length (by omega)
  have e2 := h2.eq_of_length (by omega)
  rw [e2, e1]

/-- An issuer whose 11-byte RUC `ValidarRUC` rejects is rejected by
`convertSupplierParty`. -/
theorem convertSupplierParty_error (emisor : Emisor) (hlen : emisor.RUC.length = 11)
    (h : ValidarRUC emisor.RUC ≠ none) : ∃ err, convertSupplierParty emisor = .error err := by
  unfold convertSupplierParty
  simp only
  by_cases hl : (TrimSpace emisor.RUC).length ≠ 11
  · exact ⟨_, if_pos hl⟩
  · rw [if_neg hl]
    have heq : TrimSpace emisor.RUC = emisor.RUC :=
      TrimSpace_eq_of_length _ (by rw [hlen]; exact not_not.mp hl)
    rw [heq]
    by_cases hr : ((rangeRunes emisor.RUC).any fun c => decide (c < 48) || decide (c > 57)) = true
    · exact ⟨_, if_pos hr⟩
    · rw [if_neg hr]
      cases hv : ValidarRUC emisor.RUC with
      | none => exact absurd hv h
      | some err => exact ⟨_, rfl⟩

/-- C12: `ConvertToUBL` returns an error, and so no document, for every comprobante
whose issuer RUC is rejected by `ValidarRUC`, or whose recipient document number is
empty, or whose currency code is empty, or that has no items; for an empty issuer RUC
the error is "RUC emisor es obligatorio y debe tener 11 dígitos". -/
theorem C12_ConvertToUBL_rejects (FormatUBLDate : Int → GoString)
    (ToLower : GoString → GoString) (c : Comprobante)
    (h : ValidarRUC c.Emisor.RUC ≠ none ∨ c.Receptor.NumeroDocumento = [] ∨
      c.TipoMoneda = [] ∨ c.Items = []) :
    (∃ err, ConvertToUBL FormatUBLDate ToLower c = .error err) ∧
    (c.Emisor.RUC = [] →
      ConvertToUBL FormatUBLDate ToLower c =
        .error ("RUC emisor es obligatorio" ++ " y debe tener 11 dígitos")) := by
  constructor
  · unfold ConvertToUBL
    by_cases h1 : c.Emisor.RUC = [] ∨ c.Emisor.RUC.length ≠ 11
    · exact ⟨_, if_pos h1⟩
    rw [if_neg h1]
    by_cases h2 : c.Receptor.NumeroDocumento = []
    · exact ⟨_, if_pos h2⟩
    rw [if_neg h2]
    by_cases h3 : c.TipoMoneda = []
    · exact ⟨_, if_pos h3⟩
    rw [if_neg h3]
    by_cases h4 : c.Items.length = 0
    · exact ⟨_, if_pos h4⟩
    rw [if_neg h4]
    have hruc : ValidarRUC c.Emisor.RUC ≠ none := by
      rcases h with h | h | h | h
      · exact h
      · exact absurd h h2
      · exact absurd h h3
      · exact absurd (by rw [h]; rfl) h4
    have hlen : c.Emisor.RUC.length = 11 := by
      by_contra hne; exact h1 (Or.inr hne)
    obtain ⟨err, herr⟩ := convertSupplierParty_error c.Emisor hlen hruc
    split_ifs
    · exact ⟨_, by simp only [convertToUBLInvoice, herr]; rfl⟩
    · exact ⟨_, by simp only [convertToUBLInvoice, herr]; rfl⟩
    · exact ⟨_, by simp only [convertToUBLCreditNote, herr]; rfl⟩
    · exact ⟨_, by simp only [convertToUBLRealDebitNote, herr]; rfl⟩
    · exact ⟨_, rfl⟩
  · intro h0
    unfold ConvertToUBL
    rw [if_pos (Or.inl h0)]
    rfl

/-- C12 at the example invoice with an issuer RUC of unknown prefix. -/
theorem C12_ConvertToUBL_rejects_witness :
    ValidarRUC comprobanteRUCMalo.Emisor.RUC ≠ none ∧
    ∃ err, ConvertToUBL formatoFechaDemo toLowerASCII comprobanteRUCMalo = .error err :=
  ⟨by decide,
   (C12_ConvertToUBL_rejects formatoFechaDemo toLowerASCII comprobanteRUCMalo
     (Or.inl (by decide))).1⟩

/-- C13: whenever `ConvertToUBL` succeeds, the result is an invoice with type code
"01" when `Tipo` is `TipoFactura`, an invoice with type code "03" when `Tipo` is
`TipoBoleta`, a credit note with type code "07" when `Tipo` is `TipoNotaCredito` and a
debit note with type code "08" when `Tipo` is `TipoNotaDebito`; for every other `Tipo`
`ConvertToUBL` returns an error. -/
theorem C13_ConvertToUBL_shape (FormatUBLDate : Int → GoString)
    (ToLower : GoString → GoString) (c : Comprobante) :
    (∀ doc, ConvertToUBL FormatUBLDate ToLower c = .ok doc →
      (c.Tipo = TipoFactura →
        ∃ inv, doc = .invoice inv ∧ inv.InvoiceTypeCode = bytesOf "01") ∧
      (c.Tipo = TipoBoleta →
        ∃ inv, doc = .invoice inv ∧ inv.InvoiceTypeCode = bytesOf "03") ∧
      (c.Tipo = TipoNotaCredito →
        ∃ nc, doc = .creditNote nc ∧ nc.CreditNoteTypeCode = bytesOf "07") ∧
      (c.Tipo = TipoNotaDebito →
        ∃ nd, doc = .debitNote nd ∧ nd.DebitNoteTypeCode = bytesOf "08")) ∧
    (c.Tipo ≠ TipoFactura → c.Tipo ≠ TipoBoleta → c.Tipo ≠ TipoNotaCredito →
      c.Tipo ≠ TipoNotaDebito → ∃ err, ConvertToUBL FormatUBLDate ToLower c = .error err) := by
  have hinv : ∀ inv, convertToUBLInvoice FormatUBLDate ToLower c = .ok inv →
      inv.InvoiceTypeCode = getInvoiceTypeCode c.Tipo := by
    intro inv h
    simp only [convertToUBLInvoice] at h
    split at h
    · exact absurd h (by simp)
    · split at h
      · exact absurd h (by simp)
      · split at h
        · exact absurd h (by simp)
        · split at h
          · exact absurd h (by simp)
          · split at h
            · exact absurd h (by simp)
            · have := (Except.ok.inj h).symm
              subst this
              cases c.FechaVencimiento <;> cases c.FormaPago <;>
                by_cases ho : c.Observaciones ≠ [] <;> simp [ho]
  have hnc : ∀ nc, convertToUBLCreditNote FormatUBLDate c = .ok nc →
      nc.CreditNoteTypeCode = bytesOf "07" := by
    intro nc h
    simp only [convertToUBLCreditNote] at h
    split at h
    · exact absurd h (by simp)
    · split at h
      · exact absurd h (by simp)
      · split at h
        · exact absurd h (by simp)
        · split at h
          · exact absurd h (by simp)
          · split at h
            · exact absurd h (by simp)
            · have := (Except.ok.inj h).symm
              subst this
              rfl
  have hnd : ∀ nd, convertToUBLRealDebitNote FormatUBLDate c = .ok nd →
      nd.DebitNoteTypeCode = bytesOf "08" := by
    intro nd h
    simp only [convertToUBLRealDebitNote] at h
    split at h
    · exact absurd h (by simp)
    · split at h
      · exact absurd h (by simp)
      · split at h
        · exact absurd h (by simp)
        · split at h
          · exact absurd h (by simp)
          · split at h
            · exact absurd h (by simp)
            · have := (Except.ok.inj h).symm
              subst this
              rfl
  have hmap : ∀ {α : Type} (f : α → UBLDocument) (r : Except GoError α) (doc : UBLDocument),
      r.map f = .ok doc → ∃ a, r = .ok a ∧ doc = f a := by
    intro α f r doc h
    cases r with
    | error e => exact absurd h (by simp [Except.map])
    | ok a => exact ⟨a, rfl, (Except.ok.inj h).symm⟩
  constructor
  · intro doc h
    unfold ConvertToUBL at h
    split_ifs at h with h1 h2 h3 h4 t1 t2 t3 t4
    · obtain ⟨inv, hi, rfl⟩ := hmap _ _ _ h
      have hc := hinv inv hi
      rw [t1] at hc
      refine ⟨fun _ => ⟨inv, rfl, hc⟩, fun hb => ?_, fun hb => ?_, fun hb => ?_⟩ <;>
        exact absurd (t1.symm.trans hb) (by decide)
    · obtain ⟨inv, hi, rfl⟩ := hmap _ _ _ h
      have hc := hinv inv hi
      rw [t2] at hc
      refine ⟨fun hb => ?_, fun _ => ⟨inv, rfl, hc⟩, fun hb => ?_, fun hb => ?_⟩ <;>
        exact absurd (t2.symm.trans hb) (by decide)
    · obtain ⟨nc, hi, rfl⟩ := hmap _ _ _ h
      refine ⟨fun hb => ?_, fun hb => ?_, fun _ => ⟨nc, rfl, hnc nc hi⟩, fun hb => ?_⟩ <;>
        exact absurd (t3.symm.trans hb) (by decide)
    · obtain ⟨nd, hi, rfl⟩ := hmap _ _ _ h
      refine ⟨fun hb => ?_, fun hb => ?_, fun hb => ?_, fun _ => ⟨nd, rfl, hnd nd hi⟩⟩ <;>
        exact absurd (t4.symm.trans hb) (by decide)
  · intro t1 t2 t3 t4
    unfold ConvertToUBL
    simp only [t1, t2, t3, t4, if_false]
    split_ifs <;> exact ⟨_, rfl⟩

/-- C13 at the example invoice: the conversion succeeds and gives an invoice with type
code "01". -/
theorem C13_ConvertToUBL_shape_witness :
    ∃ doc, ConvertToUBL formatoFechaDemo toLowerASCII comprobanteDemo = .ok doc ∧
      ∃ inv, doc = .invoice inv ∧ inv.InvoiceTypeCode = bytesOf "01" :=
  match h : ConvertToUBL formatoFechaDemo toLowerASCII comprobanteDemo,
    (by decide : esOk (ConvertToUBL formatoFechaDemo toLowerASCII comprobanteDemo) = true) with
  | .ok doc, _ =>
    ⟨doc, rfl,
     ((C13_ConvertToUBL_shape formatoFechaDemo toLowerASCII comprobanteDemo).1 doc h).1 rfl⟩
  | .error _, hok => absurd hok (by simp [esOk])

/-- C20: the typed creation handlers do not use the catalogue code: for the example
invoice `CreateFactura` builds the identifier "20123456789-1-F001-00000001" and
`CreateNotaCredito` and `CreateNotaDebito` build identifiers with "3" and "4", while
the expression of the other entry points gives "20123456789-01-F001-00000001". -/
theorem C20_typed_handlers_documentID :
    documentID comprobanteDemo = bytesOf "20123456789-01-F001-00000001" ∧
    CreateFactura_documentID comprobanteDemo = bytesOf "20123456789-1-F001-00000001" ∧
    CreateNotaCredito_documentID comprobanteDemo = bytesOf "20123456789-3-F001-00000001" ∧
    CreateNotaDebito_documentID comprobanteDemo = bytesOf "20123456789-4-F001-00000001" := by
  decide

/-- Evaluation for C30.  On the items of scripts/test_venta_exonerada.go (10 × 25 and
5 × 15, `tipo_afectacion` 20) `CalculateTotals` gives `TotalVentaExonerada = 0`,
`TotalValorVenta = 0` and `ImporteTotal = 0`, not 325: the value 20 is none of the
constants of the affectation switch (`Exonerado` is 12). -/
theorem C30_CalculateTotals_catalogue_code_20 :
    Exonerado = 12 ∧
    TipoAfectacionIGV.String Exonerado = bytesOf "20" ∧
    (CalculateTotals docExonerado20).1.Totales.TotalVentaExonerada = 0 ∧
    (CalculateTotals docExonerado20).1.Totales.TotalValorVenta = 0 ∧
    (CalculateTotals docExonerado20).1.Totales.ImporteTotal = 0 := by
  refine ⟨rfl, by decide, ?_, ?_, ?_⟩
  · rw [CalculateTotals_totales]
    norm_num [ventaDe, docExonerado20, Exonerado]
  · rw [CalculateTotals_totales]
    norm_num [ventaDe, docExonerado20, GravadoOneroso, Exonerado, Inafecto]
  · rw [CalculateTotals_totales]
    norm_num [ventaDe, impuestosDe, docExonerado20, GravadoOneroso, Exonerado, Inafecto,
      mathRound]

/-- Evaluation for C28.  For an exonerated item with one per-item tax entry the invoice
line and the debit note line carry the alternative-price block and the per-line tax
block, while the credit note line carries neither; `convertCreditNoteLines` never
writes them, whatever the items are. -/
theorem C28_credit_note_lines_without_blocks :
    (convertInvoiceLines [itemExonerado] (bytesOf "PEN")).map
        (fun ls => ls.map (fun (l : InvoiceLine) =>
          (l.PricingReference.isSome, l.TaxTotal.length)))
      = .ok [(true, 1)] ∧
    (convertDebitNoteLines [itemExonerado] (bytesOf "PEN")).map
        (fun ls => ls.map (fun (l : DebitNoteLine) =>
          (l.PricingReference.isSome, l.TaxTotal.length)))
      = .ok [(true, 1)] ∧
    (convertCreditNoteLines [itemExonerado] (bytesOf "PEN")).map
        (fun ls => ls.map (fun (l : CreditNoteLine) =>
          (l.PricingReference.isSome, l.TaxTotal.length)))
      = .ok [(false, 0)] ∧
    ∀ (items : List Item) (moneda : GoString) (ls : List CreditNoteLine),
      convertCreditNoteLines items moneda = .ok ls →
        ∀ l ∈ ls, l.PricingReference = none ∧ l.TaxTotal = [] := by
  refine ⟨by decide, by decide, by decide, ?_⟩
  intro items moneda ls h l hl
  simp only [convertCreditNoteLines, Except.ok.injEq] at h
  subst h
  simp only [List.mem_map] at hl
  obtain ⟨item, -, rfl⟩ := hl
  exact ⟨rfl, rfl⟩

/-- Evaluation for C23.  Outside simulation mode, when the client gets an HTTP 500
answer with body "Error interno del servidor", `SendDocument` returns no error: it
returns an outcome value with `Success = false`, `StatusCode = 500` and the body as
`Message`.  `processResponse` does so for every status other than 200. -/
theorem C23_SendDocument_http_500_is_outcome :
    isSimulationMode svcError500.config = false ∧
    SendDocument svcError500 [] pkgDemo =
      ([CreateSendBillRequest pkgDemo.FileName pkgDemo.Base64Content],
       .ok { Success := false, StatusCode := 500
             Message := bytesOf "Error interno del servidor", Timestamp := 0 }) ∧
    ∀ (unmarshal : GoString → Except GoError SOAPResponse) (now code : Int)
      (body : GoString), code ≠ 200 →
      processResponse unmarshal now { StatusCode := code, Body := body } =
        .ok { Success := false, StatusCode := code, Message := body, Timestamp := now } := by
  refine ⟨by decide, by decide, ?_⟩
  intro unmarshal now code body h
  simp [processResponse, ioReadAll, h]

/-- Evaluation for C22.  A parser that is handed the unread acceptance response reads
the `sendBillResponse` with the payload, which decodes to "CDR-ACEPTADO"; but
`processResponse` has already read the body when it calls `ParseSOAPResponse`, the
parser gets an empty input, and the result is an error instead of the successful
outcome.  This is so for every HTTP 200 response whenever `xml.Unmarshal` fails on an
empty input. -/
theorem C22_processResponse_accepted_body_lost :
    ParseSOAPResponse unmarshalSOAPDemo aceptacionResponse = .ok aceptacionSOAP ∧
    DecodeFromBase64 (base64Encode (bytesOf "CDR-ACEPTADO")) = .ok (bytesOf "CDR-ACEPTADO") ∧
    processResponse unmarshalSOAPDemo 0 aceptacionResponse =
      .error "error parseando respuesta SOAP: error parseando respuesta SOAP: EOF" ∧
    ∀ (unmarshal : GoString → Except GoError SOAPResponse) (now : Int) (body : GoString)
      (e : GoError), unmarshal [] = .error e →
      processResponse unmarshal now { StatusCode := 200, Body := body } =
        .error ("error parseando respuesta SOAP: " ++ ("error parseando respuesta SOAP: " ++ e)) := by
  refine ⟨by decide!, by decide!, by decide!, ?_⟩
  intro unmarshal now body e h
  simp [processResponse, ParseSOAPResponse, ioReadAll, h]

/-- Evaluation for C26.  For `<a/> <!-- c -->` the output of `GenerateCanonicalXML`
is `<a/> `, with a trailing blank, and for `<!-- c --> <a/>` it is ` <a/>`, with a
leading blank (the comments are removed after the trimming); for an input with a
blank before the declaration the output is the input without that blank and begins
with the declaration. -/
theorem C26_GenerateCanonicalXML_untrimmed :
    GenerateCanonicalXML (bytesOf "<a/> <!-- c -->") = .ok (bytesOf "<a/> ") ∧
    GenerateCanonicalXML (bytesOf "<!-- c --> <a/>") = .ok (bytesOf " <a/>") ∧
    GenerateCanonicalXML (bytesOf " <?xml version=\"1.0\"?><a/>")
      = .ok (bytesOf "<?xml version=\"1.0\"?><a/>") := by
  decide

/-- Evaluation for C25.  For the serialized document `docFirma` with the empty
placeholder and the example signature block, the canonical form of
`removeSignature (AddDigitalSignature doc sig)` keeps the white space that
`AddDigitalSignature` wrote around the signature inside the placeholder, and differs
from the canonical form of the document. -/
theorem C25_removeSignature_not_inverse :
    GenerateCanonicalXML docFirma =
      .ok (bytesOf ("<Invoice xmlns=\"urn:x\"><ext:UBLExtensions>\t\t<ext:UBLExtension>" ++
        "\t\t\t<ext:ExtensionContent></ext:ExtensionContent>" ++
        "\t\t</ext:UBLExtension></ext:UBLExtensions><cbc:ID>F1</cbc:ID></Invoice>")) ∧
    (AddDigitalSignature marshalIndentDemo docFirma firmaDemo >>= removeSignature
        >>= GenerateCanonicalXML) =
      .ok (bytesOf ("<Invoice xmlns=\"urn:x\"><ext:UBLExtensions>\t\t<ext:UBLExtension>" ++
        "\t\t\t<ext:ExtensionContent>\t\t\t\t\n\t\t\t</ext:ExtensionContent>" ++
        "\t\t</ext:UBLExtension></ext:UBLExtensions><cbc:ID>F1</cbc:ID></Invoice>")) := by
  decide!

/-! ### Lemmas on `sendSOAPRequest` -/

/-- The loop under the scripted library when attempt `j` is the first to get a
response: the attempts before it fail and are each followed by their wait. -/
theorem retryLoop_ok (cfg : SUNATConfig) (resultados : Nat → Except GoError HTTPResponse)
    (req : HTTPRequest) (j : Nat) (r : HTTPResponse) (hj : (j : Int) ≤ cfg.MaxRetries)
    (hr : resultados j = .ok r) (d : Nat) :
    ∀ (fuel i : Nat) (st : RetryState Mundo), st.world.intentos = i → i + d = j →
      (∀ t, i ≤ t → t < j → ∃ e, resultados t = .error e) → d < fuel →
      retryLoop (clienteGuion cfg resultados) req fuel (i : Int) st =
        { world := { intentos := j + 1
                     eventos := st.world.eventos ++ trazaFallos i d ++ [Evento.intento] }
          resp := some r, err := none } := by
  induction d with
  | zero =>
    intro fuel i st hi hij _ hf
    obtain ⟨f, rfl⟩ : ∃ f, fuel = f + 1 := ⟨fuel - 1, by omega⟩
    have hij' : i = j := by omega
    subst hij'
    simp only [retryLoop, hj, if_true, clienteGuion, libGuion, hi, hr, trazaFallos,
      List.append_nil]
  | succ d ih =>
    intro fuel i st hi hij hfail hf
    obtain ⟨f, rfl⟩ : ∃ f, fuel = f + 1 := ⟨fuel - 1, by omega⟩
    obtain ⟨e, he⟩ := hfail i (le_refl i) (by omega)
    have hle : (i : Int) ≤ cfg.MaxRetries := by omega
    have hlt : (i : Int) < cfg.MaxRetries := by omega
    have hrec := ih f (i + 1)
      { world := { intentos := i + 1
                   eventos := st.world.eventos ++ [Evento.intento]
                     ++ [Evento.espera ((i : Int) + 1)] }
        resp := none, err := some e }
      rfl (by omega) (fun t ht1 ht2 => hfail t (by omega) ht2) (by omega)
    simp only [retryLoop, hle, if_true, clienteGuion, libGuion, hi, he, hlt]
    simp only [clienteGuion, libGuion, Nat.cast_add, Nat.cast_one] at hrec
    rw [hrec]
    simp [trazaFallos]

/-- The loop under the scripted library when every attempt fails. -/
theorem retryLoop_fail (cfg : SUNATConfig) (resultados : Nat → Except GoError HTTPResponse)
    (req : HTTPRequest) (M : Nat) (hM : cfg.MaxRetries = (M : Int)) (d : Nat) :
    ∀ (fuel i : Nat) (st : RetryState Mundo), st.world.intentos = i → i + d = M →
      (∀ t, i ≤ t → t ≤ M → ∃ e, resultados t = .error e) → d < fuel →
      ∃ e, resultados M = .error e ∧
        retryLoop (clienteGuion cfg resultados) req fuel (i : Int) st =
          { world := { intentos := M + 1
                       eventos := st.world.eventos ++ trazaFallos i d ++ [Evento.intento] }
            resp := none, err := some e } := by
  induction d with
  | zero =>
    intro fuel i st hi hij hfail hf
    obtain ⟨f, rfl⟩ : ∃ f, fuel = f + 1 := ⟨fuel - 1, by omega⟩
    have hij' : i = M := by omega
    subst hij'
    obtain ⟨e, he⟩ := hfail i (le_refl i) (le_refl i)
    refine ⟨e, he, ?_⟩
    have hnot : ¬ ((i : Int) + 1 ≤ cfg.MaxRetries) := by omega
    simp only [retryLoop, hM, le_refl, if_true, clienteGuion, libGuion, hi, he, lt_irrefl,
      if_false, trazaFallos, List.append_nil]
    cases f with
    | zero => simp only [retryLoop]
    | succ f =>
      simp only [retryLoop, hnot, if_false]
  | succ d ih =>
    intro fuel i st hi hij hfail hf
    obtain ⟨f, rfl⟩ : ∃ f, fuel = f + 1 := ⟨fuel - 1, by omega⟩
    obtain ⟨e, he⟩ := hfail i (le_refl i) (by omega)
    have hle : (i : Int) ≤ cfg.MaxRetries := by omega
    have hlt : (i : Int) < cfg.MaxRetries := by omega
    obtain ⟨e', he', hrec⟩ := ih f (i + 1)
      { world := { intentos := i + 1
                   eventos := st.world.eventos ++ [Evento.intento]
                     ++ [Evento.espera ((i : Int) + 1)] }
        resp := none, err := some e }
      rfl (by omega) (fun t ht1 ht2 => hfail t (by omega) ht2) (by omega)
    refine ⟨e', he', ?_⟩
    simp only [retryLoop, hle, if_true, clienteGuion, libGuion, hi, he, hlt]
    simp only [clienteGuion, libGuion, Nat.cast_add, Nat.cast_one] at hrec
    rw [hrec]
    simp [trazaFallos]

/-- C21: let `MaxRetries ≥ 0` and let the `k`-th call of `httpClient.Do` have the
transport result `resultados k`.  If attempt `j ≤ MaxRetries` (counted from 0) is the
first to obtain a response, of whatever status, `sendSOAPRequest` returns that response
after `j + 1` attempts; if all of the `MaxRetries + 1` attempts fail it returns an
error after `MaxRetries + 1` attempts.  In both cases the `k`-th failed attempt
(counted from 1) is followed by a wait of `k` seconds exactly when another attempt
follows, and nothing happens after the last attempt. -/
theorem C21_sendSOAPRequest_retries (cfg : SUNATConfig)
    (resultados : Nat → Except GoError HTTPResponse) (envelope : SOAPEnvelope)
    (action : GoString) (hM : 0 ≤ cfg.MaxRetries) :
    (∀ (j : Nat) (r : HTTPResponse), (j : Int) ≤ cfg.MaxRetries →
      (∀ t, t < j → ∃ e, resultados t = .error e) → resultados j = .ok r →
      sendSOAPRequest (clienteGuion cfg resultados) {} envelope action =
        ({ intentos := j + 1, eventos := trazaFallos 0 j ++ [Evento.intento] }, .ok r)) ∧
    ((∀ t : Nat, (t : Int) ≤ cfg.MaxRetries → ∃ e, resultados t = .error e) →
      ∃ e, resultados cfg.MaxRetries.toNat = .error e ∧
        sendSOAPRequest (clienteGuion cfg resultados) {} envelope action =
          ({ intentos := cfg.MaxRetries.toNat + 1
             eventos := trazaFallos 0 cfg.MaxRetries.toNat ++ [Evento.intento] },
           .error ("error enviando request a SUNAT después de "
             ++ toString (cfg.MaxRetries + 1) ++ " intentos: " ++ e))) := by
  obtain ⟨M, hMeq⟩ : ∃ M : Nat, cfg.MaxRetries = (M : Int) := ⟨cfg.MaxRetries.toNat, by omega⟩
  have hfuel : (cfg.MaxRetries + 1).toNat = M + 1 := by omega
  constructor
  · intro j r hj hfail hr
    have h := retryLoop_ok cfg resultados
      { Method := bytesOf "POST"
        URL := (clienteGuion cfg resultados).baseURL
        Body := bytesOf "<?xml version=\"1.0\" encoding=\"UTF-8\"?>"
          ++ bytesOf "<soap:Envelope></soap:Envelope>"
        Header := mapSet (bytesOf "User-Agent") (bytesOf "FacturacionElectronica/1.0")
          (mapSet (bytesOf "SOAPAction") (bytesOf "urn:" ++ action)
            (mapSet (bytesOf "Content-Type") (bytesOf "text/xml; charset=utf-8") [])) }
      j r hj hr j (M + 1) 0 { world := {}, resp := none, err := none } rfl (by omega)
      (fun t _ ht => hfail t ht) (by omega)
    simp only [Nat.cast_zero, List.nil_append] at h
    simp only [sendSOAPRequest]
    rw [show (clienteGuion cfg resultados).httpClient.marshalIndent envelope
      = .ok (bytesOf "<soap:Envelope></soap:Envelope>") from rfl]
    simp only
    rw [show (clienteGuion cfg resultados).httpClient.NewRequest (bytesOf "POST")
        (clienteGuion cfg resultados).baseURL
        (bytesOf "<?xml version=\"1.0\" encoding=\"UTF-8\"?>"
          ++ bytesOf "<soap:Envelope></soap:Envelope>")
      = .ok { Method := bytesOf "POST", URL := (clienteGuion cfg resultados).baseURL
              Body := bytesOf "<?xml version=\"1.0\" encoding=\"UTF-8\"?>"
                ++ bytesOf "<soap:Envelope></soap:Envelope>" } from rfl]
    simp only
    rw [show (clienteGuion cfg resultados).config = cfg from rfl, hfuel]
    rw [h]
  · intro hfail
    obtain ⟨e, he, h⟩ := retryLoop_fail cfg resultados
      { Method := bytesOf "POST"
        URL := (clienteGuion cfg resultados).baseURL
        Body := bytesOf "<?xml version=\"1.0\" encoding=\"UTF-8\"?>"
          ++ bytesOf "<soap:Envelope></soap:Envelope>"
        Header := mapSet (bytesOf "User-Agent") (bytesOf "FacturacionElectronica/1.0")
          (mapSet (bytesOf "SOAPAction") (bytesOf "urn:" ++ action)
            (mapSet (bytesOf "Content-Type") (bytesOf "text/xml; charset=utf-8") [])) }
      M hMeq M (M + 1) 0 { world := {}, resp := none, err := none } rfl (by omega)
      (fun t _ ht => hfail t (by omega)) (by omega)
    have hMnat : cfg.MaxRetries.toNat = M := by omega
    rw [hMnat]
    refine ⟨e, he, ?_⟩
    simp only [Nat.cast_zero, List.nil_append] at h
    simp only [sendSOAPRequest]
    rw [show (clienteGuion cfg resultados).httpClient.marshalIndent envelope
      = .ok (bytesOf "<soap:Envelope></soap:Envelope>") from rfl]
    simp only
    rw [show (clienteGuion cfg resultados).httpClient.NewRequest (bytesOf "POST")
        (clienteGuion cfg resultados).baseURL
        (bytesOf "<?xml version=\"1.0\" encoding=\"UTF-8\"?>"
          ++ bytesOf "<soap:Envelope></soap:Envelope>")
      = .ok { Method := bytesOf "POST", URL := (clienteGuion cfg resultados).baseURL
              Body := bytesOf "<?xml version=\"1.0\" encoding=\"UTF-8\"?>"
                ++ bytesOf "<soap:Envelope></soap:Envelope>" } from rfl]
    simp only
    rw [show (clienteGuion cfg resultados).config = cfg from rfl, hfuel]
    rw [h]

/-- C21 with `MaxRetries = 3` and two transport failures followed by an HTTP 503
response: three attempts, waits of 1 and 2 seconds, and the 503 response is returned. -/
theorem C21_sendSOAPRequest_retries_witness :
    (0 : Int) ≤ ({ MaxRetries := 3 } : SUNATConfig).MaxRetries ∧
    sendSOAPRequest (clienteGuion { MaxRetries := 3 } resultadosDemo) {} {} (bytesOf "sendBill") =
      ({ intentos := 3
         eventos := [Evento.intento, Evento.espera 1, Evento.intento, Evento.espera 2,
                     Evento.intento] },
       .ok { StatusCode := 503, Body := bytesOf "Service Unavailable" }) :=
  ⟨by decide,
   (C21_sendSOAPRequest_retries { MaxRetries := 3 } resultadosDemo {} (bytesOf "sendBill")
     (by decide)).1 2 { StatusCode := 503, Body := bytesOf "Service Unavailable" } (by decide)
     (fun t ht => ⟨"dial tcp: connection refused", by simp [resultadosDemo, ht]⟩) rfl⟩

/-- Evaluation for C24.  For a pending document on which conversion, serialization,
signing and the repository calls succeed, `processComprobanteForBatch` returns `nil`
after `UpdateXML` and `UpdateSignedXML`: the document is never sent (no `SendDocument`,
no `UpdateSUNATInfo`, no `UpdateStatus`), because the test
`comprobante.EstadoProceso == models.EstadoFirmado` reads the state the document was
loaded with.  The same handler sends a document that was loaded in the state
`EstadoFirmado` and sets it to `EstadoEnviado`. -/
theorem C24_pending_document_never_sent :
    processComprobanteForBatch (handlerDemo EstadoPendiente) (bytesOf "c1")
        (bytesOf "cert.p12") [] [] =
      (.ok (), [Accion.updateXML (bytesOf "c1"), Accion.updateSignedXML (bytesOf "c1")]) ∧
    processComprobanteForBatch (handlerDemo EstadoFirmado) (bytesOf "c1")
        (bytesOf "cert.p12") [] [] =
      (.ok (), [Accion.sendDocument (bytesOf "20123456789-01-F001-00000001.zip"),
                Accion.updateSUNATInfo (bytesOf "c1") (bytesOf "T-1") (bytesOf "ENVIADO"),
                Accion.updateStatus (bytesOf "c1") EstadoEnviado]) ∧
    ∀ (σ : Type) (h : ComprobanteHandler σ) (id certPath certPass : GoString)
      (w w1 w2 w3 : σ) (c : Comprobante) (doc : UBLDocument) (xml signed : GoString),
      h.repository.GetByID id w = (.ok c, w1) → c.EstadoProceso = EstadoPendiente →
      ConvertToUBL h.FormatUBLDate h.ToLower c = .ok doc →
      h.SerializeToXML doc = .ok xml →
      h.repository.UpdateXML id xml w1 = (none, w2) →
      SignDocument h.signLib xml certPath certPass = .ok signed →
      h.repository.UpdateSignedXML id signed w2 = (none, w3) →
      processComprobanteForBatch h id certPath certPass w = (.ok (), w3) := by
  refine ⟨by decide!, by decide!, ?_⟩
  intro σ h id certPath certPass w w1 w2 w3 c doc xml signed hget hp hconv hser hux hsign hus
  have hlt : (EstadoPendiente : Int) < EstadoFirmado := by decide
  have hne : ¬ ((EstadoPendiente : Int) = EstadoFirmado) := by decide
  simp only [processComprobanteForBatch, hget, batchConvertir, hp, if_true, hconv, hser, hux,
    batchFirmar, hlt, hsign, hus, batchEnviar, hne, if_false]

/-! ### Lemmas on `strings.Index` -/

theorem indexOf?_none (sep s : GoString) (h : indexOf? s sep = none) (i : Nat) :
    ¬ sep <+: s.drop i := by
  induction s generalizing i with
  | nil =>
    simp only [indexOf?] at h
    split_ifs at h with he
    simp only [List.drop_nil, List.prefix_nil]
    intro h0
    exact he (by simp [h0])
  | cons c cs ih =>
    simp only [indexOf?] at h
    split_ifs at h with hp
    simp only [Option.map_eq_none'] at h
    cases i with
    | zero =>
      simp only [List.drop_zero]
      intro h0
      exact hp (List.isPrefixOf_iff_prefix.2 h0)
    | succ i =>
      simp only [List.drop_succ_cons]
      exact ih h i

theorem indexOf?_some (sep s : GoString) (k : Nat) (h : indexOf? s sep = some k) :
    sep <+: s.drop k ∧ ∀ i, i < k → ¬ sep <+: s.drop i := by
  induction s generalizing k with
  | nil =>
    simp only [indexOf?] at h
    split_ifs at h with he
    simp only [Option.some.injEq] at h
    subst h
    exact ⟨by simp [List.isEmpty_iff.1 he], fun i hi => absurd hi (Nat.not_lt_zero i)⟩
  | cons c cs ih =>
    simp only [indexOf?] at h
    split_ifs at h with hp
    · simp only [Option.some.injEq] at h
      subst h
      exact ⟨List.isPrefixOf_iff_prefix.1 hp, fun i hi => absurd hi (Nat.not_lt_zero i)⟩
    · simp only [Option.map_eq_some'] at h
      obtain ⟨k', hk', rfl⟩ := h
      obtain ⟨h1, h2⟩ := ih k' hk'
      refine ⟨by simpa using h1, fun i hi => ?_⟩
      cases i with
      | zero =>
        simp only [List.drop_zero]
        intro h0
        exact hp (List.isPrefixOf_iff_prefix.2 h0)
      | succ i =>
        simp only [List.drop_succ_cons]
        exact h2 i (by omega)

theorem Index_eq_neg_one (s sep : GoString) : Index s sep = -1 ↔ indexOf? s sep = none := by
  unfold Index
  cases indexOf? s sep with
  | none => simp
  | some k => simp

theorem Index_of_some (s sep : GoString) (k : Nat) (h : indexOf? s sep = some k) :
    Index s sep = (k : Int) := by
  unfold Index; rw [h]

theorem Index_cases (s sep : GoString) :
    (Index s sep = -1 ∧ indexOf? s sep = none) ∨
    ∃ k : Nat, Index s sep = (k : Int) ∧ indexOf? s sep = some k := by
  cases h : indexOf? s sep with
  | none => exact Or.inl ⟨(Index_eq_neg_one s sep).2 h, rfl⟩
  | some k => exact Or.inr ⟨k, Index_of_some s sep k h, rfl⟩

theorem prefix_drop_length (sep s : GoString) (k : Nat) (h : sep <+: s.drop k)
    (hne : sep ≠ []) : k + sep.length ≤ s.length := by
  have h1 := h.length_le
  simp only [List.length_drop] at h1
  have h2 : 0 < sep.length := List.length_pos.2 hne
  omega

/-! ### Lemmas on the comment loop of `GenerateCanonicalXML` -/

theorem comentario_nil : ¬ ComentarioCompleto [] := by
  rintro ⟨i, j, -, h, -⟩
  simp only [List.drop_nil, List.prefix_nil] at h
  exact absurd h (by decide)

/-- Where the loop leaves through a `break` there is no complete comment. -/
theorem no_comentario_of_breaks (s : GoString) (h : stripCommentsBreaks s = true) :
    ¬ ComentarioCompleto s := by
  rintro ⟨i, j, hij, hP, hQ⟩
  unfold stripCommentsBreaks at h
  rcases Index_cases s (bytesOf "<!--") with ⟨-, hn⟩ | ⟨k, hk, hs⟩
  · exact indexOf?_none _ _ hn i hP
  · have hne : ¬ ((k : Int) = -1) := by omega
    rw [hk, if_neg hne] at h
    simp only [decide_eq_true_eq, Index_eq_neg_one, sliceFrom, Int.toNat_ofNat] at h
    have hki : k ≤ i := by
      by_contra hlt
      exact (indexOf?_some _ _ k hs).2 i (by omega) hP
    have := indexOf?_none _ _ h (j - k)
    rw [List.drop_drop, show k + (j - k) = j by omega] at this
    exact this hQ

/-- One iteration that does not `break` makes the string shorter. -/
theorem stripComments_shrinks (s : GoString) (k e : Nat)
    (hk : indexOf? s (bytesOf "<!--") = some k)
    (_he : indexOf? (s.drop k) (bytesOf "-->") = some e) :
    (s.take k ++ s.drop (k + e + 3)).length < s.length := by
  have h1 := prefix_drop_length _ _ _ (indexOf?_some _ _ k hk).1 (by decide)
  simp only [List.length_append, List.length_take, List.length_drop]
  have : (bytesOf "<!--").length = 4 := by decide
  omega

/-- The loop step, on positions. -/
theorem stripCommentsLoop_succ_eq (fuel : Nat) (s : GoString) :
    stripCommentsLoop (fuel + 1) s =
      match indexOf? s (bytesOf "<!--") with
      | none => s
      | some k =>
        match indexOf? (s.drop k) (bytesOf "-->") with
        | none => s
        | some e => stripCommentsLoop fuel (s.take k ++ s.drop (k + e + 3)) := by
  simp only [stripCommentsLoop]
  rcases Index_cases s (bytesOf "<!--") with ⟨h1, hn⟩ | ⟨k, hk, hs⟩
  · rw [hn, if_pos h1]
  · have hne : ¬ ((k : Int) = -1) := by omega
    rw [hs, hk, if_neg hne]
    simp only [sliceFrom, sliceTo, Int.toNat_ofNat]
    rcases Index_cases (s.drop k) (bytesOf "-->") with ⟨h2, hn2⟩ | ⟨e, he, hs2⟩
    · rw [hn2, if_pos h2]
    · have hne2 : ¬ ((e : Int) = -1) := by omega
      rw [hs2, he, if_neg hne2]
      have : ((k : Int) + (e : Int) + 3).toNat = k + e + 3 := by omega
      rw [this]

/-- With as many iterations as the string has bytes the loop ends through a `break`:
its result has no complete comment. -/
theorem stripCommentsLoop_breaks (fuel : Nat) :
    ∀ s : GoString, s.length ≤ fuel → stripCommentsBreaks (stripCommentsLoop fuel s) = true := by
  induction fuel with
  | zero =>
    intro s hs
    have : s = [] := List.length_eq_zero.1 (Nat.le_zero.1 hs)
    subst this
    decide
  | succ n ih =>
    intro s hs
    rw [stripCommentsLoop_succ_eq]
    cases hk : indexOf? s (bytesOf "<!--") with
    | none =>
      simp only [stripCommentsBreaks, (Index_eq_neg_one _ _).2 hk, if_true]
    | some k =>
      cases he : indexOf? (s.drop k) (bytesOf "-->") with
      | none =>
        have hne : ¬ ((k : Int) = -1) := by omega
        simp only [he, stripCommentsBreaks, Index_of_some _ _ _ hk, hne, if_false, sliceFrom,
          Int.toNat_ofNat, (Index_eq_neg_one _ _).2 he, decide_True]
      | some e =>
        have hlt := stripComments_shrinks s k e hk he
        simp only [he]
        exact ih _ (by omega)

/-- More iterations than the string has bytes change nothing. -/
theorem stripCommentsLoop_fuel (n : Nat) :
    ∀ (m : Nat) (s : GoString), s.length ≤ n → s.length ≤ m →
      stripCommentsLoop m s = stripCommentsLoop n s := by
  induction n with
  | zero =>
    intro m s hs _
    have : s = [] := List.length_eq_zero.1 (Nat.le_zero.1 hs)
    subst this
    cases m with
    | zero => rfl
    | succ m => rw [stripCommentsLoop_succ_eq]; rfl
  | succ n ih =>
    intro m s hs hm
    cases m with
    | zero =>
      have : s = [] := List.length_eq_zero.1 (Nat.le_zero.1 hm)
      subst this
      rw [stripCommentsLoop_succ_eq]; rfl
    | succ m =>
      rw [stripCommentsLoop_succ_eq, stripCommentsLoop_succ_eq]
      cases hk : indexOf? s (bytesOf "<!--") with
      | none => rfl
      | some k =>
        cases he : indexOf? (s.drop k) (bytesOf "-->") with
        | none => simp only [he]
        | some e =>
          have hlt := stripComments_shrinks s k e hk he
          simp only [he]
          exact ih m _ (by omega) (by omega)

/-! ### Lemmas on the white-space replacements of `GenerateCanonicalXML` -/

theorem comentario_abre : bytesOf "<!--" = [60, 33, 45, 45] := by decide

theorem comentario_cierra : bytesOf "-->" = [45, 45, 62] := by decide

/-- A complete comment, as a decomposition of the string. -/
theorem comentario_iff (s : GoString) :
    ComentarioCompleto s ↔
      ∃ u m x y, s = u ++ m ∧ ([60, 33, 45, 45] : GoString) <+: m ∧
        m = x ++ ([45, 45, 62] : GoString) ++ y := by
  unfold ComentarioCompleto
  rw [comentario_abre, comentario_cierra]
  constructor
  · rintro ⟨i, j, hij, hP, y, hy⟩
    refine ⟨s.take i, s.drop i, (s.drop i).take (j - i), y, (List.take_append_drop i s).symm,
      hP, ?_⟩
    have h1 : (s.drop i).drop (j - i) = s.drop j := by
      rw [List.drop_drop, show i + (j - i) = j by omega]
    rw [List.append_assoc, hy, ← h1, List.take_append_drop]
  · rintro ⟨u, m, x, y, rfl, hP, hm⟩
    refine ⟨u.length, u.length + x.length, Nat.le_add_right _ _, ?_, ?_⟩
    · rw [List.drop_left]; exact hP
    · rw [← List.drop_drop, List.drop_left, hm, List.append_assoc, List.drop_left]
      exact List.prefix_append _ _

/-- Deleting a byte right after a `>` or right before a `<` creates no complete
comment. -/
theorem comentario_paso (a b : GoString) (c : Byte) (h : JuntoAEtiqueta a b)
    (hc : ComentarioCompleto (a ++ b)) : ComentarioCompleto (a ++ c :: b) := by
  rw [comentario_iff] at hc ⊢
  obtain ⟨u, m, x, y, hs, ⟨m', hm'⟩, hm⟩ := hc
  rcases List.append_eq_append_iff.1 hs with ⟨a', hu, hb⟩ | ⟨c', ha, hmb⟩
  · -- the deleted byte lies before the comment
    refine ⟨a ++ c :: a', m, x, y, ?_, ⟨m', hm'⟩, hm⟩
    rw [hb]; simp
  · -- the deleted byte lies at or after the start of the comment
    have hcond : c' = [] ∨ ∃ c4, c' = 60 :: 33 :: 45 :: 45 :: c4 := by
      have heq : c' ++ b = 60 :: 33 :: 45 :: 45 :: m' := by rw [← hmb, ← hm']; rfl
      rcases c' with _ | ⟨c0, _ | ⟨c1, _ | ⟨c2, _ | ⟨c3, c4⟩⟩⟩⟩
      · exact Or.inl rfl
      · exfalso
        simp only [List.singleton_append, List.cons.injEq] at heq
        obtain ⟨rfl, rfl⟩ := heq
        rcases h with h | h
        · rw [ha] at h; simp at h
        · simp at h
      · exfalso
        simp only [List.cons_append, List.nil_append, List.cons.injEq] at heq
        obtain ⟨rfl, rfl, rfl⟩ := heq
        rcases h with h | h
        · rw [ha] at h; simp at h
        · simp at h
      · exfalso
        simp only [List.cons_append, List.nil_append, List.cons.injEq] at heq
        obtain ⟨rfl, rfl, rfl, rfl⟩ := heq
        rcases h with h | h
        · rw [ha] at h; simp at h
        · simp at h
      · simp only [List.cons_append, List.cons.injEq] at heq
        obtain ⟨rfl, rfl, rfl, rfl, -⟩ := heq
        exact Or.inr ⟨c4, rfl⟩
    rcases hcond with rfl | ⟨c4, rfl⟩
    · -- at the start of the comment: the comment follows the deleted byte
      refine ⟨u ++ [c], m, x, y, ?_, ⟨m', hm'⟩, hm⟩
      simp only [List.append_nil] at ha
      simp only [List.nil_append] at hmb
      rw [ha, hmb]; simp
    · -- inside the comment or after it
      have hQ : ∃ x2 y2, (60 :: 33 :: 45 :: 45 :: c4) ++ c :: b
          = x2 ++ ([45, 45, 62] : GoString) ++ y2 := by
        have heq : (60 :: 33 :: 45 :: 45 :: c4) ++ b = x ++ (([45, 45, 62] : GoString) ++ y) := by
          rw [← hmb, hm, List.append_assoc]
        rcases List.append_eq_append_iff.1 heq with ⟨z2, hx, hb2⟩ | ⟨z2, hc', hq⟩
        · exact ⟨(60 :: 33 :: 45 :: 45 :: c4) ++ c :: z2, y, by rw [hb2]; simp⟩
        · rcases z2 with _ | ⟨q0, _ | ⟨q1, _ | ⟨q2, z3⟩⟩⟩
          · simp only [List.append_nil] at hc'
            simp only [List.nil_append] at hq
            exact ⟨x ++ [c], y, by rw [hc', ← hq]; simp⟩
          · exfalso
            simp only [List.cons_append, List.nil_append, List.cons.injEq] at hq
            obtain ⟨rfl, hb3⟩ := hq
            rcases h with h | h
            · rw [ha, hc'] at h; simp at h
            · rw [← hb3] at h; simp at h
          · exfalso
            simp only [List.cons_append, List.nil_append, List.cons.injEq] at hq
            obtain ⟨rfl, rfl, hb3⟩ := hq
            rcases h with h | h
            · rw [ha, hc'] at h; simp at h
            · rw [← hb3] at h; simp at h
          · simp only [List.cons_append, List.nil_append, List.cons.injEq] at hq
            obtain ⟨rfl, rfl, rfl, hy⟩ := hq
            exact ⟨x, z3 ++ c :: b, by rw [hc']; simp⟩
      obtain ⟨x2, y2, hxy⟩ := hQ
      refine ⟨u, (60 :: 33 :: 45 :: 45 :: c4) ++ c :: b, x2, y2, ?_,
        ⟨c4 ++ c :: b, rfl⟩, hxy⟩
      rw [ha]; simp

/-- The bytes that `Borra` deletes create no complete comment. -/
theorem comentario_of_borra (s t : GoString) (h : Borra s t) :
    ComentarioCompleto t → ComentarioCompleto s := by
  induction h with
  | refl s => exact id
  | paso a b c t hj _ ih => exact fun ht => comentario_paso a b c hj (ih ht)

theorem Borra_cons (x : Byte) (s t : GoString) (h : Borra s t) : Borra (x :: s) (x :: t) := by
  induction h with
  | refl s => exact Borra.refl _
  | paso a b c t hj _ ih =>
    have hj' : JuntoAEtiqueta (x :: a) b := by
      rcases hj with hj | hj
      · left
        cases a with
        | nil => simp at hj
        | cons a0 as => simpa [List.getLast?_cons_cons] using hj
      · exact Or.inr hj
    exact Borra.paso (x :: a) b c (x :: t) hj' ih

theorem Borra_append (p s t : GoString) (h : Borra s t) : Borra (p ++ s) (p ++ t) := by
  induction p with
  | nil => exact h
  | cons x p ih => exact Borra_cons x _ _ ih

theorem replaceAllAux_skip (old new : GoString) (k : Nat) :
    ∀ cs : GoString, replaceAllAux old new k cs = replaceAllAux old new 0 (cs.drop k) := by
  induction k with
  | zero => intro cs; rfl
  | succ k ih =>
    intro cs
    cases cs with
    | nil => simp [replaceAllAux]
    | cons c cs => simp only [replaceAllAux, List.drop_succ_cons]; exact ih cs

/-- `ReplaceAll` only deletes bytes next to a tag when each single replacement of `old`
by `new` does. -/
theorem Borra_replaceAll (old new : GoString) (hold : old ≠ [])
    (hstep : ∀ u t, Borra (new ++ u) t → Borra (old ++ u) t) (n : Nat) :
    ∀ s : GoString, s.length ≤ n → Borra s (ReplaceAll s old new) := by
  induction n with
  | zero =>
    intro s hs
    have : s = [] := List.length_eq_zero.1 (Nat.le_zero.1 hs)
    subst this
    exact Borra.refl _
  | succ n ih =>
    intro s hs
    cases s with
    | nil => exact Borra.refl _
    | cons c cs =>
      simp only [ReplaceAll, replaceAllAux]
      split_ifs with hp
      · obtain ⟨rest, hrest⟩ := List.isPrefixOf_iff_prefix.1 hp
        have hlen : 0 < old.length := List.length_pos.2 hold
        have hdrop : cs.drop (old.length - 1) = rest := by
          have h1 : (c :: cs).drop old.length = rest := by
            rw [← hrest, List.drop_left]
          have h2 : old.length = (old.length - 1) + 1 := by omega
          rw [h2, List.drop_succ_cons] at h1
          exact h1
        rw [replaceAllAux_skip, hdrop, ← hrest]
        apply hstep
        apply Borra_append
        have hrl : rest.length ≤ n := by
          have := congrArg List.length hrest
          simp only [List.length_append, List.length_cons] at this
          simp only [List.length_cons] at hs
          omega
        exact ih rest hrl
      · apply Borra_cons
        exact ih cs (by simpa using hs)

theorem Borra_paso_gt_nl (u t : GoString) (h : Borra (bytesOf ">" ++ u) t) :
    Borra (bytesOf ">\n" ++ u) t :=
  Borra.paso [62] u 10 t (Or.inl rfl) h

theorem Borra_paso_nl_lt (u t : GoString) (h : Borra (bytesOf "<" ++ u) t) :
    Borra (bytesOf "\n<" ++ u) t :=
  Borra.paso [] (60 :: u) 10 t (Or.inr rfl) h

theorem Borra_paso_blanco (u t : GoString) (h : Borra (bytesOf "><" ++ u) t) :
    Borra (bytesOf "> <" ++ u) t :=
  Borra.paso [62] (60 :: u) 32 t (Or.inl rfl) h

theorem Borra_paso_tab (u t : GoString) (h : Borra (bytesOf "><" ++ u) t) :
    Borra (bytesOf ">\t<" ++ u) t :=
  Borra.paso [62] (60 :: u) 9 t (Or.inl rfl) h

theorem Borra_paso_dos_blancos (u t : GoString) (h : Borra (bytesOf "><" ++ u) t) :
    Borra (bytesOf ">  <" ++ u) t :=
  Borra.paso [62] (32 :: 60 :: u) 32 t (Or.inl rfl)
    (Borra.paso [62] (60 :: u) 32 t (Or.inl rfl) h)

/-- C27: for every input the comment loop of `GenerateCanonicalXML` ends through one
of its `break`s within as many iterations as the string has bytes (more iterations
give the same result), and the returned output contains no complete XML comment: no
occurrence of `<!--` followed at or after its position by an occurrence of `-->`. -/
theorem C27_GenerateCanonicalXML_no_comment (xmlData : GoString) :
    (∀ s : GoString, stripCommentsBreaks (stripCommentsLoop s.length s) = true ∧
      ∀ n, s.length ≤ n → stripCommentsLoop n s = stripCommentsLoop s.length s) ∧
    ∃ out, GenerateCanonicalXML xmlData = .ok out ∧ ¬ ComentarioCompleto out := by
  refine ⟨fun s => ⟨stripCommentsLoop_breaks _ s (le_refl _),
    fun n hn => stripCommentsLoop_fuel s.length n s (le_refl _) hn⟩, ?_⟩
  refine ⟨_, rfl, ?_⟩
  intro hc
  have h5 := comentario_of_borra _ _
    (Borra_replaceAll (bytesOf ">\t<") (bytesOf "><") (by decide) Borra_paso_tab _ _ (le_refl _)) hc
  have h4 := comentario_of_borra _ _
    (Borra_replaceAll (bytesOf "> <") (bytesOf "><") (by decide) Borra_paso_blanco _ _ (le_refl _)) h5
  have h3 := comentario_of_borra _ _
    (Borra_replaceAll (bytesOf ">  <") (bytesOf "><") (by decide) Borra_paso_dos_blancos _ _
      (le_refl _)) h4
  have h2 := comentario_of_borra _ _
    (Borra_replaceAll (bytesOf "\n<") (bytesOf "<") (by decide) Borra_paso_nl_lt _ _ (le_refl _)) h3
  have h1 := comentario_of_borra _ _
    (Borra_replaceAll (bytesOf ">\n") (bytesOf ">") (by decide) Borra_paso_gt_nl _ _ (le_refl _)) h2
  exact no_comentario_of_breaks _ (stripCommentsLoop_breaks _ _ (le_refl _)) h1

/-! ### Lemmas on `AddDigitalSignature` -/

/-- What `strings.Index` returns: `-1` when there is no occurrence, the position of the
first occurrence otherwise. -/
theorem Index_spec (s sep : GoString) :
    (Index s sep = -1 ∧ ∀ i, ¬ sep <+: s.drop i) ∨
    ∃ k : Nat, Index s sep = (k : Int) ∧ sep <+: s.drop k ∧ ∀ i, i < k → ¬ sep <+: s.drop i := by
  rcases Index_cases s sep with ⟨h1, h2⟩ | ⟨k, h1, h2⟩
  · exact Or.inl ⟨h1, indexOf?_none sep s h2⟩
  · exact Or.inr ⟨k, h1, indexOf?_some sep s k h2⟩

/-- The first occurrence is the one found. -/
theorem indexOf?_eq_some (sep s : GoString) (k : Nat) (h1 : sep <+: s.drop k)
    (h2 : ∀ i, i < k → ¬ sep <+: s.drop i) : indexOf? s sep = some k := by
  cases h : indexOf? s sep with
  | none => exact absurd h1 (indexOf?_none sep s h k)
  | some j =>
    obtain ⟨h3, h4⟩ := indexOf?_some sep s j h
    have : j = k := by
      rcases Nat.lt_trichotomy j k with hlt | heq | hgt
      · exact absurd h3 (h2 j hlt)
      · exact heq
      · exact absurd h1 (h4 k hgt)
    rw [this]

theorem prefix_split (sep s : GoString) (i : Nat) (h : sep <+: s.drop i) :
    s = s.take i ++ sep ++ s.drop (i + sep.length) := by
  obtain ⟨w, hw⟩ := h
  have h1 : s.drop (i + sep.length) = w := by
    rw [← List.drop_drop, ← hw, List.drop_left]
  rw [h1, List.append_assoc, hw, List.take_append_drop]

theorem etiquetaAbre_eq : etiquetaAbre =
    [60, 101, 120, 116, 58, 69, 120, 116, 101, 110, 115, 105, 111, 110, 67, 111, 110, 116,
     101, 110, 116, 62] := by decide

theorem etiquetaCierra_eq : etiquetaCierra =
    [60, 47, 101, 120, 116, 58, 69, 120, 116, 101, 110, 115, 105, 111, 110, 67, 111, 110, 116,
     101, 110, 116, 62] := by decide

/-- A closing tag found in a string that starts with the opening tag lies after the
opening tag. -/
theorem cierra_despues_de_abre (t : GoString) (k : Nat) (h1 : etiquetaAbre <+: t)
    (h2 : etiquetaCierra <+: t.drop k) : 22 ≤ k := by
  obtain ⟨w, rfl⟩ := h1
  by_contra hlt
  have hk : k < 22 := by omega
  rw [etiquetaAbre_eq, etiquetaCierra_eq] at h2
  interval_cases k <;> simp at h2

theorem sliceFrom_cast (s : GoString) (n : Nat) : sliceFrom s (n : Int) = s.drop n := by
  simp [sliceFrom]

theorem sliceTo_cast (s : GoString) (n : Nat) : sliceTo s (n : Int) = s.take n := by
  simp [sliceTo]

/-- `AddDigitalSignature` on a document with an extension block and a placeholder, on
the positions that its searches find. -/
theorem AddDigitalSignature_placeholder
    (marshalIndent : DigitalSignature → Except GoError GoString) (xml : GoString)
    (sig : DigitalSignature) (sigXML : GoString) (rs te e c k : Nat)
    (hr : findRootStart xml = (rs : Int))
    (ht : indexOf? (xml.drop rs) (bytesOf ">") = some te)
    (he : indexOf? (xml.drop (rs + te + 1)) (bytesOf "<ext:UBLExtensions>") = some e)
    (hc : indexOf? (xml.drop (rs + te + 1 + e)) etiquetaAbre = some c)
    (hk : indexOf? (xml.drop (rs + te + 1 + e + c)) etiquetaCierra = some k)
    (hm : marshalIndent sig = .ok sigXML) :
    AddDigitalSignature marshalIndent xml sig =
      .ok (xml.take (rs + te + 1 + e + c + 22) ++ bytesOf "\n" ++ sigXML ++ bytesOf "\n\t\t\t"
        ++ xml.drop (rs + te + 1 + e + c + k)) := by
  have e1 : ((te : Int) + ((rs : Int) + 1)) = ((rs + te + 1 : Nat) : Int) := by push_cast; ring
  have e2 : ((rs + te + 1 : Nat) : Int) + (e : Int) = ((rs + te + 1 + e : Nat) : Int) := by
    push_cast; ring
  have e3 : ((rs + te + 1 + e : Nat) : Int) + (c : Int) = ((rs + te + 1 + e + c : Nat) : Int) := by
    push_cast; ring
  have e4 : ((rs + te + 1 + e + c : Nat) : Int) + ((bytesOf "<ext:ExtensionContent>").length : Int)
      = ((rs + te + 1 + e + c + 22 : Nat) : Int) := by
    have : (bytesOf "<ext:ExtensionContent>").length = 22 := by decide
    rw [this]; push_cast; ring
  have e5 : (k : Int) + ((rs + te + 1 + e + c : Nat) : Int)
      = ((rs + te + 1 + e + c + k : Nat) : Int) := by push_cast; ring
  have n1 : ∀ n : Nat, ¬ ((n : Int) = -1) := fun n => by omega
  have i1 := Index_of_some _ _ _ ht
  have i2 := Index_of_some _ _ _ he
  have i3 := Index_of_some _ _ _ hc
  have i4 := Index_of_some _ _ _ hk
  simp only [etiquetaAbre, etiquetaCierra] at i3 i4
  simp only [AddDigitalSignature, hr, n1, if_false, sliceFrom_cast, i1, e1, i2, e2, i3, e3, hm,
    i4, e4, e5, sliceTo_cast]

/-- The first occurrence in a string is the first occurrence in every extension of it. -/
theorem indexOf?_append (a b sep : GoString) (k : Nat) (hne : sep ≠ [])
    (h : indexOf? a sep = some k) : indexOf? (a ++ b) sep = some k := by
  obtain ⟨h1, h2⟩ := indexOf?_some sep a k h
  have hlen := prefix_drop_length sep a k h1 hne
  apply indexOf?_eq_some
  · rw [List.drop_append_of_le_length (by omega)]
    exact h1.trans (List.prefix_append _ _)
  · intro i hi hp
    rw [List.drop_append_of_le_length (by omega)] at hp
    refine h2 i hi (List.prefix_of_prefix_length_le hp (List.prefix_append _ _) ?_)
    simp only [List.length_drop]
    omega

/-- An occurrence search after a part without occurrences. -/
theorem indexOf?_prepend (pre t sep : GoString) (k : Nat) (h : indexOf? t sep = some k)
    (hno : ∀ i, i < pre.length → ¬ sep <+: (pre ++ t).drop i) :
    indexOf? (pre ++ t) sep = some (pre.length + k) := by
  obtain ⟨h1, h2⟩ := indexOf?_some sep t k h
  apply indexOf?_eq_some
  · rw [← List.drop_drop, List.drop_left]
    exact h1
  · intro i hi
    by_cases hlt : i < pre.length
    · exact hno i hlt
    · have hi2 : i = pre.length + (i - pre.length) := by omega
      rw [hi2, ← List.drop_drop, List.drop_left]
      exact h2 _ (by omega)

/-- The opening tag of the placeholder does not start before an inserted tab when the
document has no such tag. -/
theorem sin_abre_antes (xml t : GoString) (ins i : Nat) (hins : ins ≤ xml.length)
    (ho : ∀ j, ¬ etiquetaAbre <+: xml.drop j) (hi : i < ins) :
    ¬ etiquetaAbre <+: (xml.take ins ++ (9 :: t)).drop i := by
  intro h
  rw [List.drop_append_of_le_length (by simp only [List.length_take]; omega)] at h
  have hlen : ((xml.take ins).drop i).length = ins - i := by
    simp only [List.length_drop, List.length_take]; omega
  by_cases hc : 22 ≤ ins - i
  · have h1 : etiquetaAbre <+: (xml.take ins).drop i :=
      List.prefix_of_prefix_length_le h (List.prefix_append _ _) (by
        rw [hlen]; exact hc)
    have h2 : (xml.take ins).drop i <+: xml.drop i := by
      rw [List.drop_take]
      exact List.take_prefix _ _
    exact ho i (h1.trans h2)
  · have h1 : (xml.take ins).drop i ++ [9] <+: (xml.take ins).drop i ++ 9 :: t := by
      refine ⟨t, ?_⟩
      simp
    have h2 : (xml.take ins).drop i ++ [9] <+: etiquetaAbre :=
      List.prefix_of_prefix_length_le h1 h (by
        simp only [List.length_append, hlen, List.length_singleton]
        have : etiquetaAbre.length = 22 := by decide
        omega)
    have h3 : (9 : Fin 256) ∈ etiquetaAbre := h2.subset (by simp)
    revert h3
    decide

theorem extensionsXML_abre : indexOf? extensionsXML etiquetaAbre = some 45 := by decide!

theorem extensionsXML_cierra :
    indexOf? (extensionsXML.drop 45) etiquetaCierra = some 26 := by decide!

theorem extensionsXML_cons : extensionsXML = 9 :: extensionsXML.tail := by decide!

theorem extensionsXML_take : extensionsXML.take 67 = extensionsAntes := by decide!

theorem extensionsXML_drop : extensionsXML.drop 71 = extensionsDespues := by decide!

theorem extensionsXML_length : extensionsXML.length = 140 := by decide!

/-- One pass of the loop over `childElements` keeps the smallest position found so far. -/
theorem firstChildStep_inv (s : GoString) (done : List GoString) (v : Int) (c : GoString)
    (h : (v = -1 ∧ ∀ d ∈ done, ∀ i, ¬ d <+: s.drop i) ∨
      ∃ f : Nat, v = (f : Int) ∧ (∃ d ∈ done, d <+: s.drop f) ∧
        ∀ d ∈ done, ∀ i, i < f → ¬ d <+: s.drop i) :
    (firstChildStep s v c = -1 ∧ ∀ d ∈ done ++ [c], ∀ i, ¬ d <+: s.drop i) ∨
      ∃ f : Nat, firstChildStep s v c = (f : Int) ∧ (∃ d ∈ done ++ [c], d <+: s.drop f) ∧
        ∀ d ∈ done ++ [c], ∀ i, i < f → ¬ d <+: s.drop i := by
  unfold firstChildStep
  rcases Index_spec s c with ⟨hc1, hc2⟩ | ⟨k, hc1, hc2, hc3⟩
  · simp only [hc1, ne_eq, not_true_eq_false, false_and, if_false]
    rcases h with ⟨hv, hd⟩ | ⟨f, hv, hd1, hd2⟩
    · left
      refine ⟨hv, fun d hd0 i => ?_⟩
      rcases List.mem_append.1 hd0 with hm | hm
      · exact hd d hm i
      · rw [List.mem_singleton.1 hm]; exact hc2 i
    · right
      obtain ⟨d, hd3, hd4⟩ := hd1
      refine ⟨f, hv, ⟨d, List.mem_append_left _ hd3, hd4⟩, fun d0 hd0 i hi => ?_⟩
      rcases List.mem_append.1 hd0 with hm | hm
      · exact hd2 d0 hm i hi
      · rw [List.mem_singleton.1 hm]; exact hc2 i
  · have hk : ¬ ((k : Int) = -1) := by omega
    right
    rcases h with ⟨hv, hd⟩ | ⟨f, hv, hd1, hd2⟩
    · refine ⟨k, ?_, ⟨c, by simp, hc2⟩, fun d0 hd0 i hi => ?_⟩
      · simp only [hc1, hv, ne_eq, hk, not_false_eq_true, true_or, and_self, if_true]
      · rcases List.mem_append.1 hd0 with hm | hm
        · exact hd d0 hm i
        · rw [List.mem_singleton.1 hm]; exact hc3 i hi
    · obtain ⟨d, hd3, hd4⟩ := hd1
      by_cases hlt : k < f
      · refine ⟨k, ?_, ⟨c, by simp, hc2⟩, fun d0 hd0 i hi => ?_⟩
        · have : (k : Int) < (f : Int) := by omega
          simp only [hc1, hv, ne_eq, hk, not_false_eq_true, this, or_true, and_self, if_true]
        · rcases List.mem_append.1 hd0 with hm | hm
          · exact hd2 d0 hm i (by omega)
          · rw [List.mem_singleton.1 hm]; exact hc3 i hi
      · refine ⟨f, ?_, ⟨d, List.mem_append_left _ hd3, hd4⟩, fun d0 hd0 i hi => ?_⟩
        · have h1 : ¬ ((k : Int) < (f : Int)) := by omega
          have h2 : ¬ ((f : Int) = -1) := by omega
          simp only [hc1, hv, ne_eq, h1, h2, or_self, and_false, if_false]
        · rcases List.mem_append.1 hd0 with hm | hm
          · exact hd2 d0 hm i hi
          · rw [List.mem_singleton.1 hm]; exact hc3 i (by omega)

/-- What the loop over `childElements` finds: the first position at which one of the
three child elements starts. -/
theorem findFirstChild_spec (s : GoString) (f : Nat) (h : findFirstChild s = (f : Int)) :
    (∃ d ∈ childElements, d <+: s.drop f) ∧
      ∀ d ∈ childElements, ∀ i, i < f → ¬ d <+: s.drop i := by
  have h0 : ((-1 : Int) = -1 ∧ ∀ d ∈ ([] : List GoString), ∀ i, ¬ d <+: s.drop i) ∨
      ∃ f : Nat, (-1 : Int) = (f : Int) ∧ (∃ d ∈ ([] : List GoString), d <+: s.drop f) ∧
        ∀ d ∈ ([] : List GoString), ∀ i, i < f → ¬ d <+: s.drop i :=
    Or.inl ⟨rfl, fun d hd => absurd hd (List.not_mem_nil d)⟩
  have h1 := firstChildStep_inv s [] (-1) (bytesOf "<cbc:UBLVersionID>") h0
  have h2 := firstChildStep_inv s _ _ (bytesOf "<cbc:CustomizationID>") h1
  have h3 := firstChildStep_inv s _ _ (bytesOf "<cbc:ID>") h2
  have h4 : findFirstChild s = firstChildStep s (firstChildStep s (firstChildStep s (-1)
      (bytesOf "<cbc:UBLVersionID>")) (bytesOf "<cbc:CustomizationID>")) (bytesOf "<cbc:ID>") :=
    rfl
  rw [← h4, h] at h3
  rcases h3 with ⟨hv, _⟩ | ⟨g, hv, hd1, hd2⟩
  · omega
  · have hg : g = f := by omega
    subst hg
    exact ⟨hd1, hd2⟩

theorem childElements_ne_nil (d : GoString) (hd : d ∈ childElements) : d ≠ [] := by
  simp only [childElements, List.mem_cons, List.mem_singleton, List.not_mem_nil, or_false] at hd
  rcases hd with rfl | rfl | rfl <;> decide

/-- `AddDigitalSignature` on a document without an extension block, on the positions
that its searches find. -/
theorem AddDigitalSignature_sin_extensiones
    (marshalIndent : DigitalSignature → Except GoError GoString) (xml : GoString)
    (sig : DigitalSignature) (sigXML : GoString) (rs te f : Nat)
    (hr : findRootStart xml = (rs : Int))
    (ht : indexOf? (xml.drop rs) (bytesOf ">") = some te)
    (he : indexOf? (xml.drop (rs + te + 1)) (bytesOf "<ext:UBLExtensions>") = none)
    (hf : findFirstChild (xml.drop (rs + te + 1)) = (f : Int))
    (ho : indexOf? xml etiquetaAbre = none)
    (hm : marshalIndent sig = .ok sigXML) :
    AddDigitalSignature marshalIndent xml sig =
      .ok (xml.take (rs + te + 1 + f) ++ extensionsAntes ++ bytesOf "\n" ++ sigXML
        ++ bytesOf "\n\t\t\t" ++ extensionsDespues ++ xml.drop (rs + te + 1 + f)) := by
  obtain ⟨⟨d, hd1, hd2⟩, _⟩ := findFirstChild_spec _ f hf
  have hins : rs + te + 1 + f ≤ xml.length := by
    have h1 := prefix_drop_length d _ f hd2 (childElements_ne_nil d hd1)
    have h2 := List.length_pos.2 (childElements_ne_nil d hd1)
    simp only [List.length_drop] at h1
    omega
  have hlen : (xml.take (rs + te + 1 + f)).length = rs + te + 1 + f := by
    simp only [List.length_take]; omega
  have hidx : indexOf? (xml.take (rs + te + 1 + f) ++ extensionsXML ++ xml.drop (rs + te + 1 + f))
      etiquetaAbre = some (rs + te + 1 + f + 45) := by
    rw [List.append_assoc]
    have h1 := indexOf?_prepend (xml.take (rs + te + 1 + f))
      (extensionsXML ++ xml.drop (rs + te + 1 + f)) etiquetaAbre 45
      (indexOf?_append _ _ _ _ (by decide) extensionsXML_abre) (by
        intro i hi
        rw [hlen] at hi
        rw [extensionsXML_cons, List.cons_append]
        exact sin_abre_antes xml _ _ i hins (indexOf?_none _ _ ho) hi)
    rw [hlen] at h1
    exact h1
  have hdrop : (xml.take (rs + te + 1 + f) ++ extensionsXML ++ xml.drop (rs + te + 1 + f)).drop
      (rs + te + 1 + f + 45) = extensionsXML.drop 45 ++ xml.drop (rs + te + 1 + f) := by
    rw [List.append_assoc, ← List.drop_drop]
    nth_rewrite 1 [← hlen]
    rw [List.drop_left, List.drop_append_of_le_length (by rw [extensionsXML_length]; omega)]
  have hcl : indexOf? ((xml.take (rs + te + 1 + f) ++ extensionsXML
      ++ xml.drop (rs + te + 1 + f)).drop (rs + te + 1 + f + 45)) etiquetaCierra = some 26 := by
    rw [hdrop]
    exact indexOf?_append _ _ _ _ (by decide) extensionsXML_cierra
  have htake : (xml.take (rs + te + 1 + f) ++ extensionsXML ++ xml.drop (rs + te + 1 + f)).take
      (rs + te + 1 + f + 45 + 22) = xml.take (rs + te + 1 + f) ++ extensionsAntes := by
    rw [List.append_assoc, List.take_append_eq_append_take, hlen,
      List.take_of_length_le (by rw [hlen]; omega),
      List.take_append_of_le_length (by rw [extensionsXML_length]; omega)]
    have : rs + te + 1 + f + 45 + 22 - (rs + te + 1 + f) = 67 := by omega
    rw [this, extensionsXML_take]
  have hdrop2 : (xml.take (rs + te + 1 + f) ++ extensionsXML ++ xml.drop (rs + te + 1 + f)).drop
      (rs + te + 1 + f + 45 + 26) = extensionsDespues ++ xml.drop (rs + te + 1 + f) := by
    rw [← List.drop_drop, hdrop, List.drop_append_of_le_length (by
      simp only [List.length_drop, extensionsXML_length]; omega), List.drop_drop]
    exact congrArg (· ++ xml.drop (rs + te + 1 + f)) extensionsXML_drop
  have e1 : ((te : Int) + ((rs : Int) + 1)) = ((rs + te + 1 : Nat) : Int) := by push_cast; ring
  have e2 : ((rs + te + 1 : Nat) : Int) + (f : Int) = ((rs + te + 1 + f : Nat) : Int) := by
    push_cast; ring
  have e4 : ((rs + te + 1 + f + 45 : Nat) : Int)
      + ((bytesOf "<ext:ExtensionContent>").length : Int)
      = ((rs + te + 1 + f + 45 + 22 : Nat) : Int) := by
    have : (bytesOf "<ext:ExtensionContent>").length = 22 := by decide
    rw [this]; push_cast; ring
  have e5 : ((26 : Nat) : Int) + ((rs + te + 1 + f + 45 : Nat) : Int)
      = ((rs + te + 1 + f + 45 + 26 : Nat) : Int) := by push_cast; ring
  have n1 : ∀ n : Nat, ¬ ((n : Int) = -1) := fun n => by omega
  have i1 := Index_of_some _ _ _ ht
  have i2 := (Index_eq_neg_one _ _).2 he
  have i3 := Index_of_some _ _ _ hidx
  have i4 := Index_of_some _ _ _ hcl
  simp only [etiquetaAbre, etiquetaCierra] at i3 i4
  simp only [AddDigitalSignature, hr, n1, if_false, sliceFrom_cast, i1, e1, i2, if_true, hf, e2,
    sliceTo_cast, i3, hm, i4, e4, e5, htake, hdrop2]
  simp only [List.append_assoc]

theorem prefix_take (sep s : GoString) (i : Nat) (h : sep <+: s.drop i) :
    s.take (i + sep.length) = s.take i ++ sep := by
  obtain ⟨w, hw⟩ := h
  rw [List.take_add, ← hw, List.take_left]

theorem prefix_drop_eq (sep s : GoString) (i : Nat) (h : sep <+: s.drop i) :
    s.drop i = sep ++ s.drop (i + sep.length) := by
  obtain ⟨w, hw⟩ := h
  rw [← List.drop_drop, ← hw, List.drop_left]

/-- C29: let `AddDigitalSignature` find the root element of `xml` at `rs` and the end of
the root tag at `rs + te`, and let the serialisation of the signature give `sigXML`.
(1) When the text after the root tag has `<ext:UBLExtensions>` at `e`, the opening tag of
the placeholder at `c` after it (position `p = rs + te + 1 + e + c` of the document) and
the closing tag at `k` after that, the document is
`before ++ open ++ content ++ close ++ after` with `before` its first `p` bytes, and the
result is `before ++ open ++ "\n" ++ sigXML ++ "\n\t\t\t" ++ close ++ after`: the bytes
up to the end of the opening tag and from the closing tag on are those of the document,
and between them stands the signature.
(2) When the text after the root tag has no `<ext:UBLExtensions>`, the first of the three
child elements starts at `f` after the root tag and the document has no placeholder tag,
the result is the document with the extension block, holding the signature in its
placeholder, inserted at `rs + te + 1 + f`, where one of the three child elements starts
and before which none of them starts after the root tag. -/
theorem C29_AddDigitalSignature_frame
    (marshalIndent : DigitalSignature → Except GoError GoString) (xml : GoString)
    (sig : DigitalSignature) (sigXML : GoString) (rs te : Nat)
    (hr : findRootStart xml = (rs : Int))
    (ht : indexOf? (xml.drop rs) (bytesOf ">") = some te)
    (hm : marshalIndent sig = .ok sigXML) :
    (∀ e c k : Nat,
      indexOf? (xml.drop (rs + te + 1)) (bytesOf "<ext:UBLExtensions>") = some e →
      indexOf? (xml.drop (rs + te + 1 + e)) etiquetaAbre = some c →
      indexOf? (xml.drop (rs + te + 1 + e + c)) etiquetaCierra = some k →
      22 ≤ k ∧
      xml = xml.take (rs + te + 1 + e + c) ++ etiquetaAbre
          ++ (xml.drop (rs + te + 1 + e + c + 22)).take (k - 22) ++ etiquetaCierra
          ++ xml.drop (rs + te + 1 + e + c + k + 23) ∧
      AddDigitalSignature marshalIndent xml sig =
        .ok (xml.take (rs + te + 1 + e + c) ++ etiquetaAbre ++ bytesOf "\n" ++ sigXML
          ++ bytesOf "\n\t\t\t" ++ etiquetaCierra
          ++ xml.drop (rs + te + 1 + e + c + k + 23))) ∧
    (∀ f : Nat,
      indexOf? (xml.drop (rs + te + 1)) (bytesOf "<ext:UBLExtensions>") = none →
      findFirstChild (xml.drop (rs + te + 1)) = (f : Int) →
      indexOf? xml etiquetaAbre = none →
      AddDigitalSignature marshalIndent xml sig =
        .ok (xml.take (rs + te + 1 + f) ++ extensionsAntes ++ bytesOf "\n" ++ sigXML
          ++ bytesOf "\n\t\t\t" ++ extensionsDespues ++ xml.drop (rs + te + 1 + f)) ∧
      (∃ child ∈ childElements, child <+: xml.drop (rs + te + 1 + f)) ∧
      ∀ child ∈ childElements, ∀ i, rs + te + 1 ≤ i → i < rs + te + 1 + f →
        ¬ child <+: xml.drop i) := by
  constructor
  · intro e c k he hc hk
    have ha : etiquetaAbre.length = 22 := by decide
    have hb : etiquetaCierra.length = 23 := by decide
    have h1 : etiquetaAbre <+: xml.drop (rs + te + 1 + e + c) := by
      have := (indexOf?_some _ _ _ hc).1
      rwa [List.drop_drop] at this
    have h2 : etiquetaCierra <+: xml.drop (rs + te + 1 + e + c + k) := by
      have := (indexOf?_some _ _ _ hk).1
      rwa [List.drop_drop] at this
    have hk22 : 22 ≤ k := by
      refine cierra_despues_de_abre (xml.drop (rs + te + 1 + e + c)) k h1 ?_
      rwa [List.drop_drop]
    have h3 := prefix_take _ _ _ h1
    have h4 := prefix_drop_eq _ _ _ h2
    rw [ha] at h3
    rw [hb] at h4
    refine ⟨hk22, ?_, ?_⟩
    · have h5 : xml.drop (rs + te + 1 + e + c + 22)
          = (xml.drop (rs + te + 1 + e + c + 22)).take (k - 22)
            ++ xml.drop (rs + te + 1 + e + c + k) := by
        have h6 : (xml.drop (rs + te + 1 + e + c + 22)).drop (k - 22)
            = xml.drop (rs + te + 1 + e + c + k) := by
          rw [List.drop_drop]
          congr 1
          omega
        rw [← h6, List.take_append_drop]
      have h7 := List.take_append_drop (rs + te + 1 + e + c + 22) xml
      rw [h3, h5, h4] at h7
      simp only [List.append_assoc] at h7 ⊢
      exact h7.symm
    · rw [AddDigitalSignature_placeholder marshalIndent xml sig sigXML rs te e c k hr ht he hc hk
        hm, h3, h4]
      simp only [List.append_assoc]
  · intro f he hf ho
    refine ⟨AddDigitalSignature_sin_extensiones marshalIndent xml sig sigXML rs te f hr ht he hf
      ho hm, ?_, ?_⟩
    · obtain ⟨⟨d, hd1, hd2⟩, _⟩ := findFirstChild_spec _ f hf
      rw [List.drop_drop] at hd2
      exact ⟨d, hd1, hd2⟩
    · intro child hchild i hi1 hi2
      have h1 := (findFirstChild_spec _ f hf).2 child hchild (i - (rs + te + 1)) (by omega)
      rw [List.drop_drop] at h1
      have h2 : rs + te + 1 + (i - (rs + te + 1)) = i := by omega
      rwa [h2] at h1

/-- C29 at the two example documents: the document with an empty placeholder and the
document without an extension block, with the example encoder and signature. -/
theorem C29_AddDigitalSignature_frame_witness :
    AddDigitalSignature marshalIndentDemo docFirma firmaDemo =
        .ok (docFirma.take 107 ++ etiquetaAbre ++ bytesOf "\n"
          ++ xmlSignature (some (bytesOf "\t\t\t\t", bytesOf "  ")) firmaDemo
          ++ bytesOf "\n\t\t\t" ++ etiquetaCierra ++ docFirma.drop 152) ∧
    AddDigitalSignature marshalIndentDemo docSinExtensiones firmaDemo =
        .ok (docSinExtensiones.take 67 ++ extensionsAntes ++ bytesOf "\n"
          ++ xmlSignature (some (bytesOf "\t\t\t\t", bytesOf "  ")) firmaDemo
          ++ bytesOf "\n\t\t\t" ++ extensionsDespues ++ docSinExtensiones.drop 67) :=
  ⟨((C29_AddDigitalSignature_frame marshalIndentDemo docFirma firmaDemo _ 38 22
      (by decide!) (by decide!) rfl).1 2 44 22 (by decide!) (by decide!) (by decide!)).2.2,
   ((C29_AddDigitalSignature_frame marshalIndentDemo docSinExtensiones firmaDemo _ 39 22
      (by decide!) (by decide!) rfl).2 5 (by decide!) (by decide!) (by decide!)).1⟩

/-! ### `VerifySignature` under the decoder of `encoding/xml` -/

/-- The text that `extractSignature` hands to the decoder starts with `<ds:Signature`. -/
theorem extractSignatureXML_starts (xmlData x : GoString)
    (h : extractSignatureXML xmlData = .ok x) : bytesOf "<ds:Signature" <+: x := by
  unfold extractSignatureXML at h
  rcases Index_cases xmlData (bytesOf "<ds:Signature") with ⟨h1, -⟩ | ⟨k, h1, h2⟩
  · simp [h1] at h
  · have hk : ¬ ((k : Int) = -1) := by omega
    simp only [h1, hk, if_false, sliceFrom_cast] at h
    rcases Index_cases (xmlData.drop k) (bytesOf "</ds:Signature>") with ⟨h3, -⟩ | ⟨e, h3, -⟩
    · simp [h3] at h
    · have he : ¬ ((e : Int) = -1) := by omega
      simp only [h3, he, if_false, Except.ok.injEq] at h
      have hlen : (bytesOf "</ds:Signature>").length = 15 := by decide
      have hto : ((k : Int) + (e : Int) + ((15 : Nat) : Int)).toNat = k + e + 15 := by omega
      rw [← h, slice, hlen, hto, Int.toNat_ofNat, List.drop_take]
      have hp := (indexOf?_some _ _ k h2).1
      have h13 : (bytesOf "<ds:Signature").length = 13 := by decide
      exact List.prefix_take_iff.2 ⟨hp, by rw [h13]; omega⟩

/-- When the decoder rejects every text that starts with `<ds:Signature`,
`VerifySignature` returns `false` with an error on every document. -/
theorem VerifySignature_error (L : SignLib)
    (hdec : ∀ data, bytesOf "<ds:Signature" <+: data →
      ∃ e, L.UnmarshalSignature data = .error e)
    (t : GoString) : ∃ e, VerifySignature L t = .error e := by
  unfold VerifySignature extractSignature
  cases hx : extractSignatureXML t with
  | error err => exact ⟨_, rfl⟩
  | ok x =>
    obtain ⟨e, he⟩ := hdec x (extractSignatureXML_starts t x hx)
    simp only [he]
    exact ⟨_, rfl⟩

/-- C4: let the XML decoder reject every text that starts with `<ds:Signature`, as
`encoding/xml` does for `models.DigitalSignature` (its `XMLName` tag `ds:Signature` is
compared with the local name of the element, which has no prefix).  Then for every
document `s` that `SignDocument` returns, every position `i` of `s` and every byte `b`
other than the byte at `i`, `VerifySignature` on `s` with the byte at `i` replaced by
`b` returns `false` with an error, never `true`.  (Under this decoder
`VerifySignature` returns `false` on every document, the signed one included.) -/
theorem C4_VerifySignature_tampered_rejected (L : SignLib)
    (hdec : ∀ data, bytesOf "<ds:Signature" <+: data →
      ∃ e, L.UnmarshalSignature data = .error e)
    (xmlData certPath certPassword s : GoString)
    (_hs : SignDocument L xmlData certPath certPassword = .ok s)
    (i : Nat) (_hi : i < s.length) (b : Byte) (_hb : s[i]? ≠ some b) :
    (∃ e, VerifySignature L (s.set i b) = .error e) ∧
    VerifySignature L (s.set i b) ≠ .ok true := by
  obtain ⟨e, he⟩ := VerifySignature_error L hdec (s.set i b)
  exact ⟨⟨e, he⟩, by rw [he]; simp⟩

/-- C4 at the signed form of `docFirma` under the example library with the decoder of
`encoding/xml`: with the `1` of `version="1.0"` (byte 15) replaced by `2`, and with
the `F` of the document number replaced by `G`, `VerifySignature` returns `false` with
the decoder's error. -/
theorem C4_VerifySignature_tampered_rejected_witness :
    SignDocument libXML docFirma (bytesOf "cert.p12") [] = .ok signedFirma ∧
    signedFirma[15]? = some (Fin.ofNat 49) ∧
    VerifySignature libXML (signedFirma.set 15 (Fin.ofNat 50)) ≠ .ok true ∧
    VerifySignature libXML (signedFirma.set 15 (Fin.ofNat 50)) =
      .error ("error extrayendo firma: error parseando firma digital: " ++
        "expected element type <ds:Signature> but have <Signature>") :=
  have hs : SignDocument libXML docFirma (bytesOf "cert.p12") [] = .ok signedFirma := by
    decide!
  have h15 : signedFirma[15]? = some (Fin.ofNat 49) := by decide!
  ⟨hs, h15,
   (C4_VerifySignature_tampered_rejected libXML (fun _ _ => ⟨_, rfl⟩) docFirma
     (bytesOf "cert.p12") [] signedFirma hs 15 (by decide!) (Fin.ofNat 50)
     (by rw [h15]; decide)).2,
   by decide!⟩
end Sunat
